import Mathlib

/-!
# Monitoring integrated service: interactive request builders

A shallow embedding of `internal/cli/command/cluster/integratedservice/services/monitoring/manager.go`.

* Go structs are Lean structures with the field names used by the source.
* Go maps (`map[string]T`) are association lists with unique-key update (`GoMap`).
* The interactive code runs in `Prog`: a function from the trace of interactions so far to a
  result (`Except String α`, Go's `(value, error)`) and the extended trace.  Every prompt and
  every backend secret listing appends one `Event`, also when it fails.
* The operator at the terminal and the backend are oracles that see the trace so far, so any
  deterministic operator or backend behaviour is an instance.
-/

namespace Monitoring

/-! ## Go maps -/

/-- A Go `map[string]β`: association list, read with `GoMap.get?`, written with `GoMap.set`. -/
abbrev GoMap (β : Type) := List (String × β)

/-- Map read `m[k]` with the `ok` flag: the value of the first entry with key `k`. -/
def GoMap.get? {β : Type} : GoMap β → String → Option β
  | [], _ => none
  | (k', v) :: m, k => if k' = k then some v else GoMap.get? m k

/-- Map write `m[k] = v`: overwrite the entry of `k` when present, else add one. -/
def GoMap.set {β : Type} : GoMap β → String → β → GoMap β
  | [], k, v => [(k, v)]
  | (k', v') :: m, k, v => if k' = k then (k, v) :: m else (k', v') :: GoMap.set m k v

/-! ## Specification types (fields as used by manager.go) -/

/-- Modelled from the spec: struct `baseIngressSpec`, whose declaration is not in manager.go;
fields as the source reads and writes them. -/
structure baseIngressSpec where
  Enabled : Bool
  Domain : String
  Path : String
  deriving DecidableEq, Repr

/-- Modelled from the spec: struct `ingressSpecWithSecret` (embeds `baseIngressSpec`). -/
structure ingressSpecWithSecret where
  baseIngressSpec : baseIngressSpec
  SecretId : String
  deriving DecidableEq, Repr

/-- Modelled from the spec: struct `grafanaSpec`. -/
structure grafanaSpec where
  Enabled : Bool
  SecretId : String
  Ingress : baseIngressSpec
  Dashboards : Bool
  deriving DecidableEq, Repr

/-- Modelled from the spec: struct `storageSpec`; `Size` is a Go `uint` (64 bits). -/
structure storageSpec where
  Class : String
  Size : Nat
  Retention : String
  deriving DecidableEq, Repr

/-- Modelled from the spec: struct `prometheusSpec`. -/
structure prometheusSpec where
  Enabled : Bool
  Storage : storageSpec
  Ingress : ingressSpecWithSecret
  deriving DecidableEq, Repr

/-- Modelled from the spec: struct `slackSpec`. -/
structure slackSpec where
  Enabled : Bool
  SecretId : String
  Channel : String
  SendResolved : Bool
  deriving DecidableEq, Repr

/-- Modelled from the spec: struct `pagerDutySpec`. -/
structure pagerDutySpec where
  Enabled : Bool
  Url : String
  SecretId : String
  IntegrationType : String
  SendResolved : Bool
  deriving DecidableEq, Repr

/-- Modelled from the spec: struct `pushgatewaySpec`. -/
structure pushgatewaySpec where
  Enabled : Bool
  Ingress : ingressSpecWithSecret
  deriving DecidableEq, Repr

/-- Modelled from the spec: struct `exporterBaseSpec`. -/
structure exporterBaseSpec where
  Enabled : Bool
  deriving DecidableEq, Repr

/-- Modelled from the spec: struct `exportersSpec`. -/
structure exportersSpec where
  Enabled : Bool
  NodeExporter : exporterBaseSpec
  KubeStateMetrics : exporterBaseSpec
  deriving DecidableEq, Repr

/-- The zero value of `baseIngressSpec`. -/
def baseIngressSpec.zero : baseIngressSpec := { Enabled := false, Domain := "", Path := "" }

/-- The zero value of `ingressSpecWithSecret`. -/
def ingressSpecWithSecret.zero : ingressSpecWithSecret :=
  { baseIngressSpec := baseIngressSpec.zero, SecretId := "" }

/-- The zero value of `storageSpec`. -/
def storageSpec.zero : storageSpec := { Class := "", Size := 0, Retention := "" }

/-- The zero value of `grafanaSpec`. -/
def grafanaSpec.zero : grafanaSpec :=
  { Enabled := false, SecretId := "", Ingress := baseIngressSpec.zero, Dashboards := false }

/-- The zero value of `prometheusSpec`. -/
def prometheusSpec.zero : prometheusSpec :=
  { Enabled := false, Storage := storageSpec.zero, Ingress := ingressSpecWithSecret.zero }

/-- The zero value of `slackSpec`. -/
def slackSpec.zero : slackSpec :=
  { Enabled := false, SecretId := "", Channel := "", SendResolved := false }

/-- The zero value of `pagerDutySpec`. -/
def pagerDutySpec.zero : pagerDutySpec :=
  { Enabled := false, Url := "", SecretId := "", IntegrationType := "", SendResolved := false }

/-- The zero value of `pushgatewaySpec`. -/
def pushgatewaySpec.zero : pushgatewaySpec :=
  { Enabled := false, Ingress := ingressSpecWithSecret.zero }

/-- The zero value of `exportersSpec`. -/
def exportersSpec.zero : exportersSpec :=
  { Enabled := false, NodeExporter := { Enabled := false },
    KubeStateMetrics := { Enabled := false } }

/-! ## Interaction: prompts, backend listing, traces -/

/-- A confirm prompt (`input.QuestionConfirm`): message and offered default. -/
structure QuestionConfirm where
  Message : String
  DefaultValue : Bool
  deriving DecidableEq, Repr

/-- A free-text prompt (`input.QuestionInput`): message, help text and offered default. -/
structure QuestionInput where
  Message : String
  Help : String
  DefaultValue : String
  deriving DecidableEq, Repr

/-- A single-select prompt (`input.QuestionSelect`): message, offered default and options. -/
structure QuestionSelect where
  Message : String
  DefaultValue : String
  Options : List String
  deriving DecidableEq, Repr

/-- One interaction with the outside world. -/
inductive Event where
  | confirm (q : QuestionConfirm)
  | input (q : QuestionInput)
  | select (q : QuestionSelect)
  | getSecrets (secretType : String)
  deriving DecidableEq, Repr

/-- The operator at the terminal: for each prompt kind, the answer (or the prompt failure)
given the interactions so far and the prompt shown. -/
structure Operator where
  confirm : List Event → QuestionConfirm → Except String Bool
  input : List Event → QuestionInput → Except String String
  select : List Event → QuestionSelect → Except String String

/-- A stored credential as listed by the backend (`pipeline.SecretItem`, fields `Id`, `Name`). -/
structure SecretItem where
  Id : String
  Name : String
  deriving DecidableEq, Repr

/-- The part of `cli.Cli` the builders use: `Client().SecretsApi.GetSecrets` filtered by type. -/
structure Cli where
  GetSecrets : List Event → String → Except String (List SecretItem)

deriving instance DecidableEq for Except

/-- An interactive computation: from the trace so far to a Go `(value, error)` result and the
trace extended by the interactions performed. -/
def Prog (α : Type) : Type := List Event → Except String α × List Event

/-- Return a value, no interaction. -/
def Prog.ret {α : Type} (a : α) : Prog α := fun tr => (Except.ok a, tr)

/-- Return an error, no interaction. -/
def Prog.fail {α : Type} (e : String) : Prog α := fun tr => (Except.error e, tr)

/-- Sequencing with Go's `if err != nil { return nil, err }` after the first step. -/
def Prog.andThen {α β : Type} (m : Prog α) (f : α → Prog β) : Prog β := fun tr =>
  match m tr with
  | (Except.ok a, tr1) => f a tr1
  | (Except.error e, tr1) => (Except.error e, tr1)

/-- The call `errors.WrapIf(err, msg)` applied to the error of a step (messages joined as
emperror does, `msg: cause`). -/
def Prog.wrapIf {α : Type} (m : Prog α) (msg : String) : Prog α := fun tr =>
  match m tr with
  | (Except.ok a, tr1) => (Except.ok a, tr1)
  | (Except.error e, tr1) => (Except.error (msg ++ ": " ++ e), tr1)

instance : Monad Prog where
  pure := Prog.ret
  bind := Prog.andThen

/-- Modelled from the spec: `input.DoQuestions` (package `internal/cli/input`, outside
manager.go) on a single confirm question: shows it, records it, yields the answer. A
batch `DoQuestions [q1, q2, ...]` is the questions asked in sequence, stopping at the first
failure. -/
def askConfirm (op : Operator) (q : QuestionConfirm) : Prog Bool := fun tr =>
  (op.confirm tr q, tr ++ [Event.confirm q])

/-- Modelled from the spec: `input.DoQuestions` on one free-text question. -/
def askInput (op : Operator) (q : QuestionInput) : Prog String := fun tr =>
  (op.input tr q, tr ++ [Event.input q])

/-- Modelled from the spec: `input.DoQuestions` on one single-select question. -/
def askSelect (op : Operator) (q : QuestionSelect) : Prog String := fun tr =>
  (op.select tr q, tr ++ [Event.select q])

/-- The backend call `banzaiCLI.Client().SecretsApi.GetSecrets(ctx, orgID, type filter)`. -/
def getSecrets (banzaiCLI : Cli) (secretType : String) : Prog (List SecretItem) := fun tr =>
  (banzaiCLI.GetSecrets tr secretType, tr ++ [Event.getSecrets secretType])

/-! ## Constants -/

/-- Modelled from the spec: constant `passwordSecretType` (declared outside manager.go). -/
def passwordSecretType : String := "password"
/-- Modelled from the spec: constant `htPasswordSecretType`. -/
def htPasswordSecretType : String := "htpasswd"
/-- Modelled from the spec: constant `slackSecretType`. -/
def slackSecretType : String := "slack"
/-- Modelled from the spec: constant `pagerDutySecretType`. -/
def pagerDutySecretType : String := "pagerduty"
/-- Modelled from the spec: constant `alertmanagerProviderSlack`, the slack key of the
provider map. -/
def alertmanagerProviderSlack : String := "slack"
/-- Modelled from the spec: constant `alertmanagerProviderPagerDuty`, the pagerduty key of the
provider map. -/
def alertmanagerProviderPagerDuty : String := "pagerDuty"
/-- Modelled from the spec: constant `alertmanagerNotificationNameSlack`, the menu entry. -/
def alertmanagerNotificationNameSlack : String := "Slack"
/-- Modelled from the spec: constant `alertmanagerNotificationNamePagerDuty`, the menu entry. -/
def alertmanagerNotificationNamePagerDuty : String := "PagerDuty"
/-- Modelled from the spec: constant `pdIntegrationTypeEventsApiV2`. -/
def pdIntegrationTypeEventsApiV2 : String := "eventsApiV2"
/-- Modelled from the spec: constant `pdIntegrationTypePrometheus`. -/
def pdIntegrationTypePrometheus : String := "prometheus"
/-- Modelled from the spec: constant `pdIntegrationTypeEventsApiV2Name`. -/
def pdIntegrationTypeEventsApiV2Name : String := "Events API V2"
/-- Modelled from the spec: constant `pdIntegrationTypePrometheusName`. -/
def pdIntegrationTypePrometheusName : String := "Prometheus"

/-! ## askSecret -/

/-- The local constant `skip` of `askSecret` and `askAlertmanager`. -/
def skip : String := "skip"

/-- The variables the listing loop of `askSecret` updates. -/
structure SecretLoopState where
  secretOptions : List String
  secretIds : GoMap String
  defaultSecretName : String
  deriving DecidableEq, Repr

/-- The loop `for i, s := range secrets` of `askSecret`, from index `i` on. -/
def askSecretLoop (DefaultValue : String) (withSkipOption : Bool) :
    Nat → List SecretItem → SecretLoopState → SecretLoopState
  | _, [], st => st
  | i, s :: rest, st =>
    let idx := if withSkipOption then i + 1 else i
    askSecretLoop DefaultValue withSkipOption (i + 1) rest
      { secretOptions := st.secretOptions.set idx s.Name
        secretIds := GoMap.set st.secretIds s.Name s.Id
        defaultSecretName := if s.Id = DefaultValue then s.Name else st.defaultSecretName }

/-- The state of `askSecret` when its loop starts: `defaultSecretName`, `secretLen`,
`secretOptions` (with slot 0 set to skip when offered) and the empty `secretIds`. -/
def askSecretInit (secrets : List SecretItem) (withSkipOption : Bool) : SecretLoopState :=
  let secretLen := if withSkipOption then secrets.length + 1 else secrets.length
  let secretOptions := List.replicate secretLen ""
  { secretOptions := if withSkipOption then secretOptions.set 0 skip else secretOptions
    secretIds := []
    defaultSecretName := if withSkipOption then skip else "" }

/-- The state of `askSecret` just before its select prompt. -/
def askSecretPrepare (secrets : List SecretItem) (DefaultValue : String)
    (withSkipOption : Bool) : SecretLoopState :=
  askSecretLoop DefaultValue withSkipOption 0 secrets (askSecretInit secrets withSkipOption)

/-- The select prompt `askSecret` shows for a non-empty listing. -/
def askSecretQuestion (secrets : List SecretItem) (DefaultValue : String)
    (withSkipOption : Bool) : QuestionSelect :=
  let st := askSecretPrepare secrets DefaultValue withSkipOption
  { Message := "Provider secret:", DefaultValue := st.defaultSecretName,
    Options := st.secretOptions }

/-- Function `askSecret` of manager.go. -/
def askSecret (op : Operator) (banzaiCLI : Cli) (secretType DefaultValue : String)
    (withSkipOption : Bool) : Prog String := do
  let secrets ← (getSecrets banzaiCLI secretType).wrapIf "failed to get secret(s)"
  if secrets.length = 0 then
    return ""
  else
    let st := askSecretPrepare secrets DefaultValue withSkipOption
    let secretName ← (askSelect op
        { Message := "Provider secret:", DefaultValue := st.defaultSecretName,
          Options := st.secretOptions }).wrapIf "error during getting secret"
    if secretName = skip then
      return ""
    else
      return (GoMap.get? st.secretIds secretName).getD ""

/-! ## Untyped values and the Spec Codec -/

/-- An untyped value as the backend stores and transports it (decoded JSON): the dynamic
content of a Go `interface{}` that holds no struct of this package. Numbers are integers. -/
inductive Raw where
  | null
  | bool (b : Bool)
  | num (n : Int)
  | str (s : String)
  | list (xs : List Raw)
  | obj (kvs : List (String × Raw))

/-- An entry of the Alertmanager provider map (`map[string]interface{}`): an untyped value or
one of the provider structs the builders store there. -/
inductive PValue where
  | raw (r : Raw)
  | slackSpec (s : slackSpec)
  | pagerDutySpec (s : pagerDutySpec)

/-- Modelled from the spec: struct `alertmanagerSpec`; `Provider` is a
`map[string]interface{}`. -/
structure alertmanagerSpec where
  Enabled : Bool
  Provider : GoMap PValue
  Ingress : ingressSpecWithSecret

/-- The zero value of `alertmanagerSpec` (nil provider map). -/
def alertmanagerSpec.zero : alertmanagerSpec :=
  { Enabled := false, Provider := [], Ingress := ingressSpecWithSecret.zero }

/-- Modelled from the spec: struct `serviceSpec`, the typed Specification of the service. -/
structure serviceSpec where
  Grafana : grafanaSpec
  Prometheus : prometheusSpec
  Alertmanager : alertmanagerSpec
  Pushgateway : pushgatewaySpec
  Exporters : exportersSpec

/-- A top-level entry of a stored document (`map[string]interface{}`): an untyped value, or one
of the sub-spec structs the builders store (by value or by pointer). -/
inductive Value where
  | raw (r : Raw)
  | grafanaSpec (s : grafanaSpec)
  | prometheusSpec (s : prometheusSpec)
  | alertmanagerSpec (s : alertmanagerSpec)
  | pushgatewaySpec (s : pushgatewaySpec)
  | exportersSpec (s : exportersSpec)

/-- The comparison `strings.EqualFold` on keys: equality up to the case of ASCII letters. -/
def EqualFold (a b : String) : Bool :=
  a.data.map Char.toLower == b.data.map Char.toLower

/-- Modelled from the spec: how the codec finds the map entry of a struct field (§4.3,
field-name correspondence, case-insensitive): the entry with exactly the field name, else the
first entry whose key equals it up to letter case; `none` when there is neither. -/
def fieldOf {β : Type} (m : GoMap β) (name : String) : Option β :=
  match GoMap.get? m name with
  | some v => some v
  | none => (m.find? (fun kv => EqualFold kv.1 name)).map Prod.snd

/-- Modelled from the spec: codec on a `bool` field; an absent or null entry leaves the zero
value, a value of another type is a schema mismatch. -/
def decodeBool (name : String) : Option Raw → Except String Bool
  | none => .ok false
  | some .null => .ok false
  | some (.bool b) => .ok b
  | some _ => .error (name ++ " expected type bool")

/-- Modelled from the spec: codec on a `string` field. -/
def decodeString (name : String) : Option Raw → Except String String
  | none => .ok ""
  | some .null => .ok ""
  | some (.str s) => .ok s
  | some _ => .error (name ++ " expected type string")

/-- Modelled from the spec: codec on a `uint` field; a number outside the 64-bit unsigned range
is a schema mismatch. -/
def decodeUint (name : String) : Option Raw → Except String Nat
  | none => .ok 0
  | some .null => .ok 0
  | some (.num n) =>
    if n < 0 then .error (name ++ " overflows uint")
    else if n.toNat < 2 ^ 64 then .ok n.toNat else .error (name ++ " overflows uint")
  | some _ => .error (name ++ " expected type uint")

/-- Modelled from the spec: codec on a struct field: the key/value entries to read the struct
from; an absent or null entry gives no entries (all fields stay zero), a non-map value is a
schema mismatch. -/
def decodeObj (name : String) : Option Raw → Except String (List (String × Raw))
  | none => .ok []
  | some .null => .ok []
  | some (.obj kvs) => .ok kvs
  | some _ => .error (name ++ " expected a map")

/-- Modelled from the spec: codec for `baseIngressSpec` from map entries. -/
def decodeBaseIngress (kvs : List (String × Raw)) : Except String baseIngressSpec := do
  let enabled ← decodeBool "enabled" (fieldOf kvs "enabled")
  let domain ← decodeString "domain" (fieldOf kvs "domain")
  let path ← decodeString "path" (fieldOf kvs "path")
  return { Enabled := enabled, Domain := domain, Path := path }

/-- Modelled from the spec: codec for `ingressSpecWithSecret` from map entries (the embedded
`baseIngressSpec` is read from the same map). -/
def decodeIngressWithSecret (kvs : List (String × Raw)) : Except String ingressSpecWithSecret := do
  let base ← decodeBaseIngress kvs
  let secretId ← decodeString "secretId" (fieldOf kvs "secretId")
  return { baseIngressSpec := base, SecretId := secretId }

/-- Modelled from the spec: codec for `grafanaSpec` from an untyped value. -/
def decodeGrafanaRaw (r : Option Raw) : Except String grafanaSpec := do
  let kvs ← decodeObj "grafana" r
  let enabled ← decodeBool "enabled" (fieldOf kvs "enabled")
  let secretId ← decodeString "secretId" (fieldOf kvs "secretId")
  let ingress ← decodeObj "ingress" (fieldOf kvs "ingress")
  let ingress ← decodeBaseIngress ingress
  let dashboards ← decodeBool "dashboards" (fieldOf kvs "dashboards")
  return { Enabled := enabled, SecretId := secretId, Ingress := ingress,
           Dashboards := dashboards }

/-- Modelled from the spec: codec for `storageSpec` from map entries. -/
def decodeStorage (kvs : List (String × Raw)) : Except String storageSpec := do
  let cls ← decodeString "class" (fieldOf kvs "class")
  let size ← decodeUint "size" (fieldOf kvs "size")
  let retention ← decodeString "retention" (fieldOf kvs "retention")
  return { Class := cls, Size := size, Retention := retention }

/-- Modelled from the spec: codec for `prometheusSpec` from an untyped value. -/
def decodePrometheusRaw (r : Option Raw) : Except String prometheusSpec := do
  let kvs ← decodeObj "prometheus" r
  let enabled ← decodeBool "enabled" (fieldOf kvs "enabled")
  let storage ← decodeObj "storage" (fieldOf kvs "storage")
  let storage ← decodeStorage storage
  let ingress ← decodeObj "ingress" (fieldOf kvs "ingress")
  let ingress ← decodeIngressWithSecret ingress
  return { Enabled := enabled, Storage := storage, Ingress := ingress }

/-- Modelled from the spec: codec for a `map[string]interface{}` field: every entry is kept as
it is. -/
def decodeProviderMap (name : String) : Option Raw → Except String (GoMap PValue)
  | none => .ok []
  | some .null => .ok []
  | some (.obj kvs) => .ok (kvs.map (fun kv => (kv.1, PValue.raw kv.2)))
  | some _ => .error (name ++ " expected a map")

/-- Modelled from the spec: codec for `alertmanagerSpec` from an untyped value. -/
def decodeAlertmanagerRaw (r : Option Raw) : Except String alertmanagerSpec := do
  let kvs ← decodeObj "alertmanager" r
  let enabled ← decodeBool "enabled" (fieldOf kvs "enabled")
  let provider ← decodeProviderMap "provider" (fieldOf kvs "provider")
  let ingress ← decodeObj "ingress" (fieldOf kvs "ingress")
  let ingress ← decodeIngressWithSecret ingress
  return { Enabled := enabled, Provider := provider, Ingress := ingress }

/-- Modelled from the spec: codec for `pushgatewaySpec` from an untyped value. -/
def decodePushgatewayRaw (r : Option Raw) : Except String pushgatewaySpec := do
  let kvs ← decodeObj "pushgateway" r
  let enabled ← decodeBool "enabled" (fieldOf kvs "enabled")
  let ingress ← decodeObj "ingress" (fieldOf kvs "ingress")
  let ingress ← decodeIngressWithSecret ingress
  return { Enabled := enabled, Ingress := ingress }

/-- Modelled from the spec: codec for `exporterBaseSpec` from map entries. -/
def decodeExporterBase (kvs : List (String × Raw)) : Except String exporterBaseSpec := do
  let enabled ← decodeBool "enabled" (fieldOf kvs "enabled")
  return { Enabled := enabled }

/-- Modelled from the spec: codec for `exportersSpec` from an untyped value. -/
def decodeExportersRaw (r : Option Raw) : Except String exportersSpec := do
  let kvs ← decodeObj "exporters" r
  let enabled ← decodeBool "enabled" (fieldOf kvs "enabled")
  let node ← decodeObj "nodeExporter" (fieldOf kvs "nodeExporter")
  let node ← decodeExporterBase node
  let kube ← decodeObj "kubeStateMetrics" (fieldOf kvs "kubeStateMetrics")
  let kube ← decodeExporterBase kube
  return { Enabled := enabled, NodeExporter := node, KubeStateMetrics := kube }

/-- Modelled from the spec: codec for `slackSpec` from an untyped value. -/
def decodeSlackRaw (r : Option Raw) : Except String slackSpec := do
  let kvs ← decodeObj "slack" r
  let enabled ← decodeBool "enabled" (fieldOf kvs "enabled")
  let secretId ← decodeString "secretId" (fieldOf kvs "secretId")
  let channel ← decodeString "channel" (fieldOf kvs "channel")
  let sendResolved ← decodeBool "sendResolved" (fieldOf kvs "sendResolved")
  return { Enabled := enabled, SecretId := secretId, Channel := channel,
           SendResolved := sendResolved }

/-- Modelled from the spec: codec for `pagerDutySpec` from an untyped value. -/
def decodePagerDutyRaw (r : Option Raw) : Except String pagerDutySpec := do
  let kvs ← decodeObj "pagerDuty" r
  let enabled ← decodeBool "enabled" (fieldOf kvs "enabled")
  let url ← decodeString "url" (fieldOf kvs "url")
  let secretId ← decodeString "secretId" (fieldOf kvs "secretId")
  let integrationType ← decodeString "integrationType" (fieldOf kvs "integrationType")
  let sendResolved ← decodeBool "sendResolved" (fieldOf kvs "sendResolved")
  return { Enabled := enabled, Url := url, SecretId := secretId,
           IntegrationType := integrationType, SendResolved := sendResolved }

/-- Modelled from the spec: `mapstructure.Decode(v, &slack)` on a provider-map entry (`none`
is the nil interface of an absent key): a `slackSpec` is copied, an untyped value is decoded
field by field, a struct of another type is a schema mismatch. -/
def decodeSlack : Option PValue → Except String slackSpec
  | none => .ok slackSpec.zero
  | some (.raw r) => decodeSlackRaw (some r)
  | some (.slackSpec s) => .ok s
  | some (.pagerDutySpec _) => .error "slack expected a map, got struct"

/-- Modelled from the spec: `mapstructure.Decode(v, &pd)` on a provider-map entry. -/
def decodePagerDuty : Option PValue → Except String pagerDutySpec
  | none => .ok pagerDutySpec.zero
  | some (.raw r) => decodePagerDutyRaw (some r)
  | some (.pagerDutySpec s) => .ok s
  | some (.slackSpec _) => .error "pagerDuty expected a map, got struct"

/-- Modelled from the spec: codec on the `grafana` entry of a document. -/
def decodeGrafana : Option Value → Except String grafanaSpec
  | none => .ok grafanaSpec.zero
  | some (.raw r) => decodeGrafanaRaw (some r)
  | some (.grafanaSpec s) => .ok s
  | some _ => .error "grafana expected a map, got struct"

/-- Modelled from the spec: codec on the `prometheus` entry of a document. -/
def decodePrometheus : Option Value → Except String prometheusSpec
  | none => .ok prometheusSpec.zero
  | some (.raw r) => decodePrometheusRaw (some r)
  | some (.prometheusSpec s) => .ok s
  | some _ => .error "prometheus expected a map, got struct"

/-- Modelled from the spec: codec on the `alertmanager` entry of a document. -/
def decodeAlertmanager : Option Value → Except String alertmanagerSpec
  | none => .ok alertmanagerSpec.zero
  | some (.raw r) => decodeAlertmanagerRaw (some r)
  | some (.alertmanagerSpec s) => .ok s
  | some _ => .error "alertmanager expected a map, got struct"

/-- Modelled from the spec: codec on the `pushgateway` entry of a document. -/
def decodePushgateway : Option Value → Except String pushgatewaySpec
  | none => .ok pushgatewaySpec.zero
  | some (.raw r) => decodePushgatewayRaw (some r)
  | some (.pushgatewaySpec s) => .ok s
  | some _ => .error "pushgateway expected a map, got struct"

/-- Modelled from the spec: codec on the `exporters` entry of a document. -/
def decodeExporters : Option Value → Except String exportersSpec
  | none => .ok exportersSpec.zero
  | some (.raw r) => decodeExportersRaw (some r)
  | some (.exportersSpec s) => .ok s
  | some _ => .error "exporters expected a map, got struct"

/-- Modelled from the spec: `mapstructure.Decode(document, &spec)` for `serviceSpec` (Spec
Codec, §4.3): each sub-spec is read from the entry of its key, keys without a field are
ignored. -/
def decodeServiceSpec (doc : GoMap Value) : Except String serviceSpec := do
  let grafana ← decodeGrafana (fieldOf doc "grafana")
  let prometheus ← decodePrometheus (fieldOf doc "prometheus")
  let alertmanager ← decodeAlertmanager (fieldOf doc "alertmanager")
  let pushgateway ← decodePushgateway (fieldOf doc "pushgateway")
  let exporters ← decodeExporters (fieldOf doc "exporters")
  return { Grafana := grafana, Prometheus := prometheus, Alertmanager := alertmanager,
           Pushgateway := pushgateway, Exporters := exporters }

/-! ## Numbers as text -/

/-- The value of a decimal digit character, `none` for any other character. -/
def digitValue (c : Char) : Option Nat :=
  if 48 ≤ c.toNat ∧ c.toNat ≤ 57 then some (c.toNat - 48) else none

/-- The digit loop of `strconv.ParseUint(s, 10, 64)`: a non-digit is a syntax error, a value
that leaves the 64-bit range is a range error. -/
def parseUintLoop : List Char → Nat → Except String Nat
  | [], n => .ok n
  | c :: cs, n =>
    match digitValue c with
    | none => .error "invalid syntax"
    | some d => if n * 10 + d < 2 ^ 64 then parseUintLoop cs (n * 10 + d)
                else .error "value out of range"

/-- The call `strconv.ParseUint(s, 10, 64)`. -/
def ParseUint (s : String) : Except String Nat :=
  if s.data = [] then .error "invalid syntax" else parseUintLoop s.data 0

/-- The call `fmt.Sprint(n)` on a `uint`: decimal digits. -/
def Sprint (n : Nat) : String := toString n

/-- A pure step inside `Prog` (a library call returning `(value, error)`). -/
def Prog.lift {α : Type} (r : Except String α) : Prog α := fun tr => (r, tr)

/-! ## The builders -/

/-- Function `askIngress` of manager.go. -/
def askIngress (op : Operator) (compType : String) (defaults : baseIngressSpec) :
    Prog baseIngressSpec := do
  let isIngressEnabled ← (askConfirm op
      { Message := "Do you want to enable " ++ compType ++ " Ingress?",
        DefaultValue := defaults.Enabled }).wrapIf
      ("error during getting " ++ compType ++ " ingress enabled")
  if isIngressEnabled then
    let (domain, path) ← (do
        let domain ← askInput op
          { Message := "Please provide " ++ compType ++ " Ingress domain:",
            Help := "Leave empty to use cluster's IP", DefaultValue := defaults.Domain }
        let path ← askInput op
          { Message := "Please provide " ++ compType ++ " Ingress path:",
            Help := "", DefaultValue := defaults.Path }
        return (domain, path) : Prog (String × String)).wrapIf
      "error during asking ingress fields"
    return { Enabled := isIngressEnabled, Domain := domain, Path := path }
  else
    return { Enabled := isIngressEnabled, Domain := "", Path := "" }

/-- Function `askGrafana` of manager.go. -/
def askGrafana (op : Operator) (banzaiCLI : Cli) (defaults : grafanaSpec) :
    Prog grafanaSpec := do
  let isEnabled ← (askConfirm op
      { Message := "Do you want to enable Grafana?",
        DefaultValue := defaults.Enabled }).wrapIf "error during getting Grafana enabled"
  if isEnabled then
    let secretId ← (askSecret op banzaiCLI passwordSecretType defaults.SecretId true).wrapIf
      "error during getting Grafana secret"
    let ingressSpec ← (askIngress op "Grafana" defaults.Ingress).wrapIf
      "error during getting Grafana ingress options"
    let dashboards ← (askConfirm op
        { Message := "Do you want to add default dashboards to Grafana?",
          DefaultValue := defaults.Dashboards }).wrapIf
      "error during getting default dashboards"
    return { Enabled := isEnabled, SecretId := secretId, Ingress := ingressSpec,
             Dashboards := dashboards }
  else
    return { Enabled := isEnabled, SecretId := "", Ingress := baseIngressSpec.zero,
             Dashboards := false }

/-- Function `askPrometheus` of manager.go. -/
def askPrometheus (op : Operator) (banzaiCLI : Cli) (defaults : prometheusSpec) :
    Prog prometheusSpec := do
  let (cls, storageSize, retention) ← (do
      let cls ← askInput op
        { Message := "Please provide storage class name for Prometheus:",
          Help := "Leave empty to use default storage class",
          DefaultValue := defaults.Storage.Class }
      let storageSize ← askInput op
        { Message := "Please provide storage size for Prometheus:",
          Help := "", DefaultValue := Sprint defaults.Storage.Size }
      let retention ← askInput op
        { Message := "Please provide retention for Prometheus:",
          Help := "", DefaultValue := defaults.Storage.Retention }
      return (cls, storageSize, retention) : Prog (String × String × String)).wrapIf
    "error during getting Prometheus options"
  let storageSizeInt ← (Prog.lift (ParseUint storageSize)).wrapIf "failed to parse storage size"
  let ingressSpec ← (askIngress op "Prometheus" defaults.Ingress.baseIngressSpec).wrapIf
    "error during getting Prometheus ingress options"
  if ingressSpec.Enabled then
    let secretId ← (askSecret op banzaiCLI htPasswordSecretType defaults.Ingress.SecretId
      true).wrapIf "error during getting secret for Prometheus ingress"
    return { Enabled := true,
             Storage := { Class := cls, Size := storageSizeInt, Retention := retention },
             Ingress := { baseIngressSpec := ingressSpec, SecretId := secretId } }
  else
    return { Enabled := true,
             Storage := { Class := cls, Size := storageSizeInt, Retention := retention },
             Ingress := { baseIngressSpec := ingressSpec, SecretId := "" } }

/-- Function `askNotificationProviderSlack` of manager.go. -/
def askNotificationProviderSlack (op : Operator) (banzaiCLI : Cli)
    (defaultsInterface : Option PValue) : Prog slackSpec := do
  let defaults ← (Prog.lift (decodeSlack defaultsInterface)).wrapIf
    "failed to bind Slack config"
  let secretId ← (askSecret op banzaiCLI slackSecretType defaults.SecretId false).wrapIf
    "error during getting Slack secret"
  let (channel, sendResolved) ← (do
      let channel ← askInput op
        { Message := "Provide Slack channel name for the alerts:", Help := "",
          DefaultValue := "" }
      let sendResolved ← askConfirm op
        { Message := "Send resolved notifications as well",
          DefaultValue := defaults.SendResolved }
      return (channel, sendResolved) : Prog (String × Bool)).wrapIf
    "error during getting Slack options"
  return { Enabled := true, SecretId := secretId, Channel := channel,
           SendResolved := sendResolved }

/-- Function `askNotificationProviderPagerDuty` of manager.go. -/
def askNotificationProviderPagerDuty (op : Operator) (banzaiCLI : Cli)
    (defaultsInterface : Option PValue) : Prog pagerDutySpec := do
  let defaults ← (Prog.lift (decodePagerDuty defaultsInterface)).wrapIf
    "failed to bind PagerDuty config"
  let url ← (askInput op
      { Message := "Provide PagerDuty service endpoint:", Help := "",
        DefaultValue := defaults.Url }).wrapIf "error during getting PagerDuty url"
  let defaultIntegrationValue :=
    if defaults.IntegrationType = pdIntegrationTypeEventsApiV2
    then pdIntegrationTypeEventsApiV2Name else pdIntegrationTypePrometheusName
  let integrationType ← (askSelect op
      { Message := "Select PagerDuty integration type:",
        DefaultValue := defaultIntegrationValue,
        Options := [pdIntegrationTypePrometheusName, pdIntegrationTypeEventsApiV2Name] }).wrapIf
    "error during getting PagerDuty integration type"
  let resultIntegrationType ←
    (if integrationType = pdIntegrationTypePrometheusName then
      Prog.ret pdIntegrationTypePrometheus
    else if integrationType = pdIntegrationTypeEventsApiV2Name then
      Prog.ret pdIntegrationTypeEventsApiV2
    else Prog.fail "invalid integration type" : Prog String)
  let secretId ← (askSecret op banzaiCLI pagerDutySecretType defaults.SecretId false).wrapIf
    "error during getting PagerDuty secret"
  let sendResolved ← (askConfirm op
      { Message := "Send resolved notifications as well",
        DefaultValue := defaults.SendResolved }).wrapIf
    "error during getting PagerDuty send resolved option"
  return { Enabled := true, Url := url, SecretId := secretId,
           IntegrationType := resultIntegrationType, SendResolved := sendResolved }

/-- The computation of `defaultNotificationProviderValue` in `askAlertmanager`. -/
def defaultNotificationProviderValue (Provider : GoMap PValue) : String :=
  match GoMap.get? Provider alertmanagerProviderPagerDuty with
  | some pdProp =>
    match decodePagerDuty (some pdProp) with
    | .ok pd => if pd.Enabled then alertmanagerNotificationNamePagerDuty else skip
    | .error _ => skip
  | none =>
    match GoMap.get? Provider alertmanagerProviderSlack with
    | some slackProp =>
      match decodeSlack (some slackProp) with
      | .ok slack => if slack.Enabled then alertmanagerNotificationNameSlack else skip
      | .error _ => skip
    | none => skip

/-- The select prompt for the notification provider in `askAlertmanager`. -/
def notificationProviderQuestion (Provider : GoMap PValue) : QuestionSelect :=
  { Message := "Select notification provider",
    DefaultValue := defaultNotificationProviderValue Provider,
    Options := [skip, alertmanagerNotificationNameSlack,
                alertmanagerNotificationNamePagerDuty] }

/-- The provider map `askAlertmanager` starts from: both providers disabled. -/
def initialProvider : GoMap PValue :=
  [(alertmanagerProviderSlack, PValue.slackSpec slackSpec.zero),
   (alertmanagerProviderPagerDuty, PValue.pagerDutySpec pagerDutySpec.zero)]

/-- The `switch notificationProvider` of `askAlertmanager`: the provider map after it. -/
def askProviderOptions (op : Operator) (banzaiCLI : Cli) (defaults : alertmanagerSpec)
    (notificationProvider : String) : Prog (GoMap PValue) :=
  if notificationProvider = alertmanagerNotificationNameSlack then do
    let slack ← (askNotificationProviderSlack op banzaiCLI
      (GoMap.get? defaults.Provider alertmanagerProviderSlack)).wrapIf
      "error during getting Slack provider options"
    return GoMap.set initialProvider alertmanagerProviderSlack (PValue.slackSpec slack)
  else if notificationProvider = alertmanagerNotificationNamePagerDuty then do
    let pd ← (askNotificationProviderPagerDuty op banzaiCLI
      (GoMap.get? defaults.Provider alertmanagerProviderPagerDuty)).wrapIf
      "error during getting PagerDuty provider options"
    return GoMap.set initialProvider alertmanagerProviderPagerDuty (PValue.pagerDutySpec pd)
  else if notificationProvider = skip then
    Prog.ret initialProvider
  else
    Prog.fail "not supported provider type"

/-- Function `askAlertmanager` of manager.go. -/
def askAlertmanager (op : Operator) (banzaiCLI : Cli) (defaults : alertmanagerSpec) :
    Prog alertmanagerSpec := do
  let isEnabled ← (askConfirm op
      { Message := "Do you want to enable Alertmanager?",
        DefaultValue := defaults.Enabled }).wrapIf "error during getting Alertmanager enabled"
  if isEnabled then
    let notificationProvider ← (askSelect op
      (notificationProviderQuestion defaults.Provider)).wrapIf
      "error during getting notification provider"
    let provider ← askProviderOptions op banzaiCLI defaults notificationProvider
    let ingressSpec ← (askIngress op "Alertmanager" defaults.Ingress.baseIngressSpec).wrapIf
      "error during getting Alertmanager ingress options"
    if ingressSpec.Enabled then
      let secretId ← (askSecret op banzaiCLI htPasswordSecretType defaults.Ingress.SecretId
        true).wrapIf "error during getting secret for Alertmanager ingress"
      return { Enabled := isEnabled, Provider := provider,
               Ingress := { baseIngressSpec := ingressSpec, SecretId := secretId } }
    else
      return { Enabled := isEnabled, Provider := provider,
               Ingress := { baseIngressSpec := ingressSpec, SecretId := "" } }
  else
    return { Enabled := isEnabled, Provider := [], Ingress := ingressSpecWithSecret.zero }

/-- Function `askPushgateway` of manager.go. -/
def askPushgateway (op : Operator) (banzaiCLI : Cli) (defaults : pushgatewaySpec) :
    Prog pushgatewaySpec := do
  let isEnabled ← (askConfirm op
      { Message := "Do you want to enable Pushgateway?",
        DefaultValue := defaults.Enabled }).wrapIf "error during getting Pushgateway enabled"
  if isEnabled then
    let ingressSpec ← (askIngress op "Pushgateway" defaults.Ingress.baseIngressSpec).wrapIf
      "error during getting Pushgateway ingress options"
    if ingressSpec.Enabled then
      let secretId ← (askSecret op banzaiCLI htPasswordSecretType defaults.Ingress.SecretId
        true).wrapIf "error during getting secret for Pushgateway ingress"
      return { Enabled := isEnabled,
               Ingress := { baseIngressSpec := ingressSpec, SecretId := secretId } }
    else
      return { Enabled := isEnabled,
               Ingress := { baseIngressSpec := ingressSpec, SecretId := "" } }
  else
    return { Enabled := isEnabled, Ingress := ingressSpecWithSecret.zero }

/-! ## The update entry point -/

/-- The request of an update (`pipeline.UpdateIntegratedServiceRequest`): its `Spec` is the
untyped stored document, taken to be a non-nil map. -/
structure UpdateIntegratedServiceRequest where
  Spec : GoMap Value

/-- What a call that mutates its request through a pointer leaves behind: the returned error
(or nil), the request as it is after the call, and the trace. -/
structure UpdateOutcome where
  err : Except String Unit
  request : UpdateIntegratedServiceRequest
  trace : List Event

/-- Method `Manager.BuildUpdateRequestInteractively` of manager.go. -/
def BuildUpdateRequestInteractively (op : Operator) (banzaiCLI : Cli)
    (request : UpdateIntegratedServiceRequest) (tr : List Event) : UpdateOutcome :=
  match decodeServiceSpec request.Spec with
  | .error e =>
    { err := .error ("service specification does not conform to schema: " ++ e),
      request := request, trace := tr }
  | .ok spec =>
    match (askGrafana op banzaiCLI spec.Grafana).wrapIf
        "error during getting Grafana options" tr with
    | (.error e, tr1) => { err := .error e, request := request, trace := tr1 }
    | (.ok grafana, tr1) =>
      match (askPrometheus op banzaiCLI spec.Prometheus).wrapIf
          "error during getting Prometheus options" tr1 with
      | (.error e, tr2) => { err := .error e, request := request, trace := tr2 }
      | (.ok prometheus, tr2) =>
        match (askAlertmanager op banzaiCLI spec.Alertmanager).wrapIf
            "error during getting Alertmanager options" tr2 with
        | (.error e, tr3) => { err := .error e, request := request, trace := tr3 }
        | (.ok alertmanager, tr3) =>
          match (askPushgateway op banzaiCLI spec.Pushgateway).wrapIf
              "error during getting Pushgateway options" tr3 with
          | (.error e, tr4) => { err := .error e, request := request, trace := tr4 }
          | (.ok pushgateway, tr4) =>
            let spec1 := GoMap.set request.Spec "grafana" (Value.grafanaSpec grafana)
            let spec2 := GoMap.set spec1 "prometheus" (Value.prometheusSpec prometheus)
            let spec3 := GoMap.set spec2 "alertmanager" (Value.alertmanagerSpec alertmanager)
            let spec4 := GoMap.set spec3 "pushgateway" (Value.pushgatewaySpec pushgateway)
            { err := .ok (), request := { Spec := spec4 }, trace := tr4 }

/-- The operator who accepts the default every prompt offers. -/
def keepDefault : Operator :=
  { confirm := fun _ q => .ok q.DefaultValue
    input := fun _ q => .ok q.DefaultValue
    select := fun _ q => .ok q.DefaultValue }

/-- A backend that lists the same credentials whenever asked, of whatever kind. -/
def cliWith (secrets : List SecretItem) : Cli :=
  { GetSecrets := fun _ _ => .ok secrets }

/-- The operator who picks `name` at every select prompt and otherwise accepts defaults. -/
def selecting (name : String) : Operator :=
  { confirm := fun _ q => .ok q.DefaultValue
    input := fun _ q => .ok q.DefaultValue
    select := fun _ _ => .ok name }

/-- A computation only ever appends to the trace. -/
structure Prog.Extends {α : Type} (p : Prog α) : Prop where
  out : ∀ tr, ∃ rest, (p tr).2 = tr ++ rest

/-- Every value a computation returns satisfies `P`. -/
structure Prog.Ensures {α : Type} (p : Prog α) (P : α → Prop) : Prop where
  out : ∀ tr res, (p tr).1 = Except.ok res → P res

/-- The operator who answers every confirm with no and otherwise accepts defaults. -/
def refusing : Operator :=
  { confirm := fun _ _ => .ok false
    input := fun _ q => .ok q.DefaultValue
    select := fun _ q => .ok q.DefaultValue }

/-- The operator who types `text` at every free-text prompt and otherwise accepts defaults. -/
def typing (text : String) : Operator :=
  { confirm := fun _ q => .ok q.DefaultValue
    input := fun _ _ => .ok text
    select := fun _ q => .ok q.DefaultValue }

/-- The number a string of decimal digits denotes (most significant digit first). -/
def decimalValue (cs : List Char) : Nat :=
  cs.foldl (fun acc c => acc * 10 + (c.toNat - 48)) 0

/-- A text is the base-10 text of an unsigned integer that fits in 64 bits: it is not empty,
all its characters are decimal digits, and the number it denotes is below 2^64. -/
def IsUint64Text (s : String) : Prop :=
  s.data ≠ [] ∧ (∀ c ∈ s.data, 48 ≤ c.toNat ∧ c.toNat ≤ 57) ∧ decimalValue s.data < 2 ^ 64

instance (s : String) : Decidable (IsUint64Text s) := by
  unfold IsUint64Text
  infer_instance

/-- The storage-class prompt of `askPrometheus`. -/
def storageClassQuestion (d : prometheusSpec) : QuestionInput :=
  { Message := "Please provide storage class name for Prometheus:",
    Help := "Leave empty to use default storage class", DefaultValue := d.Storage.Class }

/-- The storage-size prompt of `askPrometheus`; its default is the prior size printed. -/
def storageSizeQuestion (d : prometheusSpec) : QuestionInput :=
  { Message := "Please provide storage size for Prometheus:", Help := "",
    DefaultValue := Sprint d.Storage.Size }

/-- The retention prompt of `askPrometheus`. -/
def retentionQuestion (d : prometheusSpec) : QuestionInput :=
  { Message := "Please provide retention for Prometheus:", Help := "",
    DefaultValue := d.Storage.Retention }

/-- The enable prompt of `askIngress`. -/
def ingressEnableQuestion (compType : String) (d : baseIngressSpec) : QuestionConfirm :=
  { Message := "Do you want to enable " ++ compType ++ " Ingress?",
    DefaultValue := d.Enabled }

/-- The part of `askPrometheus` that follows the parsing of the size: the ingress subtree and
the assembly of the result from the storage answers `c`, `n`, `r`. -/
def askPrometheusIngress (op : Operator) (banzaiCLI : Cli) (defaults : prometheusSpec)
    (c : String) (n : Nat) (r : String) : Prog prometheusSpec := do
  let ingressSpec ← (askIngress op "Prometheus" defaults.Ingress.baseIngressSpec).wrapIf
    "error during getting Prometheus ingress options"
  if ingressSpec.Enabled then
    let secretId ← (askSecret op banzaiCLI htPasswordSecretType defaults.Ingress.SecretId
      true).wrapIf "error during getting secret for Prometheus ingress"
    return { Enabled := true,
             Storage := { Class := c, Size := n, Retention := r },
             Ingress := { baseIngressSpec := ingressSpec, SecretId := secretId } }
  else
    return { Enabled := true,
             Storage := { Class := c, Size := n, Retention := r },
             Ingress := { baseIngressSpec := ingressSpec, SecretId := "" } }

/-- The domain prompt of `askIngress`. -/
def ingressDomainQuestion (compType : String) (d : baseIngressSpec) : QuestionInput :=
  { Message := "Please provide " ++ compType ++ " Ingress domain:",
    Help := "Leave empty to use cluster's IP", DefaultValue := d.Domain }

/-- The path prompt of `askIngress`. -/
def ingressPathQuestion (compType : String) (d : baseIngressSpec) : QuestionInput :=
  { Message := "Please provide " ++ compType ++ " Ingress path:", Help := "",
    DefaultValue := d.Path }

/-- A computation returns the value `a`, whatever the trace it starts from. -/
structure Prog.Returns {α : Type} (p : Prog α) (a : α) : Prop where
  out : ∀ tr, ∃ tr1, p tr = (Except.ok a, tr1)

/-- A secret identifier the resolver hands back when the default it offers is accepted.
Either the identifier is listed: then, going by the last credential listed with it, its name
is `skip` and the identifier is empty, or its name is not `skip` and the last credential
listed under that name carries this identifier. Or the identifier is not listed: then it is
empty and, when no skip option is offered, no credential has the empty name. -/
def SecretKept (withSkipOption : Bool) (secrets : List SecretItem) (id : String) : Prop :=
  match secrets.reverse.find? (fun s => s.Id = id) with
  | some s =>
    if s.Name = skip then id = ""
    else (secrets.reverse.find? (fun t => t.Name = s.Name)).map (fun t => t.Id) = some id
  | none => id = "" ∧ (withSkipOption = true ∨ ∀ s ∈ secrets, s.Name ≠ "")

instance (withSkipOption : Bool) (secrets : List SecretItem) (id : String) :
    Decidable (SecretKept withSkipOption secrets id) := by
  unfold SecretKept
  split <;> infer_instance

/-- An ingress sub-spec as `askIngress` returns them: when disabled, domain and path are
empty. -/
def IngressKept (d : baseIngressSpec) : Prop :=
  d.Enabled = false → d.Domain = "" ∧ d.Path = ""

/-- An authenticated ingress sub-spec as the builders return them: when enabled its secret
is handed back by the resolver, when disabled domain, path and secret are empty. -/
def AuthIngressKept (secrets : List SecretItem) (d : ingressSpecWithSecret) : Prop :=
  (d.baseIngressSpec.Enabled = true → SecretKept true secrets d.SecretId)
  ∧ (d.baseIngressSpec.Enabled = false →
      d.baseIngressSpec.Domain = "" ∧ d.baseIngressSpec.Path = "" ∧ d.SecretId = "")

/-- A provider map has no entry besides the slack and the pagerDuty one. -/
def OnlyKnownProviders (P : GoMap PValue) : Prop :=
  ∀ k, k ≠ alertmanagerProviderSlack → k ≠ alertmanagerProviderPagerDuty →
    GoMap.get? P k = none

/-- No provider is in use: the slack and the pagerDuty entry are absent or decode to the
disabled zero value, and there is no other entry. -/
def ProvidersUnused (P : GoMap PValue) : Prop :=
  OnlyKnownProviders P
  ∧ decodeSlack (GoMap.get? P alertmanagerProviderSlack) = .ok slackSpec.zero
  ∧ decodePagerDuty (GoMap.get? P alertmanagerProviderPagerDuty) = .ok pagerDutySpec.zero

/-- PagerDuty is in use in a form the builder gives back: the pagerDuty entry decodes to an
enabled spec whose integration type is one of the two the menu knows and whose secret the
resolver hands back; slack is absent or the disabled zero value; there is no other entry. -/
def PagerDutyKept (secrets : List SecretItem) (P : GoMap PValue) : Prop :=
  OnlyKnownProviders P
  ∧ decodeSlack (GoMap.get? P alertmanagerProviderSlack) = .ok slackSpec.zero
  ∧ ∃ entry p, GoMap.get? P alertmanagerProviderPagerDuty = some entry
      ∧ decodePagerDuty (some entry) = .ok p
      ∧ p.Enabled = true
      ∧ (p.IntegrationType = pdIntegrationTypeEventsApiV2
          ∨ p.IntegrationType = pdIntegrationTypePrometheus)
      ∧ SecretKept false secrets p.SecretId

/-- Slack is in use in a form the builder gives back: there is no pagerDuty entry at all, the
slack entry decodes to an enabled spec with an empty channel whose secret the resolver hands
back, and there is no other entry. -/
def SlackKept (secrets : List SecretItem) (P : GoMap PValue) : Prop :=
  OnlyKnownProviders P
  ∧ GoMap.get? P alertmanagerProviderPagerDuty = none
  ∧ ∃ entry s, GoMap.get? P alertmanagerProviderSlack = some entry
      ∧ decodeSlack (some entry) = .ok s
      ∧ s.Enabled = true
      ∧ s.Channel = ""
      ∧ SecretKept false secrets s.SecretId

/-- A specification in the form the builders produce, relative to the credentials `L` lists
per kind: Prometheus enabled with a size in the `uint` range; a disabled Grafana or
Pushgateway is the zero value; a disabled Alertmanager has the zero ingress and no provider
in use; a disabled ingress is empty; an enabled Alertmanager has no provider in use, or
PagerDuty, or Slack, in a form the builder gives back; every secret of an enabled part is
one the resolver hands back. -/
def BuilderNormal (L : String → List SecretItem) (S : serviceSpec) : Prop :=
  (if S.Grafana.Enabled then
     SecretKept true (L passwordSecretType) S.Grafana.SecretId
     ∧ IngressKept S.Grafana.Ingress
   else S.Grafana = grafanaSpec.zero)
  ∧ (S.Prometheus.Enabled = true ∧ S.Prometheus.Storage.Size < 2 ^ 64
      ∧ AuthIngressKept (L htPasswordSecretType) S.Prometheus.Ingress)
  ∧ (if S.Alertmanager.Enabled then
       (ProvidersUnused S.Alertmanager.Provider
         ∨ PagerDutyKept (L pagerDutySecretType) S.Alertmanager.Provider
         ∨ SlackKept (L slackSecretType) S.Alertmanager.Provider)
       ∧ AuthIngressKept (L htPasswordSecretType) S.Alertmanager.Ingress
     else
       S.Alertmanager.Ingress = ingressSpecWithSecret.zero
       ∧ ProvidersUnused S.Alertmanager.Provider)
  ∧ (if S.Pushgateway.Enabled then
       AuthIngressKept (L htPasswordSecretType) S.Pushgateway.Ingress
     else S.Pushgateway = pushgatewaySpec.zero)

/-- Two provider maps hold the same providers: their slack entries decode alike, their
pagerDuty entries decode alike (an absent entry decodes as the zero value, which is how the
builders read the map), and they agree on every other key. -/
def SameProviders (P Q : GoMap PValue) : Prop :=
  decodeSlack (GoMap.get? P alertmanagerProviderSlack)
      = decodeSlack (GoMap.get? Q alertmanagerProviderSlack)
  ∧ decodePagerDuty (GoMap.get? P alertmanagerProviderPagerDuty)
      = decodePagerDuty (GoMap.get? Q alertmanagerProviderPagerDuty)
  ∧ ∀ k, k ≠ alertmanagerProviderSlack → k ≠ alertmanagerProviderPagerDuty →
      GoMap.get? P k = GoMap.get? Q k

/-- Two specifications are equal, the provider maps of Alertmanager (whose entries are
untyped in a stored document and typed in a built one) being compared by `SameProviders`. -/
def SameSpec (S T : serviceSpec) : Prop :=
  S.Grafana = T.Grafana ∧ S.Prometheus = T.Prometheus
  ∧ S.Alertmanager.Enabled = T.Alertmanager.Enabled
  ∧ S.Alertmanager.Ingress = T.Alertmanager.Ingress
  ∧ SameProviders S.Alertmanager.Provider T.Alertmanager.Provider
  ∧ S.Pushgateway = T.Pushgateway ∧ S.Exporters = T.Exporters

/-- A backend that lists, for each credential kind, the credentials `L` gives for it. -/
def cliListing (L : String → List SecretItem) : Cli :=
  { GetSecrets := fun _ kind => .ok (L kind) }

/-- A stored document whose Prometheus entry is disabled. -/
def disabledPrometheusDoc : GoMap Value :=
  [("prometheus", Value.raw (Raw.obj
      [("enabled", Raw.bool false),
       ("storage", Raw.obj [("size", Raw.num 100), ("retention", Raw.str "10d")])]))]

/-- The specification `disabledPrometheusDoc` decodes into. -/
def disabledPrometheusSpec : serviceSpec :=
  { Grafana := grafanaSpec.zero
    Prometheus := { Enabled := false,
                    Storage := { Class := "", Size := 100, Retention := "10d" },
                    Ingress := ingressSpecWithSecret.zero }
    Alertmanager := alertmanagerSpec.zero
    Pushgateway := pushgatewaySpec.zero
    Exporters := exportersSpec.zero }

/-- The credentials of a sample backend: one password credential, one htpasswd credential. -/
def sampleListing (kind : String) : List SecretItem :=
  if kind = passwordSecretType then [⟨"g1", "grafana-admin"⟩]
  else if kind = htPasswordSecretType then [⟨"h1", "basic-auth"⟩]
  else []

/-- The credentials of a backend: one password, one htpasswd and one pagerduty credential. -/
def storedListing (kind : String) : List SecretItem :=
  if kind = passwordSecretType then [⟨"g1", "grafana-admin"⟩]
  else if kind = htPasswordSecretType then [⟨"h1", "basic-auth"⟩]
  else if kind = pagerDutySecretType then [⟨"pd1", "on-call"⟩]
  else []

/-- A stored document as the backend returns it, every entry untyped: Grafana and Prometheus
enabled with ingress, Alertmanager enabled with ingress and PagerDuty in use (slack
disabled), Pushgateway disabled, exporters and an unknown key besides. -/
def storedDoc : GoMap Value :=
  [("grafana", Value.raw (Raw.obj
      [("enabled", Raw.bool true), ("secretId", Raw.str "g1"),
       ("ingress", Raw.obj [("enabled", Raw.bool true), ("domain", Raw.str "example.com"),
                            ("path", Raw.str "/grafana")]),
       ("dashboards", Raw.bool true)])),
   ("prometheus", Value.raw (Raw.obj
      [("enabled", Raw.bool true),
       ("storage", Raw.obj [("size", Raw.num 100), ("retention", Raw.str "10d")]),
       ("ingress", Raw.obj [("enabled", Raw.bool true), ("path", Raw.str "/prometheus"),
                            ("secretId", Raw.str "h1")])])),
   ("alertmanager", Value.raw (Raw.obj
      [("enabled", Raw.bool true),
       ("provider", Raw.obj
          [("slack", Raw.obj [("enabled", Raw.bool false)]),
           ("pagerDuty", Raw.obj
              [("enabled", Raw.bool true),
               ("url", Raw.str "https://events.pagerduty.com/generic"),
               ("secretId", Raw.str "pd1"),
               ("integrationType", Raw.str "eventsApiV2"),
               ("sendResolved", Raw.bool true)])]),
       ("ingress", Raw.obj [("enabled", Raw.bool true),
                            ("domain", Raw.str "alerts.example.com"),
                            ("path", Raw.str "/alertmanager"),
                            ("secretId", Raw.str "h1")])])),
   ("pushgateway", Value.raw (Raw.obj [("enabled", Raw.bool false)])),
   ("exporters", Value.raw (Raw.obj [("enabled", Raw.bool true)])),
   ("custom", Value.raw (Raw.str "kept"))]

/-- The specification `storedDoc` decodes into; the provider entries stay untyped. -/
def storedSpec : serviceSpec :=
  { Grafana := { Enabled := true, SecretId := "g1",
                 Ingress := { Enabled := true, Domain := "example.com", Path := "/grafana" },
                 Dashboards := true }
    Prometheus := { Enabled := true,
                    Storage := { Class := "", Size := 100, Retention := "10d" },
                    Ingress := { baseIngressSpec :=
                                   { Enabled := true, Domain := "", Path := "/prometheus" },
                                 SecretId := "h1" } }
    Alertmanager :=
      { Enabled := true,
        Provider :=
          [("slack", PValue.raw (Raw.obj [("enabled", Raw.bool false)])),
           ("pagerDuty", PValue.raw (Raw.obj
              [("enabled", Raw.bool true),
               ("url", Raw.str "https://events.pagerduty.com/generic"),
               ("secretId", Raw.str "pd1"),
               ("integrationType", Raw.str "eventsApiV2"),
               ("sendResolved", Raw.bool true)]))],
        Ingress := { baseIngressSpec := { Enabled := true, Domain := "alerts.example.com",
                                          Path := "/alertmanager" },
                     SecretId := "h1" } }
    Pushgateway := pushgatewaySpec.zero
    Exporters := { Enabled := true, NodeExporter := { Enabled := false },
                   KubeStateMetrics := { Enabled := false } } }

/-! ## The activation entry point -/

/-- The request of an activation (`pipeline.ActivateIntegratedServiceRequest`): its `Spec` is
the untyped document sent to the backend. -/
structure ActivateIntegratedServiceRequest where
  Spec : GoMap Value

/-- Method `Manager.BuildActivateRequestInteractively` of manager.go (the cluster context
argument is not used by the method). -/
def BuildActivateRequestInteractively (op : Operator) (banzaiCLI : Cli) :
    Prog ActivateIntegratedServiceRequest := do
  let grafana ← (askGrafana op banzaiCLI
      { Enabled := true, SecretId := "",
        Ingress := { Enabled := true, Domain := "", Path := "/grafana" },
        Dashboards := true }).wrapIf "error during getting Grafana options"
  let prometheus ← (askPrometheus op banzaiCLI
      { Enabled := true,
        Storage := { Class := "", Size := 100, Retention := "10d" },
        Ingress := { baseIngressSpec := { Enabled := true, Domain := "", Path := "/prometheus" },
                     SecretId := "" } }).wrapIf "error during getting Prometheus options"
  let alertmanager ← (askAlertmanager op banzaiCLI
      { Enabled := true,
        Ingress := { baseIngressSpec :=
                       { Enabled := true, Domain := "", Path := "/alertmanager" },
                     SecretId := "" },
        Provider :=
          [(alertmanagerProviderSlack,
              PValue.slackSpec { Enabled := false, SecretId := "", Channel := "",
                                 SendResolved := true }),
           (alertmanagerProviderPagerDuty,
              PValue.pagerDutySpec { Enabled := false, Url := "", SecretId := "",
                                     IntegrationType := "", SendResolved := true })] }).wrapIf
    "error during getting Alertmanager options"
  let pushgateway ← (askPushgateway op banzaiCLI
      { Enabled := true,
        Ingress := { baseIngressSpec :=
                       { Enabled := false, Domain := "", Path := "/pushgateway" },
                     SecretId := "" } }).wrapIf "error during getting Pushgateway options"
  return { Spec :=
    [("grafana", Value.grafanaSpec grafana),
     ("prometheus", Value.prometheusSpec prometheus),
     ("alertmanager", Value.alertmanagerSpec alertmanager),
     ("pushgateway", Value.pushgatewaySpec pushgateway),
     ("exporters", Value.exportersSpec
        { Enabled := true, NodeExporter := { Enabled := true },
          KubeStateMetrics := { Enabled := true } })] }

/-- The operator who accepts every offered default except at the Grafana ingress domain
prompt, where the answer is `example.com`. -/
def grafanaDomainOperator : Operator :=
  { confirm := fun _ q => .ok q.DefaultValue
    input := fun _ q =>
      if q.Message = "Please provide Grafana Ingress domain:" then .ok "example.com"
      else .ok q.DefaultValue
    select := fun _ q => .ok q.DefaultValue }

/-- A computation returns some value satisfying `P`, whatever the trace it starts from. -/
structure Prog.Yields {α : Type} (p : Prog α) (P : α → Prop) : Prop where
  out : ∀ tr, ∃ a tr1, p tr = (Except.ok a, tr1) ∧ P a

/-! ## The details table -/

/-- Struct `baseOutputItems` of manager.go. -/
structure baseOutputItems where
  Url : String
  SecretID : String
  Version : String
  ServiceURL : String
  deriving DecidableEq, Repr

/-- The anonymous struct of field `PrometheusOperator` in `outputResponse`. -/
structure prometheusOperatorOutput where
  Version : String
  deriving DecidableEq, Repr

/-- Struct `outputResponse` of manager.go; the anonymous structs that only embed
`baseOutputItems` are that struct. -/
structure outputResponse where
  Alertmanager : baseOutputItems
  Grafana : baseOutputItems
  Prometheus : baseOutputItems
  PrometheusOperator : prometheusOperatorOutput
  Pushgateway : baseOutputItems
  deriving DecidableEq, Repr

/-- The codec for `baseOutputItems` (tags `url`, `secretId`, `version`, `serviceUrl`, squashed
into the enclosing struct) from the untyped entry named `name`. -/
def decodeBaseOutputItems (name : String) (r : Option Raw) : Except String baseOutputItems := do
  let kvs ← decodeObj name r
  let url ← decodeString "url" (fieldOf kvs "url")
  let secretId ← decodeString "secretId" (fieldOf kvs "secretId")
  let version ← decodeString "version" (fieldOf kvs "version")
  let serviceUrl ← decodeString "serviceUrl" (fieldOf kvs "serviceUrl")
  return { Url := url, SecretID := secretId, Version := version, ServiceURL := serviceUrl }

/-- The codec for the `prometheusOperator` entry (tag `version`). -/
def decodePrometheusOperator (r : Option Raw) : Except String prometheusOperatorOutput := do
  let kvs ← decodeObj "prometheusOperator" r
  let version ← decodeString "version" (fieldOf kvs "version")
  return { Version := version }

/-- The call `mapstructure.Decode(details.Output, &output)` for `outputResponse` (tags
`alertmanager`, `grafana`, `prometheus`, `prometheusOperator`, `pushgateway`). -/
def decodeOutputResponse (doc : GoMap Raw) : Except String outputResponse := do
  let alertmanager ← decodeBaseOutputItems "alertmanager" (fieldOf doc "alertmanager")
  let grafana ← decodeBaseOutputItems "grafana" (fieldOf doc "grafana")
  let prometheus ← decodeBaseOutputItems "prometheus" (fieldOf doc "prometheus")
  let operator ← decodePrometheusOperator (fieldOf doc "prometheusOperator")
  let pushgateway ← decodeBaseOutputItems "pushgateway" (fieldOf doc "pushgateway")
  return { Alertmanager := alertmanager, Grafana := grafana, Prometheus := prometheus,
           PrometheusOperator := operator, Pushgateway := pushgateway }

/-- The details record of a service (`pipeline.IntegratedServiceDetails`, fields as
`WriteDetailsTable` reads them): the output document is what the backend reports, untyped. -/
structure IntegratedServiceDetails where
  Output : GoMap Raw
  Spec : GoMap Value
  Status : String

/-- A value shown in the table (`interface{}` holding a string, a `uint` or a `bool`). -/
inductive Cell where
  | str (s : String)
  | uint (n : Nat)
  | bool (b : Bool)
  deriving DecidableEq, Repr

/-- Type `TableData` of manager.go: a section of the table, from label to value. -/
abbrev TableData := GoMap Cell

/-- The `secretID` shown for a sub-component with authenticated ingress, as
`WriteDetailsTable` computes it for Alertmanager, Prometheus and Pushgateway. -/
def ingressSecretID (ingress : ingressSpecWithSecret) (output : baseOutputItems) : String :=
  if ingress.baseIngressSpec.Enabled then
    if ingress.SecretId = "" then output.SecretID else ingress.SecretId
  else ""

/-- The section `WriteDetailsTable` builds for a sub-component from its output, the secret
shown and the ingress path and domain of its spec. -/
def componentTable (output : baseOutputItems) (secretID path domain : String) : TableData :=
  [("url", Cell.str output.Url),
   ("version", Cell.str output.Version),
   ("serviceUrl", Cell.str output.ServiceURL),
   ("secretID", Cell.str secretID),
   ("path", Cell.str path),
   ("domain", Cell.str domain)]

/-- Method `Manager.WriteDetailsTable` of manager.go (the two `log.Errorf` calls on decode
failures write to the log only and are left out). -/
def WriteDetailsTable (details : IntegratedServiceDetails) : GoMap TableData :=
  let tableData : GoMap TableData := [("Monitoring", [("Status", Cell.str details.Status)])]
  if details.Status = "INACTIVE" then tableData
  else
    match decodeOutputResponse details.Output with
    | .error _ => tableData
    | .ok output =>
      match decodeServiceSpec details.Spec with
      | .error _ => tableData
      | .ok spec =>
        let tableData :=
          if spec.Alertmanager.Enabled then
            GoMap.set tableData "Alertmanager"
              (componentTable output.Alertmanager
                (ingressSecretID spec.Alertmanager.Ingress output.Alertmanager)
                spec.Alertmanager.Ingress.baseIngressSpec.Path
                spec.Alertmanager.Ingress.baseIngressSpec.Domain)
          else tableData
        let tableData :=
          if spec.Grafana.Enabled then
            GoMap.set tableData "Grafana"
              (componentTable output.Grafana
                (if spec.Grafana.SecretId = "" then output.Grafana.SecretID
                 else spec.Grafana.SecretId)
                spec.Grafana.Ingress.Path spec.Grafana.Ingress.Domain)
          else tableData
        let tableData :=
          if spec.Prometheus.Enabled then
            GoMap.set
              (GoMap.set tableData "Prometheus"
                (componentTable output.Prometheus
                  (ingressSecretID spec.Prometheus.Ingress output.Prometheus)
                  spec.Prometheus.Ingress.baseIngressSpec.Path
                  spec.Prometheus.Ingress.baseIngressSpec.Domain))
              "Prometheus_storage"
              [("class", Cell.str spec.Prometheus.Storage.Class),
               ("size", Cell.uint spec.Prometheus.Storage.Size),
               ("retention", Cell.str spec.Prometheus.Storage.Retention)]
          else tableData
        let tableData :=
          if spec.Pushgateway.Enabled then
            GoMap.set tableData "Pushgateway"
              (componentTable output.Pushgateway
                (ingressSecretID spec.Pushgateway.Ingress output.Pushgateway)
                spec.Pushgateway.Ingress.baseIngressSpec.Path
                spec.Pushgateway.Ingress.baseIngressSpec.Domain)
          else tableData
        let tableData :=
          if spec.Exporters.Enabled then
            GoMap.set tableData "Exporters"
              [("nodeExporter", Cell.bool spec.Exporters.NodeExporter.Enabled),
               ("kubeStateMetrics", Cell.bool spec.Exporters.KubeStateMetrics.Enabled)]
          else tableData
        GoMap.set tableData "Prometheus_operator"
          [("version", Cell.str output.PrometheusOperator.Version)]

/-- The value shown under `label` in the section `sectionName` of a table, if any. -/
def tableCell (table : GoMap TableData) (sectionName label : String) : Option Cell :=
  match GoMap.get? table sectionName with
  | some t => GoMap.get? t label
  | none => none

/-- A details record of an active service: Prometheus enabled without ingress and without a
chosen secret, while the output carries a backend-generated secret for it. -/
def generatedSecretDetails : IntegratedServiceDetails :=
  { Status := "ACTIVE"
    Output := [("prometheus", Raw.obj [("url", Raw.str "http://prom"),
                                      ("secretId", Raw.str "generated")]),
               ("prometheusOperator", Raw.obj [("version", Raw.str "0.34")])]
    Spec := [("prometheus", Value.raw (Raw.obj [("enabled", Raw.bool true)]))] }

/-- A details record of an active service with Grafana (its own secret chosen), Prometheus
(ingress enabled, no secret chosen) and the exporters enabled. -/
def sampleDetails : IntegratedServiceDetails :=
  { Status := "ACTIVE"
    Output := [("grafana", Raw.obj [("url", Raw.str "http://grafana"),
                                   ("secretId", Raw.str "generated-g")]),
               ("prometheus", Raw.obj [("secretId", Raw.str "generated-p")]),
               ("prometheusOperator", Raw.obj [("version", Raw.str "0.34")])]
    Spec := [("grafana", Value.raw (Raw.obj [("enabled", Raw.bool true),
                                            ("secretId", Raw.str "chosen-g")])),
             ("prometheus", Value.raw (Raw.obj
                [("enabled", Raw.bool true),
                 ("ingress", Raw.obj [("enabled", Raw.bool true)])])),
             ("exporters", Value.raw (Raw.obj [("enabled", Raw.bool true)]))] }

/-- A details record whose output document does not decode: the grafana entry is a string. -/
def brokenOutputDetails : IntegratedServiceDetails :=
  { Status := "ACTIVE"
    Output := [("grafana", Raw.str "oops")]
    Spec := [("grafana", Value.raw (Raw.obj [("enabled", Raw.bool true)]))] }

/-- A computation only appends to the trace, and never the interaction `e`. -/
structure Prog.Avoids {α : Type} (p : Prog α) (e : Event) : Prop where
  out : ∀ tr, ∃ new, (p tr).2 = tr ++ new ∧ e ∉ new

/-- On every run that returns a value, the computation has appended the interaction `e` to the
trace exactly when `flag` holds of the value returned. -/
structure Prog.Marks {α : Type} (p : Prog α) (e : Event) (flag : α → Bool) : Prop where
  out : ∀ tr res tr1, p tr = (Except.ok res, tr1) →
    ∃ new, tr1 = tr ++ new ∧ (e ∈ new ↔ flag res = true)

/-- The operator who answers yes to every confirm, picks `name` at every select prompt and
types `text` at every free-text prompt. -/
def answering (name text : String) : Operator :=
  { confirm := fun _ _ => .ok true
    input := fun _ _ => .ok text
    select := fun _ _ => .ok name }

/-! # Theorems -/

/-! ## Basic facts about `Prog` and Go maps -/

theorem Prog.bind_apply {α β : Type} (m : Prog α) (f : α → Prog β) (tr : List Event) :
    (m >>= f) tr = match m tr with
      | (Except.ok a, tr1) => f a tr1
      | (Except.error e, tr1) => (Except.error e, tr1) := rfl

theorem Prog.pure_apply {α : Type} (a : α) (tr : List Event) :
    (pure a : Prog α) tr = (Except.ok a, tr) := rfl

theorem GoMap.get?_set {β : Type} (m : GoMap β) (k k' : String) (v : β) :
    GoMap.get? (GoMap.set m k v) k' = if k = k' then some v else GoMap.get? m k' := by
  induction m with
  | nil => simp [GoMap.set, GoMap.get?]
  | cons kv m ih =>
    obtain ⟨k0, v0⟩ := kv
    by_cases h0 : k0 = k
    · subst h0
      by_cases h1 : k0 = k' <;> simp [GoMap.set, GoMap.get?, h1]
    · by_cases h1 : k0 = k'
      · subst h1
        have : ¬ k = k0 := fun h => h0 h.symm
        simp [GoMap.set, GoMap.get?, h0, this]
      · simp [GoMap.set, GoMap.get?, h0, h1, ih]

/-! ## The Secret Resolver -/

/-- After the listing loop the default name is the name of the last listed credential whose
identifier is the current one, and the initial default when there is none. -/
theorem askSecretLoop_defaultSecretName (cur : String) (sk : Bool)
    (secrets : List SecretItem) :
    ∀ (i : Nat) (st : SecretLoopState),
      (askSecretLoop cur sk i secrets st).defaultSecretName
        = match secrets.reverse.find? (fun s => s.Id = cur) with
          | some s => s.Name
          | none => st.defaultSecretName := by
  induction secrets with
  | nil => intro i st; simp [askSecretLoop]
  | cons s rest ih =>
    intro i st
    simp only [askSecretLoop]
    rw [ih]
    by_cases h : s.Id = cur
    · cases hf : rest.reverse.find? (fun s => s.Id = cur) <;>
        simp [List.find?_append, hf, h]
    · cases hf : rest.reverse.find? (fun s => s.Id = cur) <;>
        simp [List.find?_append, hf, h]

/-- After the listing loop the lookup maps a name to the identifier of the last listed
credential bearing it. -/
theorem askSecretLoop_secretIds (cur : String) (sk : Bool) (name : String)
    (secrets : List SecretItem) :
    ∀ (i : Nat) (st : SecretLoopState),
      GoMap.get? (askSecretLoop cur sk i secrets st).secretIds name
        = match secrets.reverse.find? (fun s => s.Name = name) with
          | some s => some s.Id
          | none => GoMap.get? st.secretIds name := by
  induction secrets with
  | nil => intro i st; simp [askSecretLoop]
  | cons s rest ih =>
    intro i st
    simp only [askSecretLoop]
    rw [ih]
    by_cases h : s.Name = name
    · cases hf : rest.reverse.find? (fun s => s.Name = name) <;>
        simp [List.find?_append, hf, h, GoMap.get?_set]
    · cases hf : rest.reverse.find? (fun s => s.Name = name) <;>
        simp [List.find?_append, hf, h, GoMap.get?_set]

/-- The default name `askSecret` preselects. -/
theorem askSecretQuestion_default (secrets : List SecretItem) (cur : String) (sk : Bool) :
    (askSecretQuestion secrets cur sk).DefaultValue
      = match secrets.reverse.find? (fun s => s.Id = cur) with
        | some s => s.Name
        | none => if sk then skip else "" := by
  simp only [askSecretQuestion, askSecretPrepare, askSecretLoop_defaultSecretName,
    askSecretInit]

/-- The identifier `askSecret` maps a selected name to. -/
theorem askSecretPrepare_secretIds (secrets : List SecretItem) (cur : String) (sk : Bool)
    (name : String) :
    GoMap.get? (askSecretPrepare secrets cur sk).secretIds name
      = (secrets.reverse.find? (fun s => s.Name = name)).map (fun s => s.Id) := by
  simp only [askSecretPrepare, askSecretLoop_secretIds, askSecretInit, GoMap.get?]
  cases secrets.reverse.find? (fun s => s.Name = name) <;> rfl

/-- What `askSecret` does on a non-empty listing: one listing, one select prompt, and the
answer mapped through the skip test and the lookup. -/
theorem askSecret_nonempty (op : Operator) (banzaiCLI : Cli) (secretType cur : String)
    (sk : Bool) (tr : List Event) (secrets : List SecretItem) (hne : secrets ≠ [])
    (hl : banzaiCLI.GetSecrets tr secretType = .ok secrets) :
    askSecret op banzaiCLI secretType cur sk tr
      = (match op.select (tr ++ [Event.getSecrets secretType])
            (askSecretQuestion secrets cur sk) with
         | .ok name =>
           .ok (if name = skip then ""
                else ((secrets.reverse.find? (fun s => s.Name = name)).map
                  (fun s => s.Id)).getD "")
         | .error e => .error ("error during getting secret: " ++ e),
         tr ++ [Event.getSecrets secretType,
                Event.select (askSecretQuestion secrets cur sk)]) := by
  have hlen : ¬ secrets.length = 0 := by
    intro h; exact hne (List.length_eq_zero.mp h)
  simp only [askSecret, Prog.bind_apply, Prog.wrapIf, getSecrets, hl, hlen, if_false,
    askSelect, askSecretQuestion]
  cases hsel : op.select (tr ++ [Event.getSecrets secretType])
      { Message := "Provider secret:",
        DefaultValue := (askSecretPrepare secrets cur sk).defaultSecretName,
        Options := (askSecretPrepare secrets cur sk).secretOptions } with
  | error e => simp [hsel]
  | ok name =>
    by_cases hs : name = skip
    · simp [hsel, hs, Prog.pure_apply]
    · simp [hsel, hs, Prog.pure_apply, askSecretPrepare_secretIds]

/-- `askSecret` on an empty listing: the empty identifier, and only the listing in the
trace. -/
theorem askSecret_nothing_listed (op : Operator) (banzaiCLI : Cli)
    (secretType DefaultValue : String) (withSkipOption : Bool) (tr : List Event)
    (h : banzaiCLI.GetSecrets tr secretType = .ok []) :
    askSecret op banzaiCLI secretType DefaultValue withSkipOption tr
      = (.ok "", tr ++ [Event.getSecrets secretType]) := by
  simp [askSecret, Prog.bind_apply, Prog.wrapIf, getSecrets, h, Prog.pure_apply]

/-- C4: for every credential kind, current identifier and allowSkip value, when the backend
listing succeeds with an empty list, `askSecret` returns the empty identifier with no error,
and the only interaction it performs is the listing itself: no prompt is issued. -/
theorem C4_askSecret_empty_listing (op : Operator) (banzaiCLI : Cli)
    (secretType DefaultValue : String) (withSkipOption : Bool) (tr : List Event)
    (h : banzaiCLI.GetSecrets tr secretType = .ok []) :
    askSecret op banzaiCLI secretType DefaultValue withSkipOption tr
      = (.ok "", tr ++ [Event.getSecrets secretType]) := by
  unfold askSecret
  simp only [Prog.bind_apply, Prog.wrapIf, getSecrets, h, List.length_nil, if_true,
    Prog.pure_apply]

/-- C4 at a concrete input: an htpasswd listing that is empty, a current identifier `b`. -/
theorem C4_askSecret_empty_listing_witness :
    askSecret keepDefault (cliWith []) htPasswordSecretType "b" true []
      = (.ok "", [Event.getSecrets htPasswordSecretType]) :=
  C4_askSecret_empty_listing keepDefault (cliWith []) htPasswordSecretType "b" true [] rfl

/-- C5 as stated fails: with two listed credentials that share the identifier `a`, named
`Foo` and `Bar`, the first listed match is `Foo` but the default `askSecret` preselects is
`Bar`. -/
theorem C5_default_is_not_first_match :
    ([⟨"a", "Foo"⟩, ⟨"a", "Bar"⟩].find? (fun s : SecretItem => s.Id = "a")).map
        (fun s => s.Name) = some "Foo"
    ∧ (askSecret keepDefault (cliWith [⟨"a", "Foo"⟩, ⟨"a", "Bar"⟩]) passwordSecretType
        "a" true []).2
      = [Event.getSecrets passwordSecretType,
         Event.select { Message := "Provider secret:", DefaultValue := "Bar",
                        Options := ["skip", "Foo", "Bar"] }] := by
  decide

/-- C5 (amended): for every non-empty credential list and current identifier, `askSecret`
issues one select prompt whose default is the name of the LAST listed credential whose
identifier equals the current identifier; if no listed credential has that identifier the
default is `skip` when skip is allowed and the empty name when it is not. -/
theorem C5_askSecret_default_is_last_match (op : Operator) (banzaiCLI : Cli)
    (secretType cur : String) (sk : Bool) (tr : List Event) (secrets : List SecretItem)
    (hne : secrets ≠ []) (hl : banzaiCLI.GetSecrets tr secretType = .ok secrets) :
    (askSecret op banzaiCLI secretType cur sk tr).2
        = tr ++ [Event.getSecrets secretType,
                 Event.select (askSecretQuestion secrets cur sk)]
    ∧ (askSecretQuestion secrets cur sk).DefaultValue
        = match secrets.reverse.find? (fun s => s.Id = cur) with
          | some s => s.Name
          | none => if sk then skip else "" := by
  refine ⟨?_, askSecretQuestion_default secrets cur sk⟩
  rw [askSecret_nonempty op banzaiCLI secretType cur sk tr secrets hne hl]

/-- C5 at the input of the specification: identifiers `a`, `b` named `Foo`, `Bar`, current
identifier `b`: the preselected default is `Bar`. -/
theorem C5_askSecret_default_is_last_match_witness :
    (askSecret keepDefault (cliWith [⟨"a", "Foo"⟩, ⟨"b", "Bar"⟩]) htPasswordSecretType
        "b" true []).2
        = [] ++ [Event.getSecrets htPasswordSecretType,
                 Event.select (askSecretQuestion [⟨"a", "Foo"⟩, ⟨"b", "Bar"⟩] "b" true)]
    ∧ (askSecretQuestion [⟨"a", "Foo"⟩, ⟨"b", "Bar"⟩] "b" true).DefaultValue = "Bar" :=
  C5_askSecret_default_is_last_match keepDefault (cliWith [⟨"a", "Foo"⟩, ⟨"b", "Bar"⟩])
    htPasswordSecretType "b" true [] [⟨"a", "Foo"⟩, ⟨"b", "Bar"⟩] (by decide) rfl

/-- C6 at the failing input: skip is not offered, the only listed credential has identifier
`x` and is named `skip`, and the operator selects it. `askSecret` offers the options
`[skip]` with no synthetic entry and returns the empty identifier, not `x`. -/
theorem C6_askSecret_credential_named_skip :
    askSecret (selecting "skip") (cliWith [⟨"x", "skip"⟩]) slackSecretType "" false []
      = (.ok "",
         [Event.getSecrets slackSecretType,
          Event.select { Message := "Provider secret:", DefaultValue := "",
                         Options := ["skip"] }])
    ∧ ([⟨"x", "skip"⟩].reverse.find? (fun s : SecretItem => s.Name = "skip")).map
        (fun s => s.Id) = some "x" := by
  decide

/-! ## Traces only grow -/

theorem Prog.extends_pure {α : Type} (a : α) : Prog.Extends (Pure.pure a : Prog α) :=
  ⟨fun _ => ⟨[], by simp [Prog.pure_apply]⟩⟩

theorem Prog.extends_ret {α : Type} (a : α) : Prog.Extends (Prog.ret a) :=
  ⟨fun _ => ⟨[], by simp [Prog.ret]⟩⟩

theorem Prog.extends_fail {α : Type} (e : String) : Prog.Extends (Prog.fail e : Prog α) :=
  ⟨fun _ => ⟨[], by simp [Prog.fail]⟩⟩

theorem Prog.extends_lift {α : Type} (r : Except String α) : Prog.Extends (Prog.lift r) :=
  ⟨fun _ => ⟨[], by simp [Prog.lift]⟩⟩

theorem Prog.extends_bind {α β : Type} {m : Prog α} {f : α → Prog β}
    (hm : Prog.Extends m) (hf : ∀ a, Prog.Extends (f a)) : Prog.Extends (m >>= f) := by
  constructor
  intro tr
  obtain ⟨r1, h1⟩ := hm.out tr
  rw [Prog.bind_apply]
  rcases hmt : m tr with ⟨res, tr1⟩
  rw [hmt] at h1
  simp only at h1
  subst h1
  cases res with
  | error e => exact ⟨r1, rfl⟩
  | ok a =>
    obtain ⟨r2, h2⟩ := (hf a).out (tr ++ r1)
    exact ⟨r1 ++ r2, by simp [h2]⟩

theorem Prog.extends_wrapIf {α : Type} {m : Prog α} (msg : String)
    (hm : Prog.Extends m) : Prog.Extends (m.wrapIf msg) := by
  constructor
  intro tr
  obtain ⟨r1, h1⟩ := hm.out tr
  simp only [Prog.wrapIf]
  rcases hmt : m tr with ⟨res, tr1⟩
  rw [hmt] at h1
  cases res <;> exact ⟨r1, h1⟩

theorem Prog.extends_askConfirm (op : Operator) (q : QuestionConfirm) :
    Prog.Extends (askConfirm op q) := ⟨fun _ => ⟨[Event.confirm q], rfl⟩⟩

theorem Prog.extends_askInput (op : Operator) (q : QuestionInput) :
    Prog.Extends (askInput op q) := ⟨fun _ => ⟨[Event.input q], rfl⟩⟩

theorem Prog.extends_askSelect (op : Operator) (q : QuestionSelect) :
    Prog.Extends (askSelect op q) := ⟨fun _ => ⟨[Event.select q], rfl⟩⟩

theorem Prog.extends_getSecrets (banzaiCLI : Cli) (t : String) :
    Prog.Extends (getSecrets banzaiCLI t) := ⟨fun _ => ⟨[Event.getSecrets t], rfl⟩⟩

theorem askSecret_extends (op : Operator) (banzaiCLI : Cli) (t d : String) (sk : Bool) :
    Prog.Extends (askSecret op banzaiCLI t d sk) := by
  unfold askSecret
  repeat (first
    | apply Prog.extends_askSelect
    | apply Prog.extends_getSecrets
    | apply Prog.extends_bind
    | apply Prog.extends_wrapIf
    | apply Prog.extends_pure
    | intro _
    | split)

theorem askIngress_extends (op : Operator) (c : String) (d : baseIngressSpec) :
    Prog.Extends (askIngress op c d) := by
  unfold askIngress
  repeat (first
    | apply Prog.extends_askConfirm
    | apply Prog.extends_askInput
    | apply Prog.extends_bind
    | apply Prog.extends_wrapIf
    | apply Prog.extends_pure
    | intro _
    | split)

theorem askGrafana_extends (op : Operator) (banzaiCLI : Cli) (d : grafanaSpec) :
    Prog.Extends (askGrafana op banzaiCLI d) := by
  unfold askGrafana
  repeat (first
    | apply Prog.extends_askConfirm
    | apply askSecret_extends
    | apply askIngress_extends
    | apply Prog.extends_bind
    | apply Prog.extends_wrapIf
    | apply Prog.extends_pure
    | intro _
    | split)

theorem askPrometheus_extends (op : Operator) (banzaiCLI : Cli) (d : prometheusSpec) :
    Prog.Extends (askPrometheus op banzaiCLI d) := by
  unfold askPrometheus
  repeat (first
    | apply Prog.extends_askInput
    | apply Prog.extends_lift
    | apply askSecret_extends
    | apply askIngress_extends
    | apply Prog.extends_bind
    | apply Prog.extends_wrapIf
    | apply Prog.extends_pure
    | intro _
    | split)

theorem askNotificationProviderSlack_extends (op : Operator) (banzaiCLI : Cli)
    (d : Option PValue) : Prog.Extends (askNotificationProviderSlack op banzaiCLI d) := by
  unfold askNotificationProviderSlack
  repeat (first
    | apply Prog.extends_askInput
    | apply Prog.extends_askConfirm
    | apply Prog.extends_lift
    | apply askSecret_extends
    | apply Prog.extends_bind
    | apply Prog.extends_wrapIf
    | apply Prog.extends_pure
    | intro _
    | split)

theorem askNotificationProviderPagerDuty_extends (op : Operator) (banzaiCLI : Cli)
    (d : Option PValue) : Prog.Extends (askNotificationProviderPagerDuty op banzaiCLI d) := by
  unfold askNotificationProviderPagerDuty
  repeat (first
    | apply Prog.extends_askInput
    | apply Prog.extends_askConfirm
    | apply Prog.extends_lift
    | apply Prog.extends_askSelect
    | apply Prog.extends_ret
    | apply Prog.extends_fail
    | apply askSecret_extends
    | apply Prog.extends_bind
    | apply Prog.extends_wrapIf
    | apply Prog.extends_pure
    | intro _
    | split)

theorem askProviderOptions_extends (op : Operator) (banzaiCLI : Cli)
    (d : alertmanagerSpec) (n : String) : Prog.Extends (askProviderOptions op banzaiCLI d n) := by
  unfold askProviderOptions
  repeat (first
    | apply Prog.extends_ret
    | apply Prog.extends_fail
    | apply askNotificationProviderSlack_extends
    | apply askNotificationProviderPagerDuty_extends
    | apply Prog.extends_bind
    | apply Prog.extends_wrapIf
    | apply Prog.extends_pure
    | intro _
    | split)

theorem askAlertmanager_extends (op : Operator) (banzaiCLI : Cli) (d : alertmanagerSpec) :
    Prog.Extends (askAlertmanager op banzaiCLI d) := by
  unfold askAlertmanager
  repeat (first
    | apply Prog.extends_askConfirm
    | apply Prog.extends_askSelect
    | apply askProviderOptions_extends
    | apply askSecret_extends
    | apply askIngress_extends
    | apply Prog.extends_bind
    | apply Prog.extends_wrapIf
    | apply Prog.extends_pure
    | intro _
    | split)

theorem askPushgateway_extends (op : Operator) (banzaiCLI : Cli) (d : pushgatewaySpec) :
    Prog.Extends (askPushgateway op banzaiCLI d) := by
  unfold askPushgateway
  repeat (first
    | apply Prog.extends_askConfirm
    | apply askSecret_extends
    | apply askIngress_extends
    | apply Prog.extends_bind
    | apply Prog.extends_wrapIf
    | apply Prog.extends_pure
    | intro _
    | split)

/-! ## Parsing the printed size -/

theorem digitValue_digitChar (m : Nat) (h : m < 10) : digitValue (Nat.digitChar m) = some m := by
  interval_cases m <;> decide

theorem parseUintLoop_toDigitsCore (fuel : Nat) :
    ∀ (n : Nat) (ds : List Char) (acc : Nat), n < fuel →
      ∃ k, acc * 10 ^ k + n < 2 ^ 64 →
        parseUintLoop (Nat.toDigitsCore 10 fuel n ds) acc
          = parseUintLoop ds (acc * 10 ^ k + n) := by
  induction fuel with
  | zero => intro n ds acc h; omega
  | succ fuel ih =>
    intro n ds acc h
    have hd : digitValue (Nat.digitChar (n % 10)) = some (n % 10) :=
      digitValue_digitChar _ (Nat.mod_lt _ (by decide))
    by_cases h0 : n / 10 = 0
    · refine ⟨1, fun hb => ?_⟩
      have hn : n % 10 = n := by omega
      simp only [Nat.toDigitsCore, h0, if_true, parseUintLoop, hd]
      have hb' : acc * 10 + n % 10 < 2 ^ 64 := by omega
      rw [if_pos hb']
      congr 1
      omega
    · obtain ⟨k, hk⟩ := ih (n / 10) (Nat.digitChar (n % 10) :: ds) acc (by omega)
      refine ⟨k + 1, fun hb => ?_⟩
      have e1 : (acc * 10 ^ k + n / 10) * 10 + n % 10 = acc * 10 ^ (k + 1) + n := by
        rw [pow_succ]; have := Nat.div_add_mod n 10; nlinarith
      have hb1 : acc * 10 ^ k + n / 10 < 2 ^ 64 := by omega
      simp only [Nat.toDigitsCore, h0, if_false]
      rw [hk hb1]
      simp only [parseUintLoop, hd]
      rw [e1, if_pos hb]

theorem Sprint_data (n : Nat) : (Sprint n).data = Nat.toDigits 10 n := rfl

theorem toDigits_ne_nil (n : Nat) : Nat.toDigits 10 n ≠ [] := by
  intro h
  have hl := congrArg List.length h
  simp only [Nat.toDigits, Nat.toDigitsCore, List.length_nil] at hl
  split at hl
  · simp at hl
  · rw [Nat.toDigitsCore_lens_eq] at hl
    omega

theorem ParseUint_Sprint (n : Nat) (h : n < 2 ^ 64) : ParseUint (Sprint n) = .ok n := by
  obtain ⟨k, hk⟩ := parseUintLoop_toDigitsCore (n + 1) n [] 0 (Nat.lt_succ_self n)
  have h0 : 0 * 10 ^ k + n = n := by simp
  rw [h0] at hk
  simp only [ParseUint, Sprint_data, toDigits_ne_nil, if_false]
  simp only [Nat.toDigits, hk h, parseUintLoop]

/-! ## Properties of returned values -/

theorem Prog.ensures_pure {α : Type} {P : α → Prop} (a : α) (h : P a) :
    Prog.Ensures (Pure.pure a : Prog α) P :=
  ⟨fun _ res hres => by
    simp only [Prog.pure_apply, Except.ok.injEq] at hres
    exact hres ▸ h⟩

theorem Prog.ensures_bind {α β : Type} {P : β → Prop} (m : Prog α) {f : α → Prog β}
    (hf : ∀ a, Prog.Ensures (f a) P) : Prog.Ensures (m >>= f) P := by
  constructor
  intro tr res hres
  rw [Prog.bind_apply] at hres
  rcases hmt : m tr with ⟨r, tr1⟩
  rw [hmt] at hres
  cases r with
  | error e => simp at hres
  | ok a => exact (hf a).out tr1 res hres

/-! ## Branch skipping -/

/-- C7: for askGrafana, askAlertmanager and askPushgateway and every prior spec, when the
operator answers the enable toggle with false the builder performs no further interaction
(the trace grows by that one confirm prompt: no other prompt, no secret listing) and returns
the sub-spec with Enabled false and every other field at its zero value. -/
theorem C7_disabled_toggle_skips_subtree (op : Operator) (banzaiCLI : Cli) (tr : List Event)
    (dg : grafanaSpec) (da : alertmanagerSpec) (dp : pushgatewaySpec) :
    (op.confirm tr { Message := "Do you want to enable Grafana?",
                     DefaultValue := dg.Enabled } = .ok false →
      askGrafana op banzaiCLI dg tr
        = (.ok { Enabled := false, SecretId := "",
                 Ingress := { Enabled := false, Domain := "", Path := "" },
                 Dashboards := false },
           tr ++ [Event.confirm { Message := "Do you want to enable Grafana?",
                                  DefaultValue := dg.Enabled }]))
    ∧ (op.confirm tr { Message := "Do you want to enable Alertmanager?",
                       DefaultValue := da.Enabled } = .ok false →
      askAlertmanager op banzaiCLI da tr
        = (.ok { Enabled := false, Provider := [],
                 Ingress := { baseIngressSpec := { Enabled := false, Domain := "", Path := "" },
                              SecretId := "" } },
           tr ++ [Event.confirm { Message := "Do you want to enable Alertmanager?",
                                  DefaultValue := da.Enabled }]))
    ∧ (op.confirm tr { Message := "Do you want to enable Pushgateway?",
                       DefaultValue := dp.Enabled } = .ok false →
      askPushgateway op banzaiCLI dp tr
        = (.ok { Enabled := false,
                 Ingress := { baseIngressSpec := { Enabled := false, Domain := "", Path := "" },
                              SecretId := "" } },
           tr ++ [Event.confirm { Message := "Do you want to enable Pushgateway?",
                                  DefaultValue := dp.Enabled }])) := by
  refine ⟨fun h => ?_, fun h => ?_, fun h => ?_⟩
  · simp [askGrafana, Prog.bind_apply, Prog.wrapIf, askConfirm, h, Prog.pure_apply,
      baseIngressSpec.zero]
  · simp [askAlertmanager, Prog.bind_apply, Prog.wrapIf, askConfirm, h, Prog.pure_apply,
      ingressSpecWithSecret.zero, baseIngressSpec.zero]
  · simp [askPushgateway, Prog.bind_apply, Prog.wrapIf, askConfirm, h, Prog.pure_apply,
      ingressSpecWithSecret.zero, baseIngressSpec.zero]

/-- C7 at a concrete input: fully populated prior specs, an operator who answers no. -/
theorem C7_disabled_toggle_skips_subtree_witness :
    askGrafana refusing (cliWith [⟨"g1", "admin"⟩])
        { Enabled := true, SecretId := "g1",
          Ingress := { Enabled := true, Domain := "example.com", Path := "/grafana" },
          Dashboards := true } []
      = (.ok { Enabled := false, SecretId := "",
               Ingress := { Enabled := false, Domain := "", Path := "" },
               Dashboards := false },
         [] ++ [Event.confirm { Message := "Do you want to enable Grafana?",
                                DefaultValue := true }]) :=
  (C7_disabled_toggle_skips_subtree refusing (cliWith [⟨"g1", "admin"⟩]) []
    { Enabled := true, SecretId := "g1",
      Ingress := { Enabled := true, Domain := "example.com", Path := "/grafana" },
      Dashboards := true }
    alertmanagerSpec.zero pushgatewaySpec.zero).1 rfl

/-! ## The enable toggles -/

theorem Prog.ensures_wrapIf {α : Type} {P : α → Prop} {m : Prog α} (msg : String)
    (hm : Prog.Ensures m P) : Prog.Ensures (m.wrapIf msg) P := by
  constructor
  intro tr res hres
  simp only [Prog.wrapIf] at hres
  rcases hmt : m tr with ⟨r, tr1⟩
  rw [hmt] at hres
  cases r with
  | error e => simp at hres
  | ok a =>
    simp only [Except.ok.injEq] at hres
    subst hres
    exact hm.out tr a (by rw [hmt])

/-- The first interaction of `m >>= f` is the first interaction of `m`. -/
theorem first_event_bind {α β : Type} {m : Prog α} {f : α → Prog β} {e : Event}
    {tr : List Event} (hm : ∃ rest, (m tr).2 = tr ++ e :: rest)
    (hf : ∀ a, Prog.Extends (f a)) :
    ∃ rest, ((m >>= f) tr).2 = tr ++ e :: rest := by
  obtain ⟨r1, h1⟩ := hm
  rw [Prog.bind_apply]
  rcases hmt : m tr with ⟨res, tr1⟩
  rw [hmt] at h1
  simp only at h1
  subst h1
  cases res with
  | error e => exact ⟨r1, rfl⟩
  | ok a =>
    obtain ⟨r2, h2⟩ := (hf a).out (tr ++ e :: r1)
    exact ⟨r1 ++ r2, by simp [h2]⟩

/-- Wrapping the error does not change the interactions. -/
theorem first_event_wrapIf {α : Type} {m : Prog α} {e : Event} {tr : List Event}
    (msg : String) (hm : ∃ rest, (m tr).2 = tr ++ e :: rest) :
    ∃ rest, ((m.wrapIf msg) tr).2 = tr ++ e :: rest := by
  obtain ⟨r1, h1⟩ := hm
  simp only [Prog.wrapIf]
  rcases hmt : m tr with ⟨res, tr1⟩
  rw [hmt] at h1
  cases res <;> exact ⟨r1, h1⟩

/-- A confirm prompt followed by a continuation that returns the answer in a field: any
returned value carries the operator's answer. -/
theorem confirm_answer {α : Type} (op : Operator) (q : QuestionConfirm) (msg : String)
    (f : Bool → Prog α) (flag : α → Bool) (hf : ∀ b, Prog.Ensures (f b) (fun r => flag r = b))
    (tr : List Event) (res : α)
    (h : (((askConfirm op q).wrapIf msg >>= f) tr).1 = .ok res) :
    op.confirm tr q = .ok (flag res) := by
  rw [Prog.bind_apply] at h
  simp only [Prog.wrapIf, askConfirm] at h
  cases hc : op.confirm tr q with
  | error e => rw [hc] at h; simp at h
  | ok b =>
    rw [hc] at h
    have := (hf b).out _ res h
    rw [this]

theorem askGrafana_first (op : Operator) (banzaiCLI : Cli) (d : grafanaSpec)
    (tr : List Event) :
    ∃ rest, (askGrafana op banzaiCLI d tr).2
      = tr ++ Event.confirm { Message := "Do you want to enable Grafana?",
                              DefaultValue := d.Enabled } :: rest := by
  unfold askGrafana
  refine first_event_bind (first_event_wrapIf _ ⟨[], rfl⟩) (fun b => ?_)
  repeat (first
    | apply Prog.extends_askConfirm
    | apply askSecret_extends
    | apply askIngress_extends
    | apply Prog.extends_bind
    | apply Prog.extends_wrapIf
    | apply Prog.extends_pure
    | intro _
    | split)

theorem askGrafana_answer (op : Operator) (banzaiCLI : Cli) (d : grafanaSpec)
    (tr : List Event) (res : grafanaSpec) (h : (askGrafana op banzaiCLI d tr).1 = .ok res) :
    op.confirm tr { Message := "Do you want to enable Grafana?",
                    DefaultValue := d.Enabled } = .ok res.Enabled := by
  unfold askGrafana at h
  refine confirm_answer op _ _ _ (fun r => r.Enabled) (fun b => ?_) tr res h
  split
  · repeat (first | apply Prog.ensures_pure | apply Prog.ensures_bind | intro _)
    rfl
  · exact Prog.ensures_pure _ rfl

theorem askAlertmanager_first (op : Operator) (banzaiCLI : Cli) (d : alertmanagerSpec)
    (tr : List Event) :
    ∃ rest, (askAlertmanager op banzaiCLI d tr).2
      = tr ++ Event.confirm { Message := "Do you want to enable Alertmanager?",
                              DefaultValue := d.Enabled } :: rest := by
  unfold askAlertmanager
  refine first_event_bind (first_event_wrapIf _ ⟨[], rfl⟩) (fun b => ?_)
  repeat (first
    | apply Prog.extends_askSelect
    | apply askProviderOptions_extends
    | apply askSecret_extends
    | apply askIngress_extends
    | apply Prog.extends_bind
    | apply Prog.extends_wrapIf
    | apply Prog.extends_pure
    | intro _
    | split)

theorem askAlertmanager_answer (op : Operator) (banzaiCLI : Cli) (d : alertmanagerSpec)
    (tr : List Event) (res : alertmanagerSpec)
    (h : (askAlertmanager op banzaiCLI d tr).1 = .ok res) :
    op.confirm tr { Message := "Do you want to enable Alertmanager?",
                    DefaultValue := d.Enabled } = .ok res.Enabled := by
  unfold askAlertmanager at h
  refine confirm_answer op _ _ _ (fun r => r.Enabled) (fun b => ?_) tr res h
  split
  · refine Prog.ensures_bind _ (fun _ => Prog.ensures_bind _ (fun _ =>
      Prog.ensures_bind _ (fun _ => ?_)))
    split
    · exact Prog.ensures_bind _ (fun _ => Prog.ensures_pure _ rfl)
    · exact Prog.ensures_pure _ rfl
  · exact Prog.ensures_pure _ rfl

theorem askPushgateway_first (op : Operator) (banzaiCLI : Cli) (d : pushgatewaySpec)
    (tr : List Event) :
    ∃ rest, (askPushgateway op banzaiCLI d tr).2
      = tr ++ Event.confirm { Message := "Do you want to enable Pushgateway?",
                              DefaultValue := d.Enabled } :: rest := by
  unfold askPushgateway
  refine first_event_bind (first_event_wrapIf _ ⟨[], rfl⟩) (fun b => ?_)
  repeat (first
    | apply askSecret_extends
    | apply askIngress_extends
    | apply Prog.extends_bind
    | apply Prog.extends_wrapIf
    | apply Prog.extends_pure
    | intro _
    | split)

theorem askPushgateway_answer (op : Operator) (banzaiCLI : Cli) (d : pushgatewaySpec)
    (tr : List Event) (res : pushgatewaySpec)
    (h : (askPushgateway op banzaiCLI d tr).1 = .ok res) :
    op.confirm tr { Message := "Do you want to enable Pushgateway?",
                    DefaultValue := d.Enabled } = .ok res.Enabled := by
  unfold askPushgateway at h
  refine confirm_answer op _ _ _ (fun r => r.Enabled) (fun b => ?_) tr res h
  split
  · refine Prog.ensures_bind _ (fun _ => ?_)
    split
    · exact Prog.ensures_bind _ (fun _ => Prog.ensures_pure _ rfl)
    · exact Prog.ensures_pure _ rfl
  · exact Prog.ensures_pure _ rfl

theorem askPrometheus_first (op : Operator) (banzaiCLI : Cli) (d : prometheusSpec)
    (tr : List Event) :
    ∃ rest, (askPrometheus op banzaiCLI d tr).2
      = tr ++ Event.input { Message := "Please provide storage class name for Prometheus:",
                            Help := "Leave empty to use default storage class",
                            DefaultValue := d.Storage.Class } :: rest := by
  unfold askPrometheus
  refine first_event_bind (first_event_wrapIf _
    (first_event_bind ⟨[], rfl⟩ (fun c => ?_))) (fun b => ?_)
  · repeat (first
      | apply Prog.extends_askInput
      | apply Prog.extends_bind
      | apply Prog.extends_pure
      | intro _)
  · repeat (first
      | apply Prog.extends_lift
      | apply askSecret_extends
      | apply askIngress_extends
      | apply Prog.extends_bind
      | apply Prog.extends_wrapIf
      | apply Prog.extends_pure
      | intro _
      | split)

theorem askPrometheus_enabled (op : Operator) (banzaiCLI : Cli) (d : prometheusSpec) :
    Prog.Ensures (askPrometheus op banzaiCLI d) (fun r => r.Enabled = true) := by
  unfold askPrometheus
  refine Prog.ensures_bind _ (fun _ => Prog.ensures_bind _ (fun _ =>
    Prog.ensures_bind _ (fun _ => ?_)))
  split
  · exact Prog.ensures_bind _ (fun _ => Prog.ensures_pure _ rfl)
  · exact Prog.ensures_pure _ rfl

/-- C8 as stated fails for askPrometheus: run on the zero prior spec (Enabled false) with
every prompt answered by its default, it never asks an enable confirm (its first prompt is
the storage-class text prompt, its only confirm is the ingress one) and returns Enabled
true. -/
theorem C8_askPrometheus_asks_no_enable_confirm :
    askPrometheus keepDefault (cliWith []) prometheusSpec.zero []
      = (.ok { Enabled := true, Storage := { Class := "", Size := 0, Retention := "" },
               Ingress := { baseIngressSpec := { Enabled := false, Domain := "", Path := "" },
                            SecretId := "" } },
         [Event.input { Message := "Please provide storage class name for Prometheus:",
                        Help := "Leave empty to use default storage class",
                        DefaultValue := "" },
          Event.input { Message := "Please provide storage size for Prometheus:",
                        Help := "", DefaultValue := "0" },
          Event.input { Message := "Please provide retention for Prometheus:",
                        Help := "", DefaultValue := "" },
          Event.confirm { Message := "Do you want to enable Prometheus Ingress?",
                          DefaultValue := false }])
    ∧ ¬ ∃ q rest, (askPrometheus keepDefault (cliWith []) prometheusSpec.zero []).2
          = Event.confirm q :: rest := by
  have h : askPrometheus keepDefault (cliWith []) prometheusSpec.zero []
      = (.ok { Enabled := true, Storage := { Class := "", Size := 0, Retention := "" },
               Ingress := { baseIngressSpec := { Enabled := false, Domain := "", Path := "" },
                            SecretId := "" } },
         [Event.input { Message := "Please provide storage class name for Prometheus:",
                        Help := "Leave empty to use default storage class",
                        DefaultValue := "" },
          Event.input { Message := "Please provide storage size for Prometheus:",
                        Help := "", DefaultValue := "0" },
          Event.input { Message := "Please provide retention for Prometheus:",
                        Help := "", DefaultValue := "" },
          Event.confirm { Message := "Do you want to enable Prometheus Ingress?",
                          DefaultValue := false }]) := by decide
  refine ⟨h, ?_⟩
  rw [h]
  rintro ⟨q, rest, hq⟩
  simp at hq

/-- C8 (amended): for askGrafana, askAlertmanager and askPushgateway and every prior spec,
the first prompt is the enable confirm whose default is the prior Enabled flag, and the
Enabled flag of any returned sub-spec is the operator's answer to it. askPrometheus asks no
enable confirm: its first prompt is the storage-class text prompt and any sub-spec it
returns has Enabled true, whatever the prior flag. -/
theorem C8_enable_confirm_first (op : Operator) (banzaiCLI : Cli) (tr : List Event)
    (dg : grafanaSpec) (da : alertmanagerSpec) (dp : pushgatewaySpec)
    (dpr : prometheusSpec) :
    ((∃ rest, (askGrafana op banzaiCLI dg tr).2
        = tr ++ Event.confirm { Message := "Do you want to enable Grafana?",
                                DefaultValue := dg.Enabled } :: rest)
      ∧ ∀ res, (askGrafana op banzaiCLI dg tr).1 = .ok res →
          op.confirm tr { Message := "Do you want to enable Grafana?",
                          DefaultValue := dg.Enabled } = .ok res.Enabled)
    ∧ ((∃ rest, (askAlertmanager op banzaiCLI da tr).2
        = tr ++ Event.confirm { Message := "Do you want to enable Alertmanager?",
                                DefaultValue := da.Enabled } :: rest)
      ∧ ∀ res, (askAlertmanager op banzaiCLI da tr).1 = .ok res →
          op.confirm tr { Message := "Do you want to enable Alertmanager?",
                          DefaultValue := da.Enabled } = .ok res.Enabled)
    ∧ ((∃ rest, (askPushgateway op banzaiCLI dp tr).2
        = tr ++ Event.confirm { Message := "Do you want to enable Pushgateway?",
                                DefaultValue := dp.Enabled } :: rest)
      ∧ ∀ res, (askPushgateway op banzaiCLI dp tr).1 = .ok res →
          op.confirm tr { Message := "Do you want to enable Pushgateway?",
                          DefaultValue := dp.Enabled } = .ok res.Enabled)
    ∧ ((∃ rest, (askPrometheus op banzaiCLI dpr tr).2
        = tr ++ Event.input { Message := "Please provide storage class name for Prometheus:",
                              Help := "Leave empty to use default storage class",
                              DefaultValue := dpr.Storage.Class } :: rest)
      ∧ ∀ res, (askPrometheus op banzaiCLI dpr tr).1 = .ok res → res.Enabled = true) :=
  ⟨⟨askGrafana_first op banzaiCLI dg tr, askGrafana_answer op banzaiCLI dg tr⟩,
   ⟨askAlertmanager_first op banzaiCLI da tr, askAlertmanager_answer op banzaiCLI da tr⟩,
   ⟨askPushgateway_first op banzaiCLI dp tr, askPushgateway_answer op banzaiCLI dp tr⟩,
   ⟨askPrometheus_first op banzaiCLI dpr tr,
    fun res h => (askPrometheus_enabled op banzaiCLI dpr).out tr res h⟩⟩

/-- C8 (amended) at a concrete input: a pushgateway spec enabled without ingress, every
prompt answered by its default; the answer to the enable confirm is the returned flag. -/
theorem C8_enable_confirm_first_witness :
    keepDefault.confirm [] { Message := "Do you want to enable Pushgateway?",
                             DefaultValue := true }
      = .ok (pushgatewaySpec.mk true ingressSpecWithSecret.zero).Enabled :=
  (C8_enable_confirm_first keepDefault (cliWith []) [] grafanaSpec.zero alertmanagerSpec.zero
    { Enabled := true, Ingress := ingressSpecWithSecret.zero } prometheusSpec.zero).2.2.1.2
    { Enabled := true, Ingress := ingressSpecWithSecret.zero } rfl

/-! ## The default notification provider -/

/-- What the code computes as default provider: PagerDuty when the pagerDuty entry is present,
decodes and is enabled; `skip` when that entry is present otherwise; and only when the
pagerDuty key is absent, Slack when the slack entry is present, decodes and is enabled. -/
theorem defaultNotificationProviderValue_cases (Provider : GoMap PValue) :
    (∀ pdProp, GoMap.get? Provider alertmanagerProviderPagerDuty = some pdProp →
      defaultNotificationProviderValue Provider
        = if (decodePagerDuty (some pdProp)).toOption.map (fun pd => pd.Enabled) = some true
          then alertmanagerNotificationNamePagerDuty else skip)
    ∧ (GoMap.get? Provider alertmanagerProviderPagerDuty = none →
      ∀ slackProp, GoMap.get? Provider alertmanagerProviderSlack = some slackProp →
        defaultNotificationProviderValue Provider
          = if (decodeSlack (some slackProp)).toOption.map (fun s => s.Enabled) = some true
            then alertmanagerNotificationNameSlack else skip)
    ∧ (GoMap.get? Provider alertmanagerProviderPagerDuty = none →
      GoMap.get? Provider alertmanagerProviderSlack = none →
        defaultNotificationProviderValue Provider = skip) := by
  refine ⟨fun pdProp h => ?_, fun h slackProp hs => ?_, fun h hs => ?_⟩
  · unfold defaultNotificationProviderValue
    rw [h]
    cases hd : decodePagerDuty (some pdProp) with
    | error e => simp [Except.toOption, hd]
    | ok pd => cases hen : pd.Enabled <;> simp [Except.toOption, hen, hd]
  · unfold defaultNotificationProviderValue
    rw [h]
    simp only [hs]
    cases hd : decodeSlack (some slackProp) with
    | error e => simp [Except.toOption, hd]
    | ok sl => cases hen : sl.Enabled <;> simp [Except.toOption, hen, hd]
  · unfold defaultNotificationProviderValue
    rw [h]
    simp only [hs]

/-- C9 at the failing input: a stored Alertmanager spec in which slack is enabled and the
pagerDuty entry is present but disabled (the shape askAlertmanager itself stores). With every
prompt answered by its default, the provider select offers the default `skip`, not `Slack`,
and the returned provider map has slack disabled. -/
theorem C9_default_provider_ignores_slack :
    defaultNotificationProviderValue
        [("slack", PValue.raw (Raw.obj [("enabled", Raw.bool true)])),
         ("pagerDuty", PValue.raw (Raw.obj [("enabled", Raw.bool false)]))] = "skip"
    ∧ askAlertmanager keepDefault (cliWith [])
        { Enabled := true,
          Provider := [("slack", PValue.raw (Raw.obj [("enabled", Raw.bool true)])),
                       ("pagerDuty", PValue.raw (Raw.obj [("enabled", Raw.bool false)]))],
          Ingress := ingressSpecWithSecret.zero } []
      = (.ok { Enabled := true,
               Provider := [("slack", PValue.slackSpec slackSpec.zero),
                            ("pagerDuty", PValue.pagerDutySpec pagerDutySpec.zero)],
               Ingress := ingressSpecWithSecret.zero },
         [Event.confirm { Message := "Do you want to enable Alertmanager?",
                          DefaultValue := true },
          Event.select { Message := "Select notification provider",
                         DefaultValue := "skip",
                         Options := ["skip", "Slack", "PagerDuty"] },
          Event.confirm { Message := "Do you want to enable Alertmanager Ingress?",
                          DefaultValue := false }]) :=
  ⟨rfl, rfl⟩

/-! ## The storage size of Prometheus -/

theorem foldl_digits_ge (cs : List Char) :
    ∀ acc : Nat, acc ≤ cs.foldl (fun acc c => acc * 10 + (c.toNat - 48)) acc := by
  induction cs with
  | nil => intro acc; simp
  | cons c cs ih =>
    intro acc
    simp only [List.foldl_cons]
    exact le_trans (by omega) (ih _)

theorem parseUintLoop_ok_iff (cs : List Char) :
    ∀ (acc n : Nat), parseUintLoop cs acc = .ok n ↔
      (∀ c ∈ cs, 48 ≤ c.toNat ∧ c.toNat ≤ 57)
      ∧ cs.foldl (fun acc c => acc * 10 + (c.toNat - 48)) acc = n
      ∧ (cs = [] ∨ n < 2 ^ 64) := by
  induction cs with
  | nil => intro acc n; simp [parseUintLoop]
  | cons c cs ih =>
    intro acc n
    by_cases hd : 48 ≤ c.toNat ∧ c.toNat ≤ 57
    · have hv : digitValue c = some (c.toNat - 48) := by simp [digitValue, hd]
      simp only [parseUintLoop, hv, List.foldl_cons, List.mem_cons, forall_eq_or_imp]
      by_cases hb : acc * 10 + (c.toNat - 48) < 2 ^ 64
      · rw [if_pos hb, ih]
        constructor
        · rintro ⟨h1, h2, h3⟩
          refine ⟨⟨hd, h1⟩, h2, Or.inr ?_⟩
          rcases h3 with h3 | h3
          · subst h3
            simp only [List.foldl_nil] at h2
            omega
          · exact h3
        · rintro ⟨⟨_, h1⟩, h2, h3⟩
          refine ⟨h1, h2, Or.inr ?_⟩
          rcases h3 with h3 | h3
          · simp at h3
          · exact h3
      · rw [if_neg hb]
        constructor
        · intro h; simp at h
        · rintro ⟨_, h2, h3⟩
          exfalso
          rcases h3 with h3 | h3
          · simp at h3
          · have := foldl_digits_ge cs (acc * 10 + (c.toNat - 48))
            omega
    · have hv : digitValue c = none := by simp [digitValue, hd]
      simp only [parseUintLoop, hv, List.mem_cons, forall_eq_or_imp]
      constructor
      · intro h; simp at h
      · rintro ⟨⟨h, _⟩, _⟩
        exact absurd h hd

/-- The call `strconv.ParseUint(s, 10, 64)` succeeds exactly on the base-10 texts of
unsigned 64-bit integers, with the number the text denotes. -/
theorem ParseUint_ok_iff (s : String) (n : Nat) :
    ParseUint s = .ok n ↔ IsUint64Text s ∧ decimalValue s.data = n := by
  by_cases he : s.data = []
  · simp [ParseUint, he, IsUint64Text]
  · simp only [ParseUint, he, if_false, parseUintLoop_ok_iff, IsUint64Text, decimalValue,
      false_or, ne_eq, not_false_eq_true, true_and]
    constructor
    · rintro ⟨h1, h2, h3⟩
      exact ⟨⟨h1, h2 ▸ h3⟩, h2⟩
    · rintro ⟨⟨h1, h3⟩, h2⟩
      exact ⟨h1, h2, h2 ▸ h3⟩

theorem ParseUint_error_of_not_text (s : String) (h : ¬ IsUint64Text s) :
    ∃ e, ParseUint s = .error e := by
  cases hp : ParseUint s with
  | error e => exact ⟨e, rfl⟩
  | ok n => exact absurd ((ParseUint_ok_iff s n).mp hp).1 h

/-- What `askPrometheus` does once its three storage prompts are answered and the size
parses: the rest of the run is the ingress subtree, and the size is the parsed number. -/
theorem askPrometheus_after_storage (op : Operator) (banzaiCLI : Cli) (d : prometheusSpec)
    (tr : List Event) (c s r : String) (n : Nat)
    (hc : op.input tr (storageClassQuestion d) = .ok c)
    (hs : op.input (tr ++ [Event.input (storageClassQuestion d)]) (storageSizeQuestion d)
            = .ok s)
    (hr : op.input (tr ++ [Event.input (storageClassQuestion d),
                           Event.input (storageSizeQuestion d)]) (retentionQuestion d)
            = .ok r)
    (hp : ParseUint s = .ok n) :
    askPrometheus op banzaiCLI d tr
      = askPrometheusIngress op banzaiCLI d c n r
          (tr ++ [Event.input (storageClassQuestion d), Event.input (storageSizeQuestion d),
                  Event.input (retentionQuestion d)]) := by
  simp only [storageClassQuestion, storageSizeQuestion, retentionQuestion] at hc hs hr ⊢
  unfold askPrometheus askPrometheusIngress
  simp [Prog.bind_apply, Prog.wrapIf, askInput, hc, hs, hr, Prog.pure_apply, Prog.lift, hp]

theorem askPrometheusIngress_size (op : Operator) (banzaiCLI : Cli) (d : prometheusSpec)
    (c : String) (n : Nat) (r : String) :
    Prog.Ensures (askPrometheusIngress op banzaiCLI d c n r)
      (fun res => res.Storage.Size = n) := by
  unfold askPrometheusIngress
  refine Prog.ensures_bind _ (fun _ => ?_)
  split
  · exact Prog.ensures_bind _ (fun _ => Prog.ensures_pure _ rfl)
  · exact Prog.ensures_pure _ rfl

/-- `askIngress` when the enable confirm is answered no: nothing else is asked. -/
theorem askIngress_no (op : Operator) (compType : String) (d : baseIngressSpec)
    (tr : List Event)
    (h : op.confirm tr (ingressEnableQuestion compType d) = .ok false) :
    askIngress op compType d tr
      = (.ok { Enabled := false, Domain := "", Path := "" },
         tr ++ [Event.confirm (ingressEnableQuestion compType d)]) := by
  simp only [ingressEnableQuestion] at h ⊢
  unfold askIngress
  simp only [Prog.bind_apply, Prog.wrapIf, askConfirm, h, Prog.pure_apply]
  simp [Prog.pure_apply]

/-- `askIngress` when the enable confirm is answered yes: domain, then path. -/
theorem askIngress_yes (op : Operator) (compType : String) (d : baseIngressSpec)
    (tr : List Event) (domain path : String)
    (h : op.confirm tr (ingressEnableQuestion compType d) = .ok true)
    (hd : op.input (tr ++ [Event.confirm (ingressEnableQuestion compType d)])
            (ingressDomainQuestion compType d) = .ok domain)
    (hp : op.input (tr ++ [Event.confirm (ingressEnableQuestion compType d),
                           Event.input (ingressDomainQuestion compType d)])
            (ingressPathQuestion compType d) = .ok path) :
    askIngress op compType d tr
      = (.ok { Enabled := true, Domain := domain, Path := path },
         tr ++ [Event.confirm (ingressEnableQuestion compType d),
                Event.input (ingressDomainQuestion compType d),
                Event.input (ingressPathQuestion compType d)]) := by
  simp only [ingressEnableQuestion, ingressDomainQuestion, ingressPathQuestion] at h hd hp ⊢
  unfold askIngress
  simp only [Prog.bind_apply, Prog.wrapIf, askConfirm, askInput, h, Prog.pure_apply,
    List.append_assoc, List.singleton_append, hd, hp, if_true]
  simp [Prog.pure_apply, hd, hp]

/-- C10: for every prior Prometheus spec and every run of askPrometheus in which the three
storage prompts succeed with answers `c`, `s`, `r`: if the size answer `s` is not the base-10
text of an unsigned integer that fits in 64 bits, askPrometheus returns an error and has
performed exactly the three storage prompts (no ingress prompt, no secret listing);
otherwise every sub-spec it returns has Storage.Size equal to the number `s` denotes, and it
does return one (with that size) when the ingress confirm that follows is answered no; and
the default the size prompt offers is the prior size printed, which for a prior size below
2^64 is such a text and denotes the prior size, so that accepting the default keeps it. -/
theorem C10_askPrometheus_storage_size (op : Operator) (banzaiCLI : Cli)
    (d : prometheusSpec) (tr : List Event) (c s r : String)
    (hc : op.input tr (storageClassQuestion d) = .ok c)
    (hs : op.input (tr ++ [Event.input (storageClassQuestion d)]) (storageSizeQuestion d)
            = .ok s)
    (hr : op.input (tr ++ [Event.input (storageClassQuestion d),
                           Event.input (storageSizeQuestion d)]) (retentionQuestion d)
            = .ok r) :
    (¬ IsUint64Text s →
      ∃ e, askPrometheus op banzaiCLI d tr
        = (.error e, tr ++ [Event.input (storageClassQuestion d),
                            Event.input (storageSizeQuestion d),
                            Event.input (retentionQuestion d)]))
    ∧ (IsUint64Text s →
        (∀ res, (askPrometheus op banzaiCLI d tr).1 = .ok res →
          res.Storage.Size = decimalValue s.data)
        ∧ (op.confirm (tr ++ [Event.input (storageClassQuestion d),
                              Event.input (storageSizeQuestion d),
                              Event.input (retentionQuestion d)])
              (ingressEnableQuestion "Prometheus" d.Ingress.baseIngressSpec) = .ok false →
            askPrometheus op banzaiCLI d tr
              = (.ok { Enabled := true,
                       Storage := { Class := c, Size := decimalValue s.data,
                                    Retention := r },
                       Ingress := { baseIngressSpec :=
                                      { Enabled := false, Domain := "", Path := "" },
                                    SecretId := "" } },
                 tr ++ [Event.input (storageClassQuestion d),
                        Event.input (storageSizeQuestion d),
                        Event.input (retentionQuestion d),
                        Event.confirm
                          (ingressEnableQuestion "Prometheus" d.Ingress.baseIngressSpec)])))
    ∧ ((storageSizeQuestion d).DefaultValue = Sprint d.Storage.Size
        ∧ (d.Storage.Size < 2 ^ 64 →
            IsUint64Text (Sprint d.Storage.Size)
            ∧ decimalValue (Sprint d.Storage.Size).data = d.Storage.Size)) := by
  refine ⟨fun hbad => ?_, fun hgood => ?_, rfl, fun hlt => ?_⟩
  · obtain ⟨e, he⟩ := ParseUint_error_of_not_text s hbad
    refine ⟨"failed to parse storage size: " ++ e, ?_⟩
    simp only [storageClassQuestion, storageSizeQuestion, retentionQuestion] at hc hs hr ⊢
    unfold askPrometheus
    simp [Prog.bind_apply, Prog.wrapIf, askInput, hc, hs, hr, Prog.pure_apply, Prog.lift, he]
  · have hp : ParseUint s = .ok (decimalValue s.data) :=
      (ParseUint_ok_iff s _).mpr ⟨hgood, rfl⟩
    have key := askPrometheus_after_storage op banzaiCLI d tr c s r _ hc hs hr hp
    refine ⟨fun res hres => ?_, fun hno => ?_⟩
    · rw [key] at hres
      exact (askPrometheusIngress_size op banzaiCLI d c _ r).out _ res hres
    · rw [key]
      simp [askPrometheusIngress, Prog.bind_apply, Prog.wrapIf, Prog.pure_apply,
        askIngress_no op "Prometheus" d.Ingress.baseIngressSpec _ hno]
  · have hp := ParseUint_Sprint d.Storage.Size hlt
    exact (ParseUint_ok_iff _ _).mp hp

/-- C10 at concrete inputs: an operator who types `12x` everywhere gets an error after the
three storage prompts; an operator who accepts every default keeps the prior size 100. -/
theorem C10_askPrometheus_storage_size_witness :
    (∃ e, askPrometheus (typing "12x") (cliWith []) prometheusSpec.zero []
        = (.error e, [] ++ [Event.input (storageClassQuestion prometheusSpec.zero),
                            Event.input (storageSizeQuestion prometheusSpec.zero),
                            Event.input (retentionQuestion prometheusSpec.zero)]))
    ∧ (IsUint64Text (Sprint 100) ∧ decimalValue (Sprint 100).data = 100) :=
  ⟨(C10_askPrometheus_storage_size (typing "12x") (cliWith []) prometheusSpec.zero []
      "12x" "12x" "12x" rfl rfl rfl).1 (by decide),
   (C10_askPrometheus_storage_size keepDefault (cliWith [])
      { Enabled := true, Storage := { Class := "", Size := 100, Retention := "10d" },
        Ingress := ingressSpecWithSecret.zero } []
      "" "100" "10d" rfl rfl rfl).2.2.2 (by decide)⟩

/-! ## The update: frame and failure -/

/-- What a successful update leaves in the document: the four entries written over the
document it started from. -/
theorem BuildUpdateRequestInteractively_ok (op : Operator) (banzaiCLI : Cli)
    (request : UpdateIntegratedServiceRequest) (tr : List Event)
    (h : (BuildUpdateRequestInteractively op banzaiCLI request tr).err = .ok ()) :
    ∃ g p a pg,
      (BuildUpdateRequestInteractively op banzaiCLI request tr).request.Spec
        = GoMap.set (GoMap.set (GoMap.set (GoMap.set request.Spec
            "grafana" (Value.grafanaSpec g))
            "prometheus" (Value.prometheusSpec p))
            "alertmanager" (Value.alertmanagerSpec a))
            "pushgateway" (Value.pushgatewaySpec pg) := by
  unfold BuildUpdateRequestInteractively at h ⊢
  split at h
  · simp at h
  · split at h
    · simp at h
    · split at h
      · simp at h
      · split at h
        · simp at h
        · split at h
          · simp at h
          · rename_i _ spec hspec _ g _ hg _ p _ hp _ a _ ha _ pg _ hpg
            refine ⟨g, p, a, pg, ?_⟩
            simp only [hspec, hg, hp, ha, hpg]

/-- C2: for every request document and every successful run of
BuildUpdateRequestInteractively, the value stored under every top-level key other than
grafana, prometheus, alertmanager and pushgateway is the same after the call as before it,
and no key is removed: every key present before is present after. -/
theorem C2_update_preserves_other_keys (op : Operator) (banzaiCLI : Cli)
    (request : UpdateIntegratedServiceRequest) (tr : List Event)
    (h : (BuildUpdateRequestInteractively op banzaiCLI request tr).err = .ok ()) :
    (∀ k, k ≠ "grafana" → k ≠ "prometheus" → k ≠ "alertmanager" → k ≠ "pushgateway" →
      GoMap.get? (BuildUpdateRequestInteractively op banzaiCLI request tr).request.Spec k
        = GoMap.get? request.Spec k)
    ∧ (∀ k, (GoMap.get? request.Spec k).isSome →
      (GoMap.get? (BuildUpdateRequestInteractively op banzaiCLI request tr).request.Spec
        k).isSome) := by
  obtain ⟨g, p, a, pg, hout⟩ := BuildUpdateRequestInteractively_ok op banzaiCLI request tr h
  rw [hout]
  constructor
  · intro k h1 h2 h3 h4
    simp [GoMap.get?_set, Ne.symm h1, Ne.symm h2, Ne.symm h3, Ne.symm h4]
  · intro k hk
    simp only [GoMap.get?_set]
    split_ifs <;> first | rfl | exact hk

/-- C3: whenever BuildUpdateRequestInteractively returns an error (the stored document
fails to decode, or a builder fails at any prompt, secret listing or numeric parse), the
request document is exactly what it was before the call. -/
theorem C3_update_error_leaves_request (op : Operator) (banzaiCLI : Cli)
    (request : UpdateIntegratedServiceRequest) (tr : List Event) (e : String)
    (h : (BuildUpdateRequestInteractively op banzaiCLI request tr).err = .error e) :
    (BuildUpdateRequestInteractively op banzaiCLI request tr).request = request := by
  unfold BuildUpdateRequestInteractively at h ⊢
  split
  · rfl
  · split
    · rfl
    · split
      · rfl
      · split
        · rfl
        · split
          · rfl
          · rename_i _ spec hspec _ g _ hg _ p _ hp _ a _ ha _ pg _ hpg
            simp [hspec, hg, hp, ha, hpg] at h

/-- C2 at a concrete input: a document with an exporters entry and a key the schema does not
know, updated by an operator who accepts every default: the unknown key keeps its value. -/
theorem C2_update_preserves_other_keys_witness :
    GoMap.get? (BuildUpdateRequestInteractively keepDefault (cliWith [])
        { Spec := [("exporters", Value.raw (Raw.obj [("enabled", Raw.bool true)])),
                   ("custom", Value.raw (Raw.str "kept"))] } []).request.Spec "custom"
      = GoMap.get? [("exporters", Value.raw (Raw.obj [("enabled", Raw.bool true)])),
                    ("custom", Value.raw (Raw.str "kept"))] "custom" :=
  (C2_update_preserves_other_keys keepDefault (cliWith [])
    { Spec := [("exporters", Value.raw (Raw.obj [("enabled", Raw.bool true)])),
               ("custom", Value.raw (Raw.str "kept"))] } [] rfl).1 "custom"
    (by decide) (by decide) (by decide) (by decide)

/-- C3 at a concrete input: the Grafana builder succeeds (toggle left at no), then the
Prometheus builder fails on the size text `12x`; the document still holds its old grafana
entry and nothing else. -/
theorem C3_update_error_leaves_request_witness :
    (BuildUpdateRequestInteractively (typing "12x") (cliWith [])
        { Spec := [("grafana", Value.raw (Raw.obj [("enabled", Raw.bool false)]))] }
        []).request
      = { Spec := [("grafana", Value.raw (Raw.obj [("enabled", Raw.bool false)]))] } :=
  C3_update_error_leaves_request (typing "12x") (cliWith [])
    { Spec := [("grafana", Value.raw (Raw.obj [("enabled", Raw.bool false)]))] } []
    "error during getting Prometheus options: failed to parse storage size: invalid syntax"
    rfl

/-! ## The update with every default accepted -/

theorem Prog.returns_pure {α : Type} (a : α) : Prog.Returns (pure a : Prog α) a :=
  ⟨fun tr => ⟨tr, rfl⟩⟩

theorem Prog.returns_bind {α β : Type} {m : Prog α} {f : α → Prog β} {a : α} {b : β}
    (hm : Prog.Returns m a) (hf : Prog.Returns (f a) b) : Prog.Returns (m >>= f) b := by
  constructor
  intro tr
  obtain ⟨tr1, h1⟩ := hm.out tr
  obtain ⟨tr2, h2⟩ := hf.out tr1
  exact ⟨tr2, by rw [Prog.bind_apply, h1]; exact h2⟩

theorem Prog.returns_wrapIf {α : Type} {m : Prog α} {a : α} (msg : String)
    (hm : Prog.Returns m a) : Prog.Returns (m.wrapIf msg) a := by
  constructor
  intro tr
  obtain ⟨tr1, h1⟩ := hm.out tr
  exact ⟨tr1, by simp [Prog.wrapIf, h1]⟩

theorem keepDefault_confirm (q : QuestionConfirm) :
    Prog.Returns (askConfirm keepDefault q) q.DefaultValue :=
  ⟨fun tr => ⟨tr ++ [Event.confirm q], rfl⟩⟩

theorem keepDefault_input (q : QuestionInput) :
    Prog.Returns (askInput keepDefault q) q.DefaultValue :=
  ⟨fun tr => ⟨tr ++ [Event.input q], rfl⟩⟩

theorem keepDefault_select (q : QuestionSelect) :
    Prog.Returns (askSelect keepDefault q) q.DefaultValue :=
  ⟨fun tr => ⟨tr ++ [Event.select q], rfl⟩⟩

/-- The ingress subtree under an operator who accepts the default returns the prior ingress
when that is enabled or empty. -/
theorem askIngress_keepDefault (compType : String) (d : baseIngressSpec)
    (hd : IngressKept d) : Prog.Returns (askIngress keepDefault compType d) d := by
  constructor
  intro tr
  cases hen : d.Enabled with
  | false =>
    rw [askIngress_no keepDefault compType d tr
      (by simp [keepDefault, ingressEnableQuestion, hen])]
    obtain ⟨h1, h2⟩ := hd hen
    refine ⟨_, Prod.ext ?_ rfl⟩
    cases d
    simp_all
  | true =>
    rw [askIngress_yes keepDefault compType d tr d.Domain d.Path
      (by simp [keepDefault, ingressEnableQuestion, hen]) rfl rfl]
    refine ⟨_, Prod.ext ?_ rfl⟩
    cases d
    simp_all

theorem Prog.returns_congr {α : Type} {p : Prog α} {a b : α} (h : a = b)
    (hp : Prog.Returns p a) : Prog.Returns p b := h ▸ hp

theorem Prog.returns_lift {α : Type} {r : Except String α} {a : α} (h : r = .ok a) :
    Prog.Returns (Prog.lift r) a :=
  ⟨fun tr => ⟨tr, by simp [Prog.lift, h]⟩⟩

theorem Prog.returns_ret {α : Type} (a : α) : Prog.Returns (Prog.ret a) a :=
  ⟨fun tr => ⟨tr, rfl⟩⟩

theorem EqualFold_self (k : String) : EqualFold k k = true := by
  simp [EqualFold]

theorem find?_set_other {β : Type} (m : GoMap β) (k k' : String) (v : β)
    (h : EqualFold k k' = false) :
    (GoMap.set m k v).find? (fun kv => EqualFold kv.1 k')
      = m.find? (fun kv => EqualFold kv.1 k') := by
  induction m with
  | nil => simp [GoMap.set, h]
  | cons kv m ih =>
    obtain ⟨k0, v0⟩ := kv
    by_cases h0 : k0 = k
    · subst h0
      simp [GoMap.set, List.find?_cons, h]
    · simp only [GoMap.set, h0, if_false, List.find?_cons, ih]

theorem fieldOf_set_same {β : Type} (m : GoMap β) (k : String) (v : β) :
    fieldOf (GoMap.set m k v) k = some v := by
  simp [fieldOf, GoMap.get?_set]

theorem fieldOf_set_other {β : Type} (m : GoMap β) (k k' : String) (v : β)
    (h : EqualFold k k' = false) :
    fieldOf (GoMap.set m k v) k' = fieldOf m k' := by
  have hne : ¬ k = k' := by
    intro he
    rw [he, EqualFold_self] at h
    exact Bool.noConfusion h
  simp only [fieldOf, GoMap.get?_set, hne, if_false, find?_set_other m k k' v h]

/-- The codec reads each sub-spec from its own entry: a document that decodes gives each of
the five decoders a value. -/
theorem decodeServiceSpec_ok (doc : GoMap Value) (S : serviceSpec)
    (h : decodeServiceSpec doc = .ok S) :
    decodeGrafana (fieldOf doc "grafana") = .ok S.Grafana
    ∧ decodePrometheus (fieldOf doc "prometheus") = .ok S.Prometheus
    ∧ decodeAlertmanager (fieldOf doc "alertmanager") = .ok S.Alertmanager
    ∧ decodePushgateway (fieldOf doc "pushgateway") = .ok S.Pushgateway
    ∧ decodeExporters (fieldOf doc "exporters") = .ok S.Exporters := by
  unfold decodeServiceSpec at h
  cases h1 : decodeGrafana (fieldOf doc "grafana") with
  | error e => simp [h1, bind, Except.bind] at h
  | ok g =>
    cases h2 : decodePrometheus (fieldOf doc "prometheus") with
    | error e => simp [h1, h2, bind, Except.bind] at h
    | ok p =>
      cases h3 : decodeAlertmanager (fieldOf doc "alertmanager") with
      | error e => simp [h1, h2, h3, bind, Except.bind] at h
      | ok a =>
        cases h4 : decodePushgateway (fieldOf doc "pushgateway") with
        | error e => simp [h1, h2, h3, h4, bind, Except.bind] at h
        | ok pg =>
          cases h5 : decodeExporters (fieldOf doc "exporters") with
          | error e => simp [h1, h2, h3, h4, h5, bind, Except.bind] at h
          | ok ex =>
            simp [h1, h2, h3, h4, h5, bind, Except.bind, pure, Except.pure] at h
            subst h
            exact ⟨rfl, rfl, rfl, rfl, rfl⟩

/-- Decoding a document after the four entries were written with typed sub-specs. -/
theorem decodeServiceSpec_after_update (doc : GoMap Value) (g : grafanaSpec)
    (p : prometheusSpec) (a : alertmanagerSpec) (pg : pushgatewaySpec) (ex : exportersSpec)
    (hex : decodeExporters (fieldOf doc "exporters") = .ok ex) :
    decodeServiceSpec
      (GoMap.set (GoMap.set (GoMap.set (GoMap.set doc
        "grafana" (Value.grafanaSpec g))
        "prometheus" (Value.prometheusSpec p))
        "alertmanager" (Value.alertmanagerSpec a))
        "pushgateway" (Value.pushgatewaySpec pg))
      = .ok { Grafana := g, Prometheus := p, Alertmanager := a, Pushgateway := pg,
              Exporters := ex } := by
  have e1 : ∀ m : GoMap Value, fieldOf (GoMap.set (GoMap.set (GoMap.set (GoMap.set m
        "grafana" (Value.grafanaSpec g))
        "prometheus" (Value.prometheusSpec p))
        "alertmanager" (Value.alertmanagerSpec a))
        "pushgateway" (Value.pushgatewaySpec pg)) "grafana" = some (Value.grafanaSpec g) := by
    intro m
    rw [fieldOf_set_other _ _ _ _ (by decide), fieldOf_set_other _ _ _ _ (by decide),
      fieldOf_set_other _ _ _ _ (by decide), fieldOf_set_same]
  have e2 : ∀ m : GoMap Value, fieldOf (GoMap.set (GoMap.set (GoMap.set m
        "prometheus" (Value.prometheusSpec p))
        "alertmanager" (Value.alertmanagerSpec a))
        "pushgateway" (Value.pushgatewaySpec pg)) "prometheus"
          = some (Value.prometheusSpec p) := by
    intro m
    rw [fieldOf_set_other _ _ _ _ (by decide), fieldOf_set_other _ _ _ _ (by decide),
      fieldOf_set_same]
  have e3 : ∀ m : GoMap Value, fieldOf (GoMap.set (GoMap.set m
        "alertmanager" (Value.alertmanagerSpec a))
        "pushgateway" (Value.pushgatewaySpec pg)) "alertmanager"
          = some (Value.alertmanagerSpec a) := by
    intro m
    rw [fieldOf_set_other _ _ _ _ (by decide), fieldOf_set_same]
  have e5 : fieldOf (GoMap.set (GoMap.set (GoMap.set (GoMap.set doc
        "grafana" (Value.grafanaSpec g))
        "prometheus" (Value.prometheusSpec p))
        "alertmanager" (Value.alertmanagerSpec a))
        "pushgateway" (Value.pushgatewaySpec pg)) "exporters" = fieldOf doc "exporters" := by
    rw [fieldOf_set_other _ _ _ _ (by decide), fieldOf_set_other _ _ _ _ (by decide),
      fieldOf_set_other _ _ _ _ (by decide), fieldOf_set_other _ _ _ _ (by decide)]
  unfold decodeServiceSpec
  rw [e1, e2, e3, fieldOf_set_same, e5, hex]
  rfl

/-- C1 as stated fails: the stored document `disabledPrometheusDoc` decodes into
`disabledPrometheusSpec`, in which Prometheus is disabled; the update with every prompt
answered by its default succeeds, and the document it leaves decodes into a specification
in which Prometheus is enabled, hence not into the one it started from. -/
theorem C1_noop_update_enables_prometheus :
    decodeServiceSpec disabledPrometheusDoc = .ok disabledPrometheusSpec
    ∧ (BuildUpdateRequestInteractively keepDefault (cliWith [])
        { Spec := disabledPrometheusDoc } []).err = .ok ()
    ∧ decodeServiceSpec (BuildUpdateRequestInteractively keepDefault (cliWith [])
        { Spec := disabledPrometheusDoc } []).request.Spec
        = .ok { disabledPrometheusSpec with
                Prometheus := { disabledPrometheusSpec.Prometheus with Enabled := true } }
    ∧ decodeServiceSpec (BuildUpdateRequestInteractively keepDefault (cliWith [])
        { Spec := disabledPrometheusDoc } []).request.Spec
        ≠ .ok disabledPrometheusSpec := by
  have h3 : decodeServiceSpec (BuildUpdateRequestInteractively keepDefault (cliWith [])
        { Spec := disabledPrometheusDoc } []).request.Spec
        = .ok { disabledPrometheusSpec with
                Prometheus := { disabledPrometheusSpec.Prometheus with Enabled := true } } :=
    rfl
  refine ⟨rfl, rfl, h3, ?_⟩
  rw [h3]
  intro h
  have h' := congrArg (fun r => r.toOption.map (fun s => s.Prometheus.Enabled)) h
  simp [Except.toOption, disabledPrometheusSpec] at h'

/-! ### What a no-op update changes -/

/-- A disabled sub-component loses its other fields: Grafana stored disabled with a secret
comes back as the zero value. -/
theorem noop_update_zeroes_disabled_grafana :
    askGrafana keepDefault (cliWith [⟨"g1", "grafana-admin"⟩])
        { Enabled := false, SecretId := "g1",
          Ingress := { Enabled := true, Domain := "example.com", Path := "/grafana" },
          Dashboards := true } []
      = (.ok grafanaSpec.zero,
         [Event.confirm { Message := "Do you want to enable Grafana?",
                          DefaultValue := false }]) := by
  decide

/-- A secret the backend does not list is lost: the default falls back to `skip`. -/
theorem noop_update_drops_unlisted_secret :
    (askSecret keepDefault (cliWith [⟨"other", "someone-else"⟩]) passwordSecretType
        "g1" true []).1 = .ok "" := by
  decide

/-- When two credentials share a name, accepting the default can swap the secret: the
default is found by identifier, the answer is mapped back through the name. -/
theorem noop_update_swaps_secret_on_shared_name :
    (askSecret keepDefault (cliWith [⟨"a", "same"⟩, ⟨"b", "same"⟩]) passwordSecretType
        "a" true []).1 = .ok "b" := by
  decide

/-- A disabled ingress loses its domain and path. -/
theorem noop_update_empties_disabled_ingress :
    (askIngress keepDefault "Grafana"
        { Enabled := false, Domain := "example.com", Path := "/grafana" } []).1
      = .ok { Enabled := false, Domain := "", Path := "" } := by
  decide

/-- The provider map is rebuilt from typed entries: an untyped stored entry does not come
back as it was, which is why the round trip compares provider entries by what they decode
to. -/
theorem noop_update_rebuilds_provider_map :
    (askAlertmanager keepDefault (cliWith [])
        { Enabled := true,
          Provider := [("slack", PValue.raw (Raw.obj [("enabled", Raw.bool false)]))],
          Ingress := ingressSpecWithSecret.zero } []).1
      = .ok { Enabled := true, Provider := initialProvider,
              Ingress := ingressSpecWithSecret.zero } :=
  rfl

/-! ## The details table -/

/-- C13: for every details record whose status is not INACTIVE and whose output and spec
both decode, the table has the section Alertmanager, Grafana, Prometheus, Prometheus_storage,
Pushgateway or Exporters exactly when the corresponding sub-component is Enabled in the spec
(Prometheus and Prometheus_storage both go with the Prometheus flag), and it always has the
section Prometheus_operator, whose only entry is the operator version of the output. -/
theorem C13_sections_follow_enabled_flags (details : IntegratedServiceDetails)
    (output : outputResponse) (spec : serviceSpec)
    (hs : details.Status ≠ "INACTIVE")
    (ho : decodeOutputResponse details.Output = .ok output)
    (hd : decodeServiceSpec details.Spec = .ok spec) :
    ((GoMap.get? (WriteDetailsTable details) "Alertmanager").isSome = true
        ↔ spec.Alertmanager.Enabled = true)
    ∧ ((GoMap.get? (WriteDetailsTable details) "Grafana").isSome = true
        ↔ spec.Grafana.Enabled = true)
    ∧ ((GoMap.get? (WriteDetailsTable details) "Prometheus").isSome = true
        ↔ spec.Prometheus.Enabled = true)
    ∧ ((GoMap.get? (WriteDetailsTable details) "Prometheus_storage").isSome = true
        ↔ spec.Prometheus.Enabled = true)
    ∧ ((GoMap.get? (WriteDetailsTable details) "Pushgateway").isSome = true
        ↔ spec.Pushgateway.Enabled = true)
    ∧ ((GoMap.get? (WriteDetailsTable details) "Exporters").isSome = true
        ↔ spec.Exporters.Enabled = true)
    ∧ GoMap.get? (WriteDetailsTable details) "Prometheus_operator"
        = some [("version", Cell.str output.PrometheusOperator.Version)] := by
  unfold WriteDetailsTable
  simp only [hs, if_false, ho, hd]
  cases spec.Alertmanager.Enabled <;> cases spec.Grafana.Enabled <;>
    cases spec.Prometheus.Enabled <;> cases spec.Pushgateway.Enabled <;>
    cases spec.Exporters.Enabled <;>
    simp [GoMap.get?_set, GoMap.get?]


/-- C13 at a concrete input: `sampleDetails` has Grafana, Prometheus and the exporters
enabled, Alertmanager and Pushgateway not. -/
theorem C13_sections_follow_enabled_flags_witness :
    ((GoMap.get? (WriteDetailsTable sampleDetails) "Alertmanager").isSome = true
        ↔ false = true)
    ∧ ((GoMap.get? (WriteDetailsTable sampleDetails) "Grafana").isSome = true ↔ true = true)
    ∧ ((GoMap.get? (WriteDetailsTable sampleDetails) "Prometheus").isSome = true
        ↔ true = true)
    ∧ ((GoMap.get? (WriteDetailsTable sampleDetails) "Prometheus_storage").isSome = true
        ↔ true = true)
    ∧ ((GoMap.get? (WriteDetailsTable sampleDetails) "Pushgateway").isSome = true
        ↔ false = true)
    ∧ ((GoMap.get? (WriteDetailsTable sampleDetails) "Exporters").isSome = true
        ↔ true = true)
    ∧ GoMap.get? (WriteDetailsTable sampleDetails) "Prometheus_operator"
        = some [("version", Cell.str "0.34")] :=
  C13_sections_follow_enabled_flags sampleDetails
    { Alertmanager := { Url := "", SecretID := "", Version := "", ServiceURL := "" }
      Grafana := { Url := "http://grafana", SecretID := "generated-g", Version := "",
                   ServiceURL := "" }
      Prometheus := { Url := "", SecretID := "generated-p", Version := "", ServiceURL := "" }
      PrometheusOperator := { Version := "0.34" }
      Pushgateway := { Url := "", SecretID := "", Version := "", ServiceURL := "" } }
    { Grafana := { Enabled := true, SecretId := "chosen-g", Ingress := baseIngressSpec.zero,
                   Dashboards := false }
      Prometheus := { Enabled := true, Storage := storageSpec.zero,
                      Ingress := { baseIngressSpec := { Enabled := true, Domain := "", Path := "" },
                                   SecretId := "" } }
      Alertmanager := alertmanagerSpec.zero
      Pushgateway := pushgatewaySpec.zero
      Exporters := { Enabled := true, NodeExporter := { Enabled := false },
                     KubeStateMetrics := { Enabled := false } } }
    (by decide) rfl rfl

/-- C12 as stated fails: in `generatedSecretDetails` Prometheus is enabled, the spec chooses
no secret for it and the output carries the backend-generated secret `generated`, yet the
secretID shown in the Prometheus section is empty, because the Prometheus ingress is not
enabled. -/
theorem C12_generated_secret_hidden_without_ingress :
    (decodeServiceSpec generatedSecretDetails.Spec).toOption.map
        (fun s => (s.Prometheus.Enabled, s.Prometheus.Ingress.SecretId))
      = some (true, "")
    ∧ (decodeOutputResponse generatedSecretDetails.Output).toOption.map
        (fun o => o.Prometheus.SecretID) = some "generated"
    ∧ tableCell (WriteDetailsTable generatedSecretDetails) "Prometheus" "secretID"
      = some (Cell.str "") := by
  refine ⟨rfl, rfl, rfl⟩

/-- C12 (amended): for every details record whose status is not INACTIVE and whose output
and spec both decode: when Grafana is enabled, the secretID of its section is the secret
chosen in the spec for Grafana when that is non-empty and the output's SecretID for Grafana
otherwise; when Alertmanager, Prometheus or Pushgateway is enabled, the secretID of its
section is empty if the ingress of that sub-component is not enabled, and otherwise the
secret of that ingress in the spec when non-empty and the output's SecretID for the
sub-component when the spec's is empty. -/
theorem C12_secret_shown (details : IntegratedServiceDetails)
    (output : outputResponse) (spec : serviceSpec)
    (hs : details.Status ≠ "INACTIVE")
    (ho : decodeOutputResponse details.Output = .ok output)
    (hd : decodeServiceSpec details.Spec = .ok spec) :
    (spec.Grafana.Enabled = true →
      tableCell (WriteDetailsTable details) "Grafana" "secretID"
        = some (Cell.str (if spec.Grafana.SecretId = "" then output.Grafana.SecretID
                          else spec.Grafana.SecretId)))
    ∧ (spec.Alertmanager.Enabled = true →
      tableCell (WriteDetailsTable details) "Alertmanager" "secretID"
        = some (Cell.str
            (if spec.Alertmanager.Ingress.baseIngressSpec.Enabled = true then
              (if spec.Alertmanager.Ingress.SecretId = "" then output.Alertmanager.SecretID
               else spec.Alertmanager.Ingress.SecretId)
             else "")))
    ∧ (spec.Prometheus.Enabled = true →
      tableCell (WriteDetailsTable details) "Prometheus" "secretID"
        = some (Cell.str
            (if spec.Prometheus.Ingress.baseIngressSpec.Enabled = true then
              (if spec.Prometheus.Ingress.SecretId = "" then output.Prometheus.SecretID
               else spec.Prometheus.Ingress.SecretId)
             else "")))
    ∧ (spec.Pushgateway.Enabled = true →
      tableCell (WriteDetailsTable details) "Pushgateway" "secretID"
        = some (Cell.str
            (if spec.Pushgateway.Ingress.baseIngressSpec.Enabled = true then
              (if spec.Pushgateway.Ingress.SecretId = "" then output.Pushgateway.SecretID
               else spec.Pushgateway.Ingress.SecretId)
             else ""))) := by
  unfold WriteDetailsTable tableCell
  simp only [hs, if_false, ho, hd]
  cases spec.Alertmanager.Enabled <;> cases spec.Grafana.Enabled <;>
    cases spec.Prometheus.Enabled <;> cases spec.Pushgateway.Enabled <;>
    cases spec.Exporters.Enabled <;>
    simp [GoMap.get?_set, GoMap.get?, componentTable, ingressSecretID]

/-- C12 (amended) at a concrete input: in `sampleDetails` Grafana shows the secret chosen in
the spec, Prometheus (ingress enabled, none chosen) the one the backend generated. -/
theorem C12_secret_shown_witness :
    tableCell (WriteDetailsTable sampleDetails) "Grafana" "secretID"
        = some (Cell.str "chosen-g")
    ∧ tableCell (WriteDetailsTable sampleDetails) "Prometheus" "secretID"
        = some (Cell.str "generated-p") :=
  have h := C12_secret_shown sampleDetails
    { Alertmanager := { Url := "", SecretID := "", Version := "", ServiceURL := "" }
      Grafana := { Url := "http://grafana", SecretID := "generated-g", Version := "",
                   ServiceURL := "" }
      Prometheus := { Url := "", SecretID := "generated-p", Version := "", ServiceURL := "" }
      PrometheusOperator := { Version := "0.34" }
      Pushgateway := { Url := "", SecretID := "", Version := "", ServiceURL := "" } }
    { Grafana := { Enabled := true, SecretId := "chosen-g", Ingress := baseIngressSpec.zero,
                   Dashboards := false }
      Prometheus := { Enabled := true, Storage := storageSpec.zero,
                      Ingress := { baseIngressSpec := { Enabled := true, Domain := "", Path := "" },
                                   SecretId := "" } }
      Alertmanager := alertmanagerSpec.zero
      Pushgateway := pushgatewaySpec.zero
      Exporters := { Enabled := true, NodeExporter := { Enabled := false },
                     KubeStateMetrics := { Enabled := false } } }
    (by decide) rfl rfl
  ⟨h.1 rfl, h.2.2.1 rfl⟩

/-- C14: for every details record WriteDetailsTable returns a table whose Monitoring section
holds the status of the record, and whenever decoding the output document or the spec
document fails the table is exactly that one section with that one entry. -/
theorem C14_table_on_decode_failure (details : IntegratedServiceDetails) :
    tableCell (WriteDetailsTable details) "Monitoring" "Status"
        = some (Cell.str details.Status)
    ∧ (((∃ e, decodeOutputResponse details.Output = .error e)
        ∨ (∃ e, decodeServiceSpec details.Spec = .error e)) →
      WriteDetailsTable details = [("Monitoring", [("Status", Cell.str details.Status)])]) := by
  constructor
  · unfold WriteDetailsTable tableCell
    by_cases hs : details.Status = "INACTIVE"
    · simp [hs, GoMap.get?]
    · simp only [hs, if_false]
      cases ho : decodeOutputResponse details.Output with
      | error e => simp [GoMap.get?]
      | ok output =>
        cases hd : decodeServiceSpec details.Spec with
        | error e => simp [GoMap.get?]
        | ok spec =>
          simp only []
          cases spec.Alertmanager.Enabled <;> cases spec.Grafana.Enabled <;>
            cases spec.Prometheus.Enabled <;> cases spec.Pushgateway.Enabled <;>
            cases spec.Exporters.Enabled <;>
            simp [GoMap.get?_set, GoMap.get?]
  · intro h
    unfold WriteDetailsTable
    by_cases hs : details.Status = "INACTIVE"
    · simp [hs]
    · simp only [hs, if_false]
      rcases h with ⟨e, he⟩ | ⟨e, he⟩
      · simp [he]
      · cases ho : decodeOutputResponse details.Output with
        | error e => simp
        | ok output => simp [he]

/-- C14 at a concrete input: the output document of `brokenOutputDetails` holds a string
where a map is expected. -/
theorem C14_table_on_decode_failure_witness :
    WriteDetailsTable brokenOutputDetails = [("Monitoring", [("Status", Cell.str "ACTIVE")])] :=
  (C14_table_on_decode_failure brokenOutputDetails).2
    (Or.inl ⟨"grafana expected a map", rfl⟩)

/-! ## The activation scenario -/

theorem Prog.yields_pure {α : Type} {P : α → Prop} (a : α) (h : P a) :
    Prog.Yields (pure a : Prog α) P :=
  ⟨fun tr => ⟨a, tr, rfl, h⟩⟩

theorem Prog.yields_bind {α β : Type} {m : Prog α} {f : α → Prog β} {P : α → Prop}
    {Q : β → Prop} (hm : Prog.Yields m P) (hf : ∀ a, P a → Prog.Yields (f a) Q) :
    Prog.Yields (m >>= f) Q := by
  constructor
  intro tr
  obtain ⟨a, tr1, h1, hP⟩ := hm.out tr
  obtain ⟨b, tr2, h2, hQ⟩ := (hf a hP).out tr1
  exact ⟨b, tr2, by rw [Prog.bind_apply, h1]; exact h2, hQ⟩

theorem Prog.yields_wrapIf {α : Type} {m : Prog α} {P : α → Prop} (msg : String)
    (hm : Prog.Yields m P) : Prog.Yields (m.wrapIf msg) P := by
  constructor
  intro tr
  obtain ⟨a, tr1, h1, hP⟩ := hm.out tr
  exact ⟨a, tr1, by simp [Prog.wrapIf, h1], hP⟩

theorem Prog.yields_of_eq {α : Type} {p : Prog α} {P : α → Prop}
    (h : ∀ tr, ∃ a tr1, p tr = (Except.ok a, tr1) ∧ P a) : Prog.Yields p P := ⟨h⟩

/-- The resolver succeeds when the listing succeeds and the operator accepts the default. -/
theorem askSecret_yields (banzaiCLI : Cli)
    (hcli : ∀ tr kind, ∃ l, banzaiCLI.GetSecrets tr kind = .ok l)
    (kind d : String) (sk : Bool) :
    Prog.Yields (askSecret grafanaDomainOperator banzaiCLI kind d sk) (fun _ => True) := by
  constructor
  intro tr
  obtain ⟨l, hl⟩ := hcli tr kind
  by_cases hne : l = []
  · subst hne
    exact ⟨_, _, askSecret_nothing_listed _ _ _ _ _ _ hl, trivial⟩
  · rw [askSecret_nonempty grafanaDomainOperator banzaiCLI kind d sk tr l hne hl]
    exact ⟨_, _, rfl, trivial⟩

theorem askGrafana_scenario (banzaiCLI : Cli)
    (hcli : ∀ tr kind, ∃ l, banzaiCLI.GetSecrets tr kind = .ok l) :
    Prog.Yields (askGrafana grafanaDomainOperator banzaiCLI
        { Enabled := true, SecretId := "",
          Ingress := { Enabled := true, Domain := "", Path := "/grafana" },
          Dashboards := true })
      (fun g => g.Ingress.Domain = "example.com") := by
  unfold askGrafana
  refine Prog.yields_bind (P := fun b => b = true)
    (Prog.yields_wrapIf _ ⟨fun _ => ⟨_, _, rfl, rfl⟩⟩) (fun b hb => ?_)
  subst hb
  simp only [if_true]
  refine Prog.yields_bind (Prog.yields_wrapIf _ (askSecret_yields banzaiCLI hcli _ _ _))
    (fun sid _ => ?_)
  refine Prog.yields_bind (P := fun r => r.Domain = "example.com")
    (Prog.yields_wrapIf _ ⟨fun _ => ⟨_, _, rfl, rfl⟩⟩) (fun ing hing => ?_)
  refine Prog.yields_bind (P := fun _ => True)
    (Prog.yields_wrapIf _ ⟨fun _ => ⟨_, _, rfl, trivial⟩⟩) (fun dash _ => ?_)
  exact Prog.yields_pure _ hing

theorem askPrometheus_scenario (banzaiCLI : Cli)
    (hcli : ∀ tr kind, ∃ l, banzaiCLI.GetSecrets tr kind = .ok l) :
    Prog.Yields (askPrometheus grafanaDomainOperator banzaiCLI
        { Enabled := true,
          Storage := { Class := "", Size := 100, Retention := "10d" },
          Ingress := { baseIngressSpec :=
                         { Enabled := true, Domain := "", Path := "/prometheus" },
                       SecretId := "" } })
      (fun _ => True) := by
  unfold askPrometheus
  refine Prog.yields_bind (P := fun r => r = ("", "100", "10d"))
    (Prog.yields_wrapIf _ ⟨fun _ => ⟨_, _, rfl, rfl⟩⟩) (fun r hr => ?_)
  subst hr
  simp only []
  refine Prog.yields_bind (P := fun n => n = 100)
    (Prog.yields_wrapIf _ ⟨fun _ => ⟨_, _, rfl, rfl⟩⟩) (fun n _ => ?_)
  refine Prog.yields_bind (P := fun r => r.Enabled = true)
    (Prog.yields_wrapIf _ ⟨fun _ => ⟨_, _, rfl, rfl⟩⟩) (fun ing hing => ?_)
  simp only [hing, if_true]
  refine Prog.yields_bind (Prog.yields_wrapIf _ (askSecret_yields banzaiCLI hcli _ _ _))
    (fun sid _ => ?_)
  exact Prog.yields_pure _ trivial

theorem askAlertmanager_scenario (banzaiCLI : Cli)
    (hcli : ∀ tr kind, ∃ l, banzaiCLI.GetSecrets tr kind = .ok l) :
    Prog.Yields (askAlertmanager grafanaDomainOperator banzaiCLI
        { Enabled := true,
          Ingress := { baseIngressSpec :=
                         { Enabled := true, Domain := "", Path := "/alertmanager" },
                       SecretId := "" },
          Provider :=
            [(alertmanagerProviderSlack,
                PValue.slackSpec { Enabled := false, SecretId := "", Channel := "",
                                   SendResolved := true }),
             (alertmanagerProviderPagerDuty,
                PValue.pagerDutySpec { Enabled := false, Url := "", SecretId := "",
                                       IntegrationType := "", SendResolved := true })] })
      (fun a => a.Provider = initialProvider) := by
  unfold askAlertmanager
  refine Prog.yields_bind (P := fun b => b = true)
    (Prog.yields_wrapIf _ ⟨fun _ => ⟨_, _, rfl, rfl⟩⟩) (fun b hb => ?_)
  subst hb
  simp only [if_true]
  refine Prog.yields_bind (P := fun sel => sel = skip)
    (Prog.yields_wrapIf _ ⟨fun _ => ⟨_, _, rfl, rfl⟩⟩) (fun sel hsel => ?_)
  subst hsel
  refine Prog.yields_bind (P := fun pr => pr = initialProvider)
    ⟨fun _ => ⟨_, _, rfl, rfl⟩⟩ (fun pr hpr => ?_)
  refine Prog.yields_bind (P := fun r => r.Enabled = true)
    (Prog.yields_wrapIf _ ⟨fun _ => ⟨_, _, rfl, rfl⟩⟩) (fun ing hing => ?_)
  simp only [hing, if_true]
  refine Prog.yields_bind (Prog.yields_wrapIf _ (askSecret_yields banzaiCLI hcli _ _ _))
    (fun sid _ => ?_)
  exact Prog.yields_pure _ hpr

theorem askPushgateway_scenario (banzaiCLI : Cli) :
    Prog.Yields (askPushgateway grafanaDomainOperator banzaiCLI
        { Enabled := true,
          Ingress := { baseIngressSpec :=
                         { Enabled := false, Domain := "", Path := "/pushgateway" },
                       SecretId := "" } })
      (fun r => r = { Enabled := true,
                      Ingress := { baseIngressSpec :=
                                     { Enabled := false, Domain := "", Path := "" },
                                   SecretId := "" } }) :=
  ⟨fun _ => ⟨_, _, rfl, rfl⟩⟩

/-- C11 as stated fails: in the scenario (every default accepted, the Grafana ingress domain
answered `example.com`, an empty credential store) the pushgateway entry of the document has
Enabled true, because the activation baseline for Pushgateway is Enabled true. -/
theorem C11_scenario_enables_pushgateway :
    (BuildActivateRequestInteractively grafanaDomainOperator (cliWith []) []).1.toOption.bind
        (fun r => GoMap.get? r.Spec "pushgateway")
      = some (Value.pushgatewaySpec
          { Enabled := true,
            Ingress := { baseIngressSpec := { Enabled := false, Domain := "", Path := "" },
                         SecretId := "" } }) :=
  rfl

/-- C11 (amended): when BuildActivateRequestInteractively is run with every prompt answered
by its offered default except the Grafana ingress domain, answered `example.com`, against a
backend whose secret listings succeed, it returns a document with exactly the entries
grafana, prometheus, alertmanager, pushgateway and exporters in which grafana.ingress.domain
is `example.com`, the provider map of alertmanager is the slack and the pagerDuty entry,
both with enabled false, and pushgateway has enabled TRUE with its ingress disabled and no
ingress domain, path or secret populated. -/
theorem C11_activation_scenario (banzaiCLI : Cli) (tr : List Event)
    (hcli : ∀ tr kind, ∃ l, banzaiCLI.GetSecrets tr kind = .ok l) :
    ∃ req tr1 g p a,
      BuildActivateRequestInteractively grafanaDomainOperator banzaiCLI tr = (.ok req, tr1)
      ∧ req.Spec
          = [("grafana", Value.grafanaSpec g),
             ("prometheus", Value.prometheusSpec p),
             ("alertmanager", Value.alertmanagerSpec a),
             ("pushgateway", Value.pushgatewaySpec
                { Enabled := true,
                  Ingress := { baseIngressSpec := { Enabled := false, Domain := "", Path := "" },
                               SecretId := "" } }),
             ("exporters", Value.exportersSpec
                { Enabled := true, NodeExporter := { Enabled := true },
                  KubeStateMetrics := { Enabled := true } })]
      ∧ g.Ingress.Domain = "example.com"
      ∧ a.Provider
          = [(alertmanagerProviderSlack, PValue.slackSpec
                { Enabled := false, SecretId := "", Channel := "", SendResolved := false }),
             (alertmanagerProviderPagerDuty, PValue.pagerDutySpec
                { Enabled := false, Url := "", SecretId := "", IntegrationType := "",
                  SendResolved := false })] := by
  have h : Prog.Yields (BuildActivateRequestInteractively grafanaDomainOperator banzaiCLI)
      (fun req => ∃ g p a,
        req.Spec
          = [("grafana", Value.grafanaSpec g),
             ("prometheus", Value.prometheusSpec p),
             ("alertmanager", Value.alertmanagerSpec a),
             ("pushgateway", Value.pushgatewaySpec
                { Enabled := true,
                  Ingress := { baseIngressSpec := { Enabled := false, Domain := "", Path := "" },
                               SecretId := "" } }),
             ("exporters", Value.exportersSpec
                { Enabled := true, NodeExporter := { Enabled := true },
                  KubeStateMetrics := { Enabled := true } })]
        ∧ g.Ingress.Domain = "example.com"
        ∧ a.Provider = initialProvider) := by
    unfold BuildActivateRequestInteractively
    refine Prog.yields_bind (Prog.yields_wrapIf _ (askGrafana_scenario banzaiCLI hcli))
      (fun g hg => ?_)
    refine Prog.yields_bind (Prog.yields_wrapIf _ (askPrometheus_scenario banzaiCLI hcli))
      (fun p _ => ?_)
    refine Prog.yields_bind (Prog.yields_wrapIf _ (askAlertmanager_scenario banzaiCLI hcli))
      (fun a ha => ?_)
    refine Prog.yields_bind (Prog.yields_wrapIf _ (askPushgateway_scenario banzaiCLI))
      (fun pg hpg => ?_)
    subst hpg
    exact Prog.yields_pure _ ⟨g, p, a, rfl, hg, ha⟩
  obtain ⟨req, tr1, hrun, g, p, a, hspec, hg, ha⟩ := h.out tr
  exact ⟨req, tr1, g, p, a, hrun, hspec, hg, ha⟩

/-- C11 (amended) at a concrete backend: one listed password credential, one htpasswd
credential. -/
theorem C11_activation_scenario_witness :
    ∃ req tr1 g p a,
      BuildActivateRequestInteractively grafanaDomainOperator (cliListing sampleListing) []
        = (.ok req, tr1)
      ∧ req.Spec
          = [("grafana", Value.grafanaSpec g),
             ("prometheus", Value.prometheusSpec p),
             ("alertmanager", Value.alertmanagerSpec a),
             ("pushgateway", Value.pushgatewaySpec
                { Enabled := true,
                  Ingress := { baseIngressSpec := { Enabled := false, Domain := "", Path := "" },
                               SecretId := "" } }),
             ("exporters", Value.exportersSpec
                { Enabled := true, NodeExporter := { Enabled := true },
                  KubeStateMetrics := { Enabled := true } })]
      ∧ g.Ingress.Domain = "example.com"
      ∧ a.Provider
          = [("slack", PValue.slackSpec
                { Enabled := false, SecretId := "", Channel := "", SendResolved := false }),
             ("pagerDuty", PValue.pagerDutySpec
                { Enabled := false, Url := "", SecretId := "", IntegrationType := "",
                  SendResolved := false })] :=
  C11_activation_scenario (cliListing sampleListing) [] (fun _ kind => ⟨sampleListing kind, rfl⟩)

/-! ## The ingress subtree and its secret -/

theorem Prog.bind_ok_inv {α β : Type} {m : Prog α} {f : α → Prog β} {tr tr2 : List Event}
    {b : β} (h : (m >>= f) tr = (Except.ok b, tr2)) :
    ∃ a tr1, m tr = (Except.ok a, tr1) ∧ f a tr1 = (Except.ok b, tr2) := by
  rw [Prog.bind_apply] at h
  rcases hm : m tr with ⟨r, tr1⟩
  rw [hm] at h
  cases r with
  | error e => simp at h
  | ok a => exact ⟨a, tr1, rfl, h⟩

theorem Prog.wrapIf_ok_inv {α : Type} {m : Prog α} {msg : String} {tr tr1 : List Event}
    {a : α} (h : (m.wrapIf msg) tr = (Except.ok a, tr1)) : m tr = (Except.ok a, tr1) := by
  simp only [Prog.wrapIf] at h
  rcases hm : m tr with ⟨r, tr2⟩
  rw [hm] at h
  cases r with
  | error e => simp at h
  | ok a2 => simpa using h

theorem Prog.avoids_pure {α : Type} (a : α) (e : Event) :
    Prog.Avoids (Pure.pure a : Prog α) e :=
  ⟨fun _ => ⟨[], by simp [Prog.pure_apply]⟩⟩

theorem Prog.avoids_ret {α : Type} (a : α) (e : Event) : Prog.Avoids (Prog.ret a) e :=
  ⟨fun _ => ⟨[], by simp [Prog.ret]⟩⟩

theorem Prog.avoids_fail {α : Type} (msg : String) (e : Event) :
    Prog.Avoids (Prog.fail msg : Prog α) e :=
  ⟨fun _ => ⟨[], by simp [Prog.fail]⟩⟩

theorem Prog.avoids_lift {α : Type} (r : Except String α) (e : Event) :
    Prog.Avoids (Prog.lift r) e :=
  ⟨fun _ => ⟨[], by simp [Prog.lift]⟩⟩

theorem Prog.avoids_bind {α β : Type} {m : Prog α} {f : α → Prog β} {e : Event}
    (hm : Prog.Avoids m e) (hf : ∀ a, Prog.Avoids (f a) e) : Prog.Avoids (m >>= f) e := by
  constructor
  intro tr
  obtain ⟨n1, h1, hn1⟩ := hm.out tr
  rw [Prog.bind_apply]
  rcases hmt : m tr with ⟨res, tr1⟩
  rw [hmt] at h1
  simp only at h1
  subst h1
  cases res with
  | error err => exact ⟨n1, rfl, hn1⟩
  | ok a =>
    obtain ⟨n2, h2, hn2⟩ := (hf a).out (tr ++ n1)
    exact ⟨n1 ++ n2, by simp [h2], by simp [hn1, hn2]⟩

theorem Prog.avoids_wrapIf {α : Type} {m : Prog α} {e : Event} (msg : String)
    (hm : Prog.Avoids m e) : Prog.Avoids (m.wrapIf msg) e := by
  constructor
  intro tr
  obtain ⟨n1, h1, hn1⟩ := hm.out tr
  simp only [Prog.wrapIf]
  rcases hmt : m tr with ⟨res, tr1⟩
  rw [hmt] at h1
  cases res <;> exact ⟨n1, h1, hn1⟩

theorem Prog.avoids_askConfirm (op : Operator) (q : QuestionConfirm) (kind : String) :
    Prog.Avoids (askConfirm op q) (Event.getSecrets kind) :=
  ⟨fun _ => ⟨[Event.confirm q], rfl, by simp⟩⟩

theorem Prog.avoids_askInput (op : Operator) (q : QuestionInput) (kind : String) :
    Prog.Avoids (askInput op q) (Event.getSecrets kind) :=
  ⟨fun _ => ⟨[Event.input q], rfl, by simp⟩⟩

theorem Prog.avoids_askSelect (op : Operator) (q : QuestionSelect) (kind : String) :
    Prog.Avoids (askSelect op q) (Event.getSecrets kind) :=
  ⟨fun _ => ⟨[Event.select q], rfl, by simp⟩⟩

theorem Prog.avoids_getSecrets (banzaiCLI : Cli) (kind other : String) (h : kind ≠ other) :
    Prog.Avoids (getSecrets banzaiCLI kind) (Event.getSecrets other) :=
  ⟨fun _ => ⟨[Event.getSecrets kind], rfl, by simp [Ne.symm h]⟩⟩

theorem askIngress_avoids (op : Operator) (c : String) (d : baseIngressSpec) (kind : String) :
    Prog.Avoids (askIngress op c d) (Event.getSecrets kind) := by
  unfold askIngress
  repeat (first
    | apply Prog.avoids_askConfirm
    | apply Prog.avoids_askInput
    | apply Prog.avoids_bind
    | apply Prog.avoids_wrapIf
    | apply Prog.avoids_pure
    | intro _
    | split)

theorem askSecret_avoids (op : Operator) (banzaiCLI : Cli) (kind d : String) (sk : Bool)
    (other : String) (h : kind ≠ other) :
    Prog.Avoids (askSecret op banzaiCLI kind d sk) (Event.getSecrets other) := by
  unfold askSecret
  repeat (first
    | exact Prog.avoids_getSecrets _ _ _ h
    | apply Prog.avoids_askSelect
    | apply Prog.avoids_bind
    | apply Prog.avoids_wrapIf
    | apply Prog.avoids_pure
    | intro _
    | split)

theorem askNotificationProviderSlack_avoids (op : Operator) (banzaiCLI : Cli)
    (d : Option PValue) :
    Prog.Avoids (askNotificationProviderSlack op banzaiCLI d)
      (Event.getSecrets htPasswordSecretType) := by
  unfold askNotificationProviderSlack
  repeat (first
    | exact askSecret_avoids _ _ _ _ _ _ (by decide)
    | apply Prog.avoids_askInput
    | apply Prog.avoids_askConfirm
    | apply Prog.avoids_lift
    | apply Prog.avoids_bind
    | apply Prog.avoids_wrapIf
    | apply Prog.avoids_pure
    | intro _
    | split)

theorem askNotificationProviderPagerDuty_avoids (op : Operator) (banzaiCLI : Cli)
    (d : Option PValue) :
    Prog.Avoids (askNotificationProviderPagerDuty op banzaiCLI d)
      (Event.getSecrets htPasswordSecretType) := by
  unfold askNotificationProviderPagerDuty
  repeat (first
    | exact askSecret_avoids _ _ _ _ _ _ (by decide)
    | apply Prog.avoids_askInput
    | apply Prog.avoids_askConfirm
    | apply Prog.avoids_askSelect
    | apply Prog.avoids_lift
    | apply Prog.avoids_ret
    | apply Prog.avoids_fail
    | apply Prog.avoids_bind
    | apply Prog.avoids_wrapIf
    | apply Prog.avoids_pure
    | intro _
    | split)

theorem askProviderOptions_avoids (op : Operator) (banzaiCLI : Cli) (d : alertmanagerSpec)
    (n : String) :
    Prog.Avoids (askProviderOptions op banzaiCLI d n)
      (Event.getSecrets htPasswordSecretType) := by
  unfold askProviderOptions
  repeat (first
    | apply askNotificationProviderSlack_avoids
    | apply askNotificationProviderPagerDuty_avoids
    | apply Prog.avoids_ret
    | apply Prog.avoids_fail
    | apply Prog.avoids_bind
    | apply Prog.avoids_wrapIf
    | apply Prog.avoids_pure
    | intro _
    | split)

theorem Prog.marks_bind_avoids {α β : Type} {m : Prog α} {f : α → Prog β} {e : Event}
    {flag : β → Bool} (hm : Prog.Avoids m e) (hf : ∀ a, Prog.Marks (f a) e flag) :
    Prog.Marks (m >>= f) e flag := by
  constructor
  intro tr res tr2 h
  obtain ⟨a, tr1, h1, h2⟩ := Prog.bind_ok_inv h
  obtain ⟨n1, hn1, hnot⟩ := hm.out tr
  rw [h1] at hn1
  simp only at hn1
  subst hn1
  obtain ⟨n2, hn2, hiff⟩ := (hf a).out _ res tr2 h2
  refine ⟨n1 ++ n2, by simp [hn2], ?_⟩
  simp [hnot, hiff]

theorem Prog.marks_pure_false {α : Type} {e : Event} {flag : α → Bool} (a : α)
    (h : flag a = false) : Prog.Marks (pure a : Prog α) e flag := by
  constructor
  intro tr res tr1 hrun
  simp only [Prog.pure_apply, Prod.mk.injEq, Except.ok.injEq] at hrun
  obtain ⟨h1, h2⟩ := hrun
  subst h1 h2
  exact ⟨[], by simp, by simp [h]⟩

/-- The first interaction of `askSecret` is the listing of the credentials of its kind. -/
theorem askSecret_first (op : Operator) (banzaiCLI : Cli) (kind d : String) (sk : Bool)
    (tr : List Event) :
    ∃ rest, (askSecret op banzaiCLI kind d sk tr).2 = tr ++ Event.getSecrets kind :: rest := by
  unfold askSecret
  refine first_event_bind (first_event_wrapIf _ ⟨[], rfl⟩) (fun secrets => ?_)
  repeat (first
    | apply Prog.extends_askSelect
    | apply Prog.extends_bind
    | apply Prog.extends_wrapIf
    | apply Prog.extends_pure
    | intro _
    | split)

/-- A call of the resolver followed by the assembly of a result on which `flag` holds: every
run that returns has listed the credentials of the kind asked for. -/
theorem Prog.marks_secret_tail {α : Type} (op : Operator) (banzaiCLI : Cli)
    (kind d : String) (sk : Bool) (msg : String) (g : String → α) (flag : α → Bool)
    (hflag : ∀ sid, flag (g sid) = true) :
    Prog.Marks ((askSecret op banzaiCLI kind d sk).wrapIf msg >>= fun sid => pure (g sid))
      (Event.getSecrets kind) flag := by
  constructor
  intro tr res tr2 h
  obtain ⟨sid, tr1, h1, h2⟩ := Prog.bind_ok_inv h
  have h1' := Prog.wrapIf_ok_inv h1
  simp only [Prog.pure_apply, Prod.mk.injEq, Except.ok.injEq] at h2
  obtain ⟨hres, htr⟩ := h2
  subst hres htr
  obtain ⟨rest, hrest⟩ := askSecret_first op banzaiCLI kind d sk tr
  rw [h1'] at hrest
  simp only at hrest
  exact ⟨Event.getSecrets kind :: rest, hrest, by simp [hflag]⟩

theorem askPushgateway_marks (op : Operator) (banzaiCLI : Cli) (d : pushgatewaySpec) :
    Prog.Marks (askPushgateway op banzaiCLI d) (Event.getSecrets htPasswordSecretType)
      (fun r => r.Ingress.baseIngressSpec.Enabled) := by
  unfold askPushgateway
  refine Prog.marks_bind_avoids (Prog.avoids_wrapIf _ (Prog.avoids_askConfirm _ _ _))
    (fun isEnabled => ?_)
  split
  · refine Prog.marks_bind_avoids (Prog.avoids_wrapIf _ (askIngress_avoids _ _ _ _))
      (fun ing => ?_)
    split
    · rename_i hing
      exact Prog.marks_secret_tail op banzaiCLI _ _ _ _
        (fun sid => ({ Enabled := isEnabled,
                       Ingress := { baseIngressSpec := ing, SecretId := sid } } :
                     pushgatewaySpec))
        (fun r => r.Ingress.baseIngressSpec.Enabled) (fun _ => hing)
    · rename_i hing
      exact Prog.marks_pure_false _ (by simpa using hing)
  · exact Prog.marks_pure_false _ rfl

theorem askPrometheus_marks (op : Operator) (banzaiCLI : Cli) (d : prometheusSpec) :
    Prog.Marks (askPrometheus op banzaiCLI d) (Event.getSecrets htPasswordSecretType)
      (fun r => r.Ingress.baseIngressSpec.Enabled) := by
  unfold askPrometheus
  refine Prog.marks_bind_avoids (Prog.avoids_wrapIf _
    (Prog.avoids_bind (Prog.avoids_askInput _ _ _) (fun _ =>
      Prog.avoids_bind (Prog.avoids_askInput _ _ _) (fun _ =>
        Prog.avoids_bind (Prog.avoids_askInput _ _ _) (fun _ => Prog.avoids_pure _ _)))))
    (fun answers => ?_)
  refine Prog.marks_bind_avoids (Prog.avoids_wrapIf _ (Prog.avoids_lift _ _)) (fun n => ?_)
  refine Prog.marks_bind_avoids (Prog.avoids_wrapIf _ (askIngress_avoids _ _ _ _))
    (fun ing => ?_)
  split
  · rename_i hing
    exact Prog.marks_secret_tail op banzaiCLI _ _ _ _
      (fun sid => ({ Enabled := true,
                     Storage := { Class := answers.1, Size := n, Retention := answers.2.2 },
                     Ingress := { baseIngressSpec := ing, SecretId := sid } } :
                   prometheusSpec))
      (fun r => r.Ingress.baseIngressSpec.Enabled) (fun _ => hing)
  · rename_i hing
    exact Prog.marks_pure_false _ (by simpa using hing)

theorem askAlertmanager_marks (op : Operator) (banzaiCLI : Cli) (d : alertmanagerSpec) :
    Prog.Marks (askAlertmanager op banzaiCLI d) (Event.getSecrets htPasswordSecretType)
      (fun r => r.Ingress.baseIngressSpec.Enabled) := by
  unfold askAlertmanager
  refine Prog.marks_bind_avoids (Prog.avoids_wrapIf _ (Prog.avoids_askConfirm _ _ _))
    (fun isEnabled => ?_)
  split
  · refine Prog.marks_bind_avoids (Prog.avoids_wrapIf _ (Prog.avoids_askSelect _ _ _))
      (fun sel => ?_)
    refine Prog.marks_bind_avoids (askProviderOptions_avoids _ _ _ _) (fun provider => ?_)
    refine Prog.marks_bind_avoids (Prog.avoids_wrapIf _ (askIngress_avoids _ _ _ _))
      (fun ing => ?_)
    split
    · rename_i hing
      exact Prog.marks_secret_tail op banzaiCLI _ _ _ _
        (fun sid => ({ Enabled := isEnabled, Provider := provider,
                       Ingress := { baseIngressSpec := ing, SecretId := sid } } :
                     alertmanagerSpec))
        (fun r => r.Ingress.baseIngressSpec.Enabled) (fun _ => hing)
    · rename_i hing
      exact Prog.marks_pure_false _ (by simpa using hing)
  · exact Prog.marks_pure_false _ rfl

/-- The first interaction of `askIngress` is its enable confirm. -/
theorem askIngress_first (op : Operator) (compType : String) (d : baseIngressSpec)
    (tr : List Event) :
    ∃ rest, (askIngress op compType d tr).2
      = tr ++ Event.confirm (ingressEnableQuestion compType d) :: rest := by
  unfold askIngress
  refine first_event_bind (first_event_wrapIf _ ⟨[], rfl⟩) (fun b => ?_)
  repeat (first
    | apply Prog.extends_askInput
    | apply Prog.extends_bind
    | apply Prog.extends_wrapIf
    | apply Prog.extends_pure
    | intro _
    | split)

/-- C15: for every component name and prior ingress spec, askIngress first asks the enable
confirm, whose default is the prior Enabled; if the answer is no it asks nothing else and
returns the ingress with Enabled false and empty domain and path, whatever the prior domain
and path; if the answer is yes it asks the domain, then the path (defaults: the prior domain
and path) and returns exactly the two answers, whatever they are (an empty domain included).
And on every run of askPrometheus, askAlertmanager and askPushgateway that returns a
sub-spec, the credentials of the htpasswd kind were listed (the secret resolver was called
for that kind) if and only if the ingress of the returned sub-spec is enabled. -/
theorem C15_ingress_subtree (op : Operator) (banzaiCLI : Cli) (compType : String)
    (d : baseIngressSpec) (tr : List Event) (dp : prometheusSpec) (da : alertmanagerSpec)
    (dg : pushgatewaySpec) :
    ((ingressEnableQuestion compType d).DefaultValue = d.Enabled
      ∧ (ingressDomainQuestion compType d).DefaultValue = d.Domain
      ∧ (ingressPathQuestion compType d).DefaultValue = d.Path)
    ∧ (∃ rest, (askIngress op compType d tr).2
        = tr ++ Event.confirm (ingressEnableQuestion compType d) :: rest)
    ∧ (op.confirm tr (ingressEnableQuestion compType d) = .ok false →
        askIngress op compType d tr
          = (.ok { Enabled := false, Domain := "", Path := "" },
             tr ++ [Event.confirm (ingressEnableQuestion compType d)]))
    ∧ (∀ domain path,
        op.confirm tr (ingressEnableQuestion compType d) = .ok true →
        op.input (tr ++ [Event.confirm (ingressEnableQuestion compType d)])
          (ingressDomainQuestion compType d) = .ok domain →
        op.input (tr ++ [Event.confirm (ingressEnableQuestion compType d),
                         Event.input (ingressDomainQuestion compType d)])
          (ingressPathQuestion compType d) = .ok path →
        askIngress op compType d tr
          = (.ok { Enabled := true, Domain := domain, Path := path },
             tr ++ [Event.confirm (ingressEnableQuestion compType d),
                    Event.input (ingressDomainQuestion compType d),
                    Event.input (ingressPathQuestion compType d)]))
    ∧ (∀ res tr1, askPrometheus op banzaiCLI dp tr = (.ok res, tr1) →
        ∃ new, tr1 = tr ++ new
          ∧ (Event.getSecrets htPasswordSecretType ∈ new
              ↔ res.Ingress.baseIngressSpec.Enabled = true))
    ∧ (∀ res tr1, askAlertmanager op banzaiCLI da tr = (.ok res, tr1) →
        ∃ new, tr1 = tr ++ new
          ∧ (Event.getSecrets htPasswordSecretType ∈ new
              ↔ res.Ingress.baseIngressSpec.Enabled = true))
    ∧ (∀ res tr1, askPushgateway op banzaiCLI dg tr = (.ok res, tr1) →
        ∃ new, tr1 = tr ++ new
          ∧ (Event.getSecrets htPasswordSecretType ∈ new
              ↔ res.Ingress.baseIngressSpec.Enabled = true)) :=
  ⟨⟨rfl, rfl, rfl⟩,
   askIngress_first op compType d tr,
   askIngress_no op compType d tr,
   fun domain path h hd hp => askIngress_yes op compType d tr domain path h hd hp,
   (askPrometheus_marks op banzaiCLI dp).out tr,
   (askAlertmanager_marks op banzaiCLI da).out tr,
   (askPushgateway_marks op banzaiCLI dg).out tr⟩

/-- C15 at a concrete input: a prior ingress that is disabled with a domain and a path, an
operator who says yes and leaves both text answers empty; and a run of askPushgateway that
enables the ingress and lists the htpasswd credentials. -/
theorem C15_ingress_subtree_witness :
    askIngress (answering "skip" "") "Pushgateway"
        { Enabled := false, Domain := "old.example.com", Path := "/pushgateway" } []
      = (.ok { Enabled := true, Domain := "", Path := "" },
         [] ++ [Event.confirm (ingressEnableQuestion "Pushgateway"
                  { Enabled := false, Domain := "old.example.com", Path := "/pushgateway" }),
                Event.input (ingressDomainQuestion "Pushgateway"
                  { Enabled := false, Domain := "old.example.com", Path := "/pushgateway" }),
                Event.input (ingressPathQuestion "Pushgateway"
                  { Enabled := false, Domain := "old.example.com", Path := "/pushgateway" })])
    ∧ ∃ new,
        [Event.confirm { Message := "Do you want to enable Pushgateway?", DefaultValue := false },
         Event.confirm { Message := "Do you want to enable Pushgateway Ingress?",
                         DefaultValue := false },
         Event.input { Message := "Please provide Pushgateway Ingress domain:",
                       Help := "Leave empty to use cluster's IP", DefaultValue := "" },
         Event.input { Message := "Please provide Pushgateway Ingress path:", Help := "",
                       DefaultValue := "" },
         Event.getSecrets "htpasswd"] = [] ++ new
        ∧ (Event.getSecrets htPasswordSecretType ∈ new ↔ true = true) :=
  have h := C15_ingress_subtree (answering "skip" "") (cliWith []) "Pushgateway"
    { Enabled := false, Domain := "old.example.com", Path := "/pushgateway" } []
    prometheusSpec.zero alertmanagerSpec.zero pushgatewaySpec.zero
  ⟨h.2.2.2.1 "" "" rfl rfl rfl,
   h.2.2.2.2.2.2
     { Enabled := true,
       Ingress := { baseIngressSpec := { Enabled := true, Domain := "", Path := "" },
                    SecretId := "" } }
     _ rfl⟩

/-! ## The provider map of Alertmanager -/

theorem askNotificationProviderSlack_enabled (op : Operator) (banzaiCLI : Cli)
    (d : Option PValue) :
    Prog.Ensures (askNotificationProviderSlack op banzaiCLI d) (fun s => s.Enabled = true) := by
  unfold askNotificationProviderSlack
  exact Prog.ensures_bind _ (fun _ => Prog.ensures_bind _ (fun _ =>
    Prog.ensures_bind _ (fun _ => Prog.ensures_pure _ rfl)))

theorem askNotificationProviderPagerDuty_enabled (op : Operator) (banzaiCLI : Cli)
    (d : Option PValue) :
    Prog.Ensures (askNotificationProviderPagerDuty op banzaiCLI d)
      (fun s => s.Enabled = true) := by
  unfold askNotificationProviderPagerDuty
  exact Prog.ensures_bind _ (fun _ => Prog.ensures_bind _ (fun _ =>
    Prog.ensures_bind _ (fun _ => Prog.ensures_bind _ (fun _ =>
      Prog.ensures_bind _ (fun _ => Prog.ensures_bind _ (fun _ =>
        Prog.ensures_pure _ rfl))))))

/-- The provider map after the switch on the selected provider, on a run that returns. -/
theorem askProviderOptions_ok (op : Operator) (banzaiCLI : Cli) (d : alertmanagerSpec)
    (sel : String) (tr tr1 : List Event) (prov : GoMap PValue)
    (h : askProviderOptions op banzaiCLI d sel tr = (.ok prov, tr1)) :
    (sel = skip
      ∧ prov = [(alertmanagerProviderSlack, PValue.slackSpec slackSpec.zero),
                (alertmanagerProviderPagerDuty, PValue.pagerDutySpec pagerDutySpec.zero)])
    ∨ (sel = alertmanagerNotificationNameSlack
      ∧ ∃ s : slackSpec, s.Enabled = true
        ∧ prov = [(alertmanagerProviderSlack, PValue.slackSpec s),
                  (alertmanagerProviderPagerDuty, PValue.pagerDutySpec pagerDutySpec.zero)])
    ∨ (sel = alertmanagerNotificationNamePagerDuty
      ∧ ∃ pd : pagerDutySpec, pd.Enabled = true
        ∧ prov = [(alertmanagerProviderSlack, PValue.slackSpec slackSpec.zero),
                  (alertmanagerProviderPagerDuty, PValue.pagerDutySpec pd)]) := by
  unfold askProviderOptions at h
  split at h
  · rename_i hsel
    obtain ⟨s, tr2, h1, h2⟩ := Prog.bind_ok_inv h
    have hs := (Prog.ensures_wrapIf _
      (askNotificationProviderSlack_enabled op banzaiCLI _)).out tr s
      (by rw [h1])
    simp only [Prog.pure_apply, Prod.mk.injEq, Except.ok.injEq] at h2
    exact Or.inr (Or.inl ⟨hsel, s, hs, h2.1.symm⟩)
  · split at h
    · rename_i hsel
      obtain ⟨pd, tr2, h1, h2⟩ := Prog.bind_ok_inv h
      have hs := (Prog.ensures_wrapIf _
        (askNotificationProviderPagerDuty_enabled op banzaiCLI _)).out tr pd
        (by rw [h1])
      simp only [Prog.pure_apply, Prod.mk.injEq, Except.ok.injEq] at h2
      exact Or.inr (Or.inr ⟨hsel, pd, hs, h2.1.symm⟩)
    · split at h
      · rename_i hsel
        simp only [Prog.ret, Prod.mk.injEq, Except.ok.injEq] at h
        exact Or.inl ⟨hsel, h.1.symm⟩
      · simp [Prog.fail] at h

/-- A returned Alertmanager sub-spec that is enabled carries the provider map the switch
produced for the provider selected. -/
theorem askAlertmanager_ok (op : Operator) (banzaiCLI : Cli) (d : alertmanagerSpec)
    (tr tr1 : List Event) (res : alertmanagerSpec)
    (hen : op.confirm tr { Message := "Do you want to enable Alertmanager?",
                           DefaultValue := d.Enabled } = .ok true)
    (h : askAlertmanager op banzaiCLI d tr = (.ok res, tr1)) :
    ∃ sel t2 t3,
      op.select (tr ++ [Event.confirm { Message := "Do you want to enable Alertmanager?",
                                        DefaultValue := d.Enabled }])
        (notificationProviderQuestion d.Provider) = .ok sel
      ∧ askProviderOptions op banzaiCLI d sel t2 = (.ok res.Provider, t3) := by
  unfold askAlertmanager at h
  obtain ⟨b, t1, h1, h⟩ := Prog.bind_ok_inv h
  have h1' := Prog.wrapIf_ok_inv h1
  simp only [askConfirm, hen, Prod.mk.injEq, Except.ok.injEq] at h1'
  obtain ⟨hb, ht1⟩ := h1'
  subst hb ht1
  simp only [if_true] at h
  obtain ⟨sel, t2, h2, h⟩ := Prog.bind_ok_inv h
  have h2' := Prog.wrapIf_ok_inv h2
  simp only [askSelect, Prod.mk.injEq] at h2'
  obtain ⟨prov, t3, h3, h⟩ := Prog.bind_ok_inv h
  obtain ⟨ing, t4, h4, h⟩ := Prog.bind_ok_inv h
  refine ⟨sel, t2, t3, h2'.1, ?_⟩
  split at h
  · obtain ⟨sid, t5, h5, h⟩ := Prog.bind_ok_inv h
    simp only [Prog.pure_apply, Prod.mk.injEq, Except.ok.injEq] at h
    rw [← h.1]
    exact h3
  · simp only [Prog.pure_apply, Prod.mk.injEq, Except.ok.injEq] at h
    rw [← h.1]
    exact h3

/-- C16: for every prior Alertmanager spec and every run of askAlertmanager in which the
enable toggle is answered yes and a sub-spec is returned, the operator's selection is `skip`,
`Slack` or `PagerDuty` and the returned provider map consists of exactly the slack entry and
the pagerDuty entry: both disabled zero values after `skip`; after `Slack` an enabled slack
entry and the disabled zero pagerDuty entry; after `PagerDuty` an enabled pagerDuty entry and
the disabled zero slack entry (so at most one entry is enabled, it is the selected one, and
nothing of the prior spec survives in an unselected entry). A selection outside those three
makes askAlertmanager return an error. -/
theorem C16_provider_map (op : Operator) (banzaiCLI : Cli) (d : alertmanagerSpec)
    (tr : List Event)
    (hen : op.confirm tr { Message := "Do you want to enable Alertmanager?",
                           DefaultValue := d.Enabled } = .ok true) :
    (∀ res tr1, askAlertmanager op banzaiCLI d tr = (.ok res, tr1) →
      ∃ sel,
        op.select (tr ++ [Event.confirm { Message := "Do you want to enable Alertmanager?",
                                          DefaultValue := d.Enabled }])
          (notificationProviderQuestion d.Provider) = .ok sel
        ∧ ((sel = skip
            ∧ res.Provider
                = [(alertmanagerProviderSlack, PValue.slackSpec
                      { Enabled := false, SecretId := "", Channel := "",
                        SendResolved := false }),
                   (alertmanagerProviderPagerDuty, PValue.pagerDutySpec
                      { Enabled := false, Url := "", SecretId := "", IntegrationType := "",
                        SendResolved := false })])
          ∨ (sel = alertmanagerNotificationNameSlack
            ∧ ∃ s : slackSpec, s.Enabled = true
              ∧ res.Provider
                  = [(alertmanagerProviderSlack, PValue.slackSpec s),
                     (alertmanagerProviderPagerDuty, PValue.pagerDutySpec
                        { Enabled := false, Url := "", SecretId := "", IntegrationType := "",
                          SendResolved := false })])
          ∨ (sel = alertmanagerNotificationNamePagerDuty
            ∧ ∃ pd : pagerDutySpec, pd.Enabled = true
              ∧ res.Provider
                  = [(alertmanagerProviderSlack, PValue.slackSpec
                        { Enabled := false, SecretId := "", Channel := "",
                          SendResolved := false }),
                     (alertmanagerProviderPagerDuty, PValue.pagerDutySpec pd)])))
    ∧ (∀ sel,
        op.select (tr ++ [Event.confirm { Message := "Do you want to enable Alertmanager?",
                                          DefaultValue := d.Enabled }])
          (notificationProviderQuestion d.Provider) = .ok sel →
        sel ≠ skip → sel ≠ alertmanagerNotificationNameSlack →
        sel ≠ alertmanagerNotificationNamePagerDuty →
        askAlertmanager op banzaiCLI d tr
          = (.error "not supported provider type",
             tr ++ [Event.confirm { Message := "Do you want to enable Alertmanager?",
                                    DefaultValue := d.Enabled },
                    Event.select (notificationProviderQuestion d.Provider)])) := by
  constructor
  · intro res tr1 h
    obtain ⟨sel, t2, t3, hsel, hprov⟩ := askAlertmanager_ok op banzaiCLI d tr tr1 res hen h
    exact ⟨sel, hsel, askProviderOptions_ok op banzaiCLI d sel t2 t3 res.Provider hprov⟩
  · intro sel hsel h1 h2 h3
    unfold askAlertmanager
    simp only [Prog.bind_apply, Prog.wrapIf, askConfirm, hen, if_true, askSelect, hsel,
      askProviderOptions]
    have e1 : ¬ sel = alertmanagerNotificationNameSlack := h2
    have e2 : ¬ sel = alertmanagerNotificationNamePagerDuty := h3
    have e3 : ¬ sel = skip := h1
    simp [e1, e2, e3, Prog.fail]

/-- C16 at concrete inputs: a prior spec in which PagerDuty was enabled with a URL, an
operator who now selects Slack and types `alerts` (the returned map has the enabled slack
entry and the zero pagerDuty entry); and an operator who selects `Email`, which is no
provider. -/
theorem C16_provider_map_witness :
    (∃ sel,
      (answering "Slack" "alerts").select
          ([] ++ [Event.confirm { Message := "Do you want to enable Alertmanager?",
                                  DefaultValue := true }])
          (notificationProviderQuestion
            [("pagerDuty", PValue.pagerDutySpec
                { Enabled := true, Url := "https://events.pagerduty.com", SecretId := "pd1",
                  IntegrationType := "eventsApiV2", SendResolved := true })]) = .ok sel
      ∧ ((sel = "skip"
          ∧ [("slack", PValue.slackSpec
                { Enabled := true, SecretId := "", Channel := "alerts",
                  SendResolved := true }),
             ("pagerDuty", PValue.pagerDutySpec pagerDutySpec.zero)]
              = [("slack", PValue.slackSpec
                    { Enabled := false, SecretId := "", Channel := "",
                      SendResolved := false }),
                 ("pagerDuty", PValue.pagerDutySpec
                    { Enabled := false, Url := "", SecretId := "", IntegrationType := "",
                      SendResolved := false })])
        ∨ (sel = "Slack"
          ∧ ∃ s : slackSpec, s.Enabled = true
            ∧ [("slack", PValue.slackSpec
                  { Enabled := true, SecretId := "", Channel := "alerts",
                    SendResolved := true }),
               ("pagerDuty", PValue.pagerDutySpec pagerDutySpec.zero)]
                = [("slack", PValue.slackSpec s),
                   ("pagerDuty", PValue.pagerDutySpec
                      { Enabled := false, Url := "", SecretId := "", IntegrationType := "",
                        SendResolved := false })])
        ∨ (sel = "PagerDuty"
          ∧ ∃ pd : pagerDutySpec, pd.Enabled = true
            ∧ [("slack", PValue.slackSpec
                  { Enabled := true, SecretId := "", Channel := "alerts",
                    SendResolved := true }),
               ("pagerDuty", PValue.pagerDutySpec pagerDutySpec.zero)]
                = [("slack", PValue.slackSpec
                      { Enabled := false, SecretId := "", Channel := "",
                        SendResolved := false }),
                   ("pagerDuty", PValue.pagerDutySpec pd)])))
    ∧ (askAlertmanager (answering "Email" "") (cliWith []) alertmanagerSpec.zero []).1
        = .error "not supported provider type" :=
  ⟨(C16_provider_map (answering "Slack" "alerts") (cliWith [])
      { Enabled := true,
        Provider := [("pagerDuty", PValue.pagerDutySpec
          { Enabled := true, Url := "https://events.pagerduty.com", SecretId := "pd1",
            IntegrationType := "eventsApiV2", SendResolved := true })],
        Ingress := ingressSpecWithSecret.zero } [] rfl).1
      { Enabled := true,
        Provider := [("slack", PValue.slackSpec
                        { Enabled := true, SecretId := "", Channel := "alerts",
                          SendResolved := true }),
                     ("pagerDuty", PValue.pagerDutySpec pagerDutySpec.zero)],
        Ingress := { baseIngressSpec := { Enabled := true, Domain := "alerts",
                                          Path := "alerts" },
                     SecretId := "" } }
      _ rfl,
   congrArg Prod.fst
     ((C16_provider_map (answering "Email" "") (cliWith []) alertmanagerSpec.zero [] rfl).2
       "Email" rfl (by decide) (by decide) (by decide))⟩

/-! ## The no-op update round trip -/

/-! ### What comes back when the stored specification is in builder form -/

/-- The resolver under an operator who accepts the default hands back the current identifier
when that is one it keeps. -/
theorem askSecret_keepDefault (banzaiCLI : Cli) (L : String → List SecretItem)
    (hcli : ∀ tr kind, banzaiCLI.GetSecrets tr kind = .ok (L kind))
    (kind id : String) (sk : Bool) (hkept : SecretKept sk (L kind) id) :
    Prog.Returns (askSecret keepDefault banzaiCLI kind id sk) id := by
  constructor
  intro tr
  unfold SecretKept at hkept
  by_cases hne : L kind = []
  · rw [hne] at hkept
    simp only [List.reverse_nil, List.find?_nil] at hkept
    rw [askSecret_nothing_listed keepDefault banzaiCLI kind id sk tr (hne ▸ hcli tr kind),
      hkept.1]
    exact ⟨_, rfl⟩
  · rw [askSecret_nonempty keepDefault banzaiCLI kind id sk tr (L kind) hne (hcli tr kind)]
    have hsel : keepDefault.select (tr ++ [Event.getSecrets kind])
        (askSecretQuestion (L kind) id sk)
          = .ok (askSecretQuestion (L kind) id sk).DefaultValue := rfl
    rw [hsel, askSecretQuestion_default]
    cases hf : (L kind).reverse.find? (fun s => s.Id = id) with
    | none =>
      rw [hf] at hkept
      obtain ⟨hid, hsk⟩ := hkept
      cases sk with
      | true => simp [hid]
      | false =>
        have hnone : (L kind).reverse.find? (fun s => s.Name = "") = none := by
          rw [List.find?_eq_none]
          intro s hs
          have := (hsk.resolve_left (by decide)) s (by simpa using hs)
          simpa using this
        have hskip : ¬ "" = skip := by decide
        simp [hid, hnone, hskip]
    | some s =>
      rw [hf] at hkept
      by_cases hn : s.Name = skip
      · simp only [hn, if_true] at hkept
        simp [hn, hkept]
      · simp only [hn, if_false] at hkept
        simp [hn, hkept]

theorem askGrafana_keepDefault (banzaiCLI : Cli) (L : String → List SecretItem)
    (hcli : ∀ tr kind, banzaiCLI.GetSecrets tr kind = .ok (L kind)) (g : grafanaSpec)
    (hg : if g.Enabled then
            SecretKept true (L passwordSecretType) g.SecretId ∧ IngressKept g.Ingress
          else g = grafanaSpec.zero) :
    Prog.Returns (askGrafana keepDefault banzaiCLI g) g := by
  unfold askGrafana
  refine Prog.returns_bind (Prog.returns_wrapIf _ (keepDefault_confirm _)) ?_
  cases hen : g.Enabled with
  | false =>
    simp only [hen, Bool.false_eq_true, if_false] at hg ⊢
    exact Prog.returns_congr (by rw [hg]; rfl) (Prog.returns_pure _)
  | true =>
    simp only [hen, if_true] at hg ⊢
    refine Prog.returns_bind (Prog.returns_wrapIf _
      (askSecret_keepDefault banzaiCLI L hcli _ _ _ hg.1)) ?_
    refine Prog.returns_bind (Prog.returns_wrapIf _
      (askIngress_keepDefault _ _ hg.2)) ?_
    refine Prog.returns_bind (Prog.returns_wrapIf _ (keepDefault_confirm _)) ?_
    exact Prog.returns_congr (by cases g; simp_all) (Prog.returns_pure _)

/-- The ingress subtree followed by the htpasswd secret, under an operator who accepts the
default. -/
theorem authIngress_keepDefault (banzaiCLI : Cli) (L : String → List SecretItem)
    (hcli : ∀ tr kind, banzaiCLI.GetSecrets tr kind = .ok (L kind))
    (d : ingressSpecWithSecret) (hd : AuthIngressKept (L htPasswordSecretType) d) :
    IngressKept d.baseIngressSpec
    ∧ (d.baseIngressSpec.Enabled = true →
        Prog.Returns (askSecret keepDefault banzaiCLI htPasswordSecretType d.SecretId true)
          d.SecretId)
    ∧ (d.baseIngressSpec.Enabled = false → d.SecretId = "") :=
  ⟨fun h => ⟨(hd.2 h).1, (hd.2 h).2.1⟩,
   fun h => askSecret_keepDefault banzaiCLI L hcli _ _ _ (hd.1 h),
   fun h => (hd.2 h).2.2⟩

theorem askPushgateway_keepDefault (banzaiCLI : Cli) (L : String → List SecretItem)
    (hcli : ∀ tr kind, banzaiCLI.GetSecrets tr kind = .ok (L kind)) (g : pushgatewaySpec)
    (hg : if g.Enabled then AuthIngressKept (L htPasswordSecretType) g.Ingress
          else g = pushgatewaySpec.zero) :
    Prog.Returns (askPushgateway keepDefault banzaiCLI g) g := by
  unfold askPushgateway
  refine Prog.returns_bind (Prog.returns_wrapIf _ (keepDefault_confirm _)) ?_
  cases hen : g.Enabled with
  | false =>
    simp only [hen, Bool.false_eq_true, if_false] at hg ⊢
    exact Prog.returns_congr (by rw [hg]; rfl) (Prog.returns_pure _)
  | true =>
    simp only [hen, if_true] at hg ⊢
    obtain ⟨h1, h2, h3⟩ := authIngress_keepDefault banzaiCLI L hcli g.Ingress hg
    refine Prog.returns_bind (Prog.returns_wrapIf _ (askIngress_keepDefault _ _ h1)) ?_
    cases hie : g.Ingress.baseIngressSpec.Enabled with
    | false =>
      simp only [hie, Bool.false_eq_true, if_false]
      have := h3 hie
      exact Prog.returns_congr (by obtain ⟨en, ⟨b, sid⟩⟩ := g; simp_all)
        (Prog.returns_pure _)
    | true =>
      simp only [hie, if_true]
      refine Prog.returns_bind (Prog.returns_wrapIf _ (h2 hie)) ?_
      exact Prog.returns_congr (by cases g; simp_all) (Prog.returns_pure _)

theorem askPrometheus_keepDefault (banzaiCLI : Cli) (L : String → List SecretItem)
    (hcli : ∀ tr kind, banzaiCLI.GetSecrets tr kind = .ok (L kind)) (g : prometheusSpec)
    (hg : g.Enabled = true ∧ g.Storage.Size < 2 ^ 64
          ∧ AuthIngressKept (L htPasswordSecretType) g.Ingress) :
    Prog.Returns (askPrometheus keepDefault banzaiCLI g) g := by
  obtain ⟨hen, hsize, hing⟩ := hg
  obtain ⟨h1, h2, h3⟩ := authIngress_keepDefault banzaiCLI L hcli g.Ingress hing
  unfold askPrometheus
  refine Prog.returns_bind (Prog.returns_wrapIf _
    (Prog.returns_bind (keepDefault_input _) (Prog.returns_bind (keepDefault_input _)
      (Prog.returns_bind (keepDefault_input _) (Prog.returns_pure _))))) ?_
  simp only []
  refine Prog.returns_bind (Prog.returns_wrapIf _
    (Prog.returns_lift (ParseUint_Sprint _ hsize))) ?_
  refine Prog.returns_bind (Prog.returns_wrapIf _ (askIngress_keepDefault _ _ h1)) ?_
  cases hie : g.Ingress.baseIngressSpec.Enabled with
  | false =>
    simp only [hie, Bool.false_eq_true, if_false]
    have := h3 hie
    exact Prog.returns_congr (by obtain ⟨en, st, ⟨b, sid⟩⟩ := g; simp_all)
      (Prog.returns_pure _)
  | true =>
    simp only [hie, if_true]
    refine Prog.returns_bind (Prog.returns_wrapIf _ (h2 hie)) ?_
    exact Prog.returns_congr (by cases g; simp_all) (Prog.returns_pure _)

/-- The PagerDuty questions under an operator who accepts the default give back what the
stored entry decodes to, when that is enabled, of a known integration type, and its secret
is kept. -/
theorem askNotificationProviderPagerDuty_keepDefault (banzaiCLI : Cli)
    (L : String → List SecretItem)
    (hcli : ∀ tr kind, banzaiCLI.GetSecrets tr kind = .ok (L kind))
    (entry : Option PValue) (p : pagerDutySpec)
    (hdec : decodePagerDuty entry = .ok p) (hen : p.Enabled = true)
    (hty : p.IntegrationType = pdIntegrationTypeEventsApiV2
            ∨ p.IntegrationType = pdIntegrationTypePrometheus)
    (hsec : SecretKept false (L pagerDutySecretType) p.SecretId) :
    Prog.Returns (askNotificationProviderPagerDuty keepDefault banzaiCLI entry) p := by
  unfold askNotificationProviderPagerDuty
  refine Prog.returns_bind (Prog.returns_wrapIf _ (Prog.returns_lift hdec)) ?_
  refine Prog.returns_bind (Prog.returns_wrapIf _ (keepDefault_input _)) ?_
  refine Prog.returns_bind (Prog.returns_wrapIf _ (keepDefault_select _)) ?_
  refine Prog.returns_bind (a := p.IntegrationType) ?_ ?_
  · rcases hty with h | h
    · rw [h]
      exact Prog.returns_ret _
    · rw [h]
      exact Prog.returns_ret _
  · refine Prog.returns_bind (Prog.returns_wrapIf _
      (askSecret_keepDefault banzaiCLI L hcli _ _ _ hsec)) ?_
    refine Prog.returns_bind (Prog.returns_wrapIf _ (keepDefault_confirm _)) ?_
    exact Prog.returns_congr (by cases p; simp_all) (Prog.returns_pure _)

/-- The Slack questions under an operator who accepts the default give back what the stored
entry decodes to, when that is enabled, has an empty channel, and its secret is kept. -/
theorem askNotificationProviderSlack_keepDefault (banzaiCLI : Cli)
    (L : String → List SecretItem)
    (hcli : ∀ tr kind, banzaiCLI.GetSecrets tr kind = .ok (L kind))
    (entry : Option PValue) (s : slackSpec)
    (hdec : decodeSlack entry = .ok s) (hen : s.Enabled = true) (hch : s.Channel = "")
    (hsec : SecretKept false (L slackSecretType) s.SecretId) :
    Prog.Returns (askNotificationProviderSlack keepDefault banzaiCLI entry) s := by
  unfold askNotificationProviderSlack
  refine Prog.returns_bind (Prog.returns_wrapIf _ (Prog.returns_lift hdec)) ?_
  refine Prog.returns_bind (Prog.returns_wrapIf _
    (askSecret_keepDefault banzaiCLI L hcli _ _ _ hsec)) ?_
  refine Prog.returns_bind (Prog.returns_wrapIf _
    (Prog.returns_bind (keepDefault_input _) (Prog.returns_bind (keepDefault_confirm _)
      (Prog.returns_pure _)))) ?_
  exact Prog.returns_congr (by cases s; simp_all) (Prog.returns_pure _)

/-- The default of the provider menu is `skip` when no provider is in use. -/
theorem defaultNotificationProviderValue_unused (P : GoMap PValue)
    (h : ProvidersUnused P) : defaultNotificationProviderValue P = skip := by
  obtain ⟨_, hs, hp⟩ := h
  unfold defaultNotificationProviderValue
  cases hpd : GoMap.get? P alertmanagerProviderPagerDuty with
  | some e =>
    rw [hpd] at hp
    simp only [hp]
    rfl
  | none =>
    cases hsl : GoMap.get? P alertmanagerProviderSlack with
    | some e =>
      rw [hsl] at hs
      simp only [hs]
      rfl
    | none => rfl

/-- The provider step of `askAlertmanager` under an operator who accepts the default: it
succeeds with a provider map that holds the same providers as the stored one. -/
theorem askProviderOptions_keepDefault (banzaiCLI : Cli) (L : String → List SecretItem)
    (hcli : ∀ tr kind, banzaiCLI.GetSecrets tr kind = .ok (L kind)) (g : alertmanagerSpec)
    (hg : ProvidersUnused g.Provider
          ∨ PagerDutyKept (L pagerDutySecretType) g.Provider
          ∨ SlackKept (L slackSecretType) g.Provider) :
    ∃ Q, Prog.Returns (askProviderOptions keepDefault banzaiCLI g
            (notificationProviderQuestion g.Provider).DefaultValue) Q
      ∧ SameProviders Q g.Provider := by
  have hne : alertmanagerProviderSlack ≠ alertmanagerProviderPagerDuty := by decide
  rcases hg with hu | hpd | hsl
  · refine ⟨initialProvider, ?_, ?_⟩
    · have hdef : (notificationProviderQuestion g.Provider).DefaultValue = skip :=
        defaultNotificationProviderValue_unused _ hu
      rw [hdef]
      unfold askProviderOptions
      rw [if_neg (by decide), if_neg (by decide), if_pos rfl]
      exact Prog.returns_ret _
    · obtain ⟨ho, hs, hp⟩ := hu
      refine ⟨?_, ?_, ?_⟩
      · rw [hs]; rfl
      · rw [hp]; rfl
      · intro k h1 h2
        rw [ho k h1 h2]
        simp [initialProvider, GoMap.get?, Ne.symm h1, Ne.symm h2]
  · obtain ⟨ho, hs, entry, p, hget, hdec, hen, hty, hsec⟩ := hpd
    refine ⟨GoMap.set initialProvider alertmanagerProviderPagerDuty (PValue.pagerDutySpec p),
      ?_, ?_⟩
    · have hdef : (notificationProviderQuestion g.Provider).DefaultValue
          = alertmanagerNotificationNamePagerDuty := by
        simp only [notificationProviderQuestion, defaultNotificationProviderValue, hget, hdec,
          hen, if_true]
      rw [hdef]
      unfold askProviderOptions
      rw [if_neg (by decide), if_pos rfl, hget]
      refine Prog.returns_bind (Prog.returns_wrapIf _
        (askNotificationProviderPagerDuty_keepDefault banzaiCLI L hcli _ p hdec hen hty
          hsec)) ?_
      exact Prog.returns_pure _
    · refine ⟨?_, ?_, ?_⟩
      · rw [hs]; rfl
      · rw [hget, hdec]; rfl
      · intro k h1 h2
        rw [ho k h1 h2, GoMap.get?_set, if_neg (Ne.symm h2)]
        simp [initialProvider, GoMap.get?, Ne.symm h1, Ne.symm h2]
  · obtain ⟨ho, hnopd, entry, s, hget, hdec, hen, hch, hsec⟩ := hsl
    refine ⟨GoMap.set initialProvider alertmanagerProviderSlack (PValue.slackSpec s),
      ?_, ?_⟩
    · have hdef : (notificationProviderQuestion g.Provider).DefaultValue
          = alertmanagerNotificationNameSlack := by
        simp only [notificationProviderQuestion, defaultNotificationProviderValue, hnopd, hget,
          hdec, hen, if_true]
      rw [hdef]
      unfold askProviderOptions
      rw [if_pos rfl, hget]
      refine Prog.returns_bind (Prog.returns_wrapIf _
        (askNotificationProviderSlack_keepDefault banzaiCLI L hcli _ s hdec hen hch
          hsec)) ?_
      exact Prog.returns_pure _
    · refine ⟨?_, ?_, ?_⟩
      · rw [hget, hdec]; rfl
      · rw [hnopd]; rfl
      · intro k h1 h2
        rw [ho k h1 h2, GoMap.get?_set, if_neg (Ne.symm h1)]
        simp [initialProvider, GoMap.get?, Ne.symm h1, Ne.symm h2]

/-- Alertmanager under an operator who accepts the default: the builder succeeds with the
stored flag and ingress and a provider map that holds the same providers. -/
theorem askAlertmanager_keepDefault (banzaiCLI : Cli) (L : String → List SecretItem)
    (hcli : ∀ tr kind, banzaiCLI.GetSecrets tr kind = .ok (L kind)) (g : alertmanagerSpec)
    (hg : if g.Enabled then
            (ProvidersUnused g.Provider
              ∨ PagerDutyKept (L pagerDutySecretType) g.Provider
              ∨ SlackKept (L slackSecretType) g.Provider)
            ∧ AuthIngressKept (L htPasswordSecretType) g.Ingress
          else
            g.Ingress = ingressSpecWithSecret.zero ∧ ProvidersUnused g.Provider) :
    ∃ a, Prog.Returns (askAlertmanager keepDefault banzaiCLI g) a
      ∧ a.Enabled = g.Enabled ∧ a.Ingress = g.Ingress
      ∧ SameProviders a.Provider g.Provider := by
  cases hen : g.Enabled with
  | false =>
    simp only [hen, Bool.false_eq_true, if_false] at hg
    obtain ⟨hing, ho, hs, hp⟩ := hg
    refine ⟨{ Enabled := false, Provider := [], Ingress := ingressSpecWithSecret.zero },
      ?_, rfl, hing.symm, ?_, ?_, ?_⟩
    · unfold askAlertmanager
      refine Prog.returns_bind (Prog.returns_wrapIf _ (keepDefault_confirm _)) ?_
      simp only [hen, Bool.false_eq_true, if_false]
      exact Prog.returns_pure _
    · rw [hs]; rfl
    · rw [hp]; rfl
    · intro k h1 h2
      rw [ho k h1 h2]
      rfl
  | true =>
    simp only [hen, if_true] at hg
    obtain ⟨hprov, hing⟩ := hg
    obtain ⟨h1, h2, h3⟩ := authIngress_keepDefault banzaiCLI L hcli g.Ingress hing
    obtain ⟨Q, hQ, hsame⟩ := askProviderOptions_keepDefault banzaiCLI L hcli g hprov
    refine ⟨{ Enabled := true, Provider := Q, Ingress := g.Ingress }, ?_, rfl, rfl, hsame⟩
    unfold askAlertmanager
    refine Prog.returns_bind (Prog.returns_wrapIf _ (keepDefault_confirm _)) ?_
    simp only [hen, if_true]
    refine Prog.returns_bind (Prog.returns_wrapIf _ (keepDefault_select _)) ?_
    refine Prog.returns_bind hQ ?_
    refine Prog.returns_bind (Prog.returns_wrapIf _ (askIngress_keepDefault _ _ h1)) ?_
    cases hie : g.Ingress.baseIngressSpec.Enabled with
    | false =>
      simp only [hie, Bool.false_eq_true, if_false]
      have := h3 hie
      exact Prog.returns_congr (by obtain ⟨en, pr, ⟨b, sid⟩⟩ := g; simp_all)
        (Prog.returns_pure _)
    | true =>
      simp only [hie, if_true]
      refine Prog.returns_bind (Prog.returns_wrapIf _ (h2 hie)) ?_
      exact Prog.returns_congr (by cases g; simp_all) (Prog.returns_pure _)

/-- The update when the document decodes and each builder returns a value: no error, and
the document holds the four values. -/
theorem BuildUpdateRequestInteractively_of_returns (op : Operator) (banzaiCLI : Cli)
    (request : UpdateIntegratedServiceRequest) (tr : List Event) (S : serviceSpec)
    (g : grafanaSpec) (p : prometheusSpec) (a : alertmanagerSpec) (pg : pushgatewaySpec)
    (hdec : decodeServiceSpec request.Spec = .ok S)
    (hg : Prog.Returns (askGrafana op banzaiCLI S.Grafana) g)
    (hp : Prog.Returns (askPrometheus op banzaiCLI S.Prometheus) p)
    (ha : Prog.Returns (askAlertmanager op banzaiCLI S.Alertmanager) a)
    (hpg : Prog.Returns (askPushgateway op banzaiCLI S.Pushgateway) pg) :
    (BuildUpdateRequestInteractively op banzaiCLI request tr).err = .ok ()
    ∧ (BuildUpdateRequestInteractively op banzaiCLI request tr).request.Spec
        = GoMap.set (GoMap.set (GoMap.set (GoMap.set request.Spec
            "grafana" (Value.grafanaSpec g))
            "prometheus" (Value.prometheusSpec p))
            "alertmanager" (Value.alertmanagerSpec a))
            "pushgateway" (Value.pushgatewaySpec pg) := by
  obtain ⟨tr1, h1⟩ := hg.out tr
  obtain ⟨tr2, h2⟩ := hp.out tr1
  obtain ⟨tr3, h3⟩ := ha.out tr2
  obtain ⟨tr4, h4⟩ := hpg.out tr3
  unfold BuildUpdateRequestInteractively
  simp [hdec, Prog.wrapIf, h1, h2, h3, h4]

/-! ### What the stored specification is when it comes back -/

/-- A program that returns `a` from every trace returns nothing else. -/
theorem Prog.returns_unique {α : Type} {p : Prog α} {a b : α} {tr tr1 : List Event}
    (hp : Prog.Returns p a) (h : p tr = (Except.ok b, tr1)) : b = a := by
  obtain ⟨tr2, h2⟩ := hp.out tr
  rw [h2] at h
  simp only [Prod.mk.injEq, Except.ok.injEq] at h
  exact h.1.symm

theorem Prog.pure_ok_inv {α : Type} {a b : α} {tr tr1 : List Event}
    (h : (pure a : Prog α) tr = (Except.ok b, tr1)) : b = a := by
  rw [Prog.pure_apply] at h
  simp only [Prod.mk.injEq, Except.ok.injEq] at h
  exact h.1.symm

/-- Only an identifier the resolver keeps comes back when the default is accepted. -/
theorem askSecret_keepDefault_inv (banzaiCLI : Cli) (L : String → List SecretItem)
    (hcli : ∀ tr kind, banzaiCLI.GetSecrets tr kind = .ok (L kind))
    (kind id : String) (sk : Bool) (tr tr1 : List Event)
    (h : askSecret keepDefault banzaiCLI kind id sk tr = (.ok id, tr1)) :
    SecretKept sk (L kind) id := by
  unfold SecretKept
  by_cases hne : L kind = []
  · rw [askSecret_nothing_listed keepDefault banzaiCLI kind id sk tr (hne ▸ hcli tr kind)] at h
    simp only [Prod.mk.injEq, Except.ok.injEq] at h
    rw [hne]
    simp [h.1.symm]
  · rw [askSecret_nonempty keepDefault banzaiCLI kind id sk tr (L kind) hne (hcli tr kind)] at h
    have hsel : keepDefault.select (tr ++ [Event.getSecrets kind])
        (askSecretQuestion (L kind) id sk)
          = .ok (askSecretQuestion (L kind) id sk).DefaultValue := rfl
    rw [hsel, askSecretQuestion_default] at h
    simp only [Prod.mk.injEq, Except.ok.injEq] at h
    have h := h.1
    cases hf : (L kind).reverse.find? (fun s => s.Id = id) with
    | none =>
      rw [hf] at h
      cases sk with
      | true =>
        simp at h
        simp [h.symm]
      | false =>
        have hskip : ¬ "" = skip := by decide
        simp only [Bool.false_eq_true, if_false, hskip] at h
        cases hfn : (L kind).reverse.find? (fun s => s.Name = "") with
        | none =>
          rw [hfn] at h
          simp at h
          refine ⟨h.symm, Or.inr ?_⟩
          intro s hs
          have := List.find?_eq_none.mp hfn s (by simpa using hs)
          simpa using this
        | some t =>
          rw [hfn] at h
          simp at h
          have ht := List.mem_of_find?_eq_some hfn
          have := List.find?_eq_none.mp hf t ht
          simp [h] at this
    | some s =>
      rw [hf] at h
      by_cases hn : s.Name = skip
      · simp only [hn, if_true] at h ⊢
        exact h.symm
      · simp only [hn, if_false] at h ⊢
        cases hfn : (L kind).reverse.find? (fun t => t.Name = s.Name) with
        | none =>
          have hs := List.mem_of_find?_eq_some hf
          have := List.find?_eq_none.mp hfn s hs
          simp at this
        | some t =>
          rw [hfn] at h
          simp at h
          simp [h]

/-- Only an ingress that is enabled or empty comes back when the default is accepted. -/
theorem askIngress_keepDefault_inv (compType : String) (d : baseIngressSpec)
    (tr tr1 : List Event) (h : askIngress keepDefault compType d tr = (.ok d, tr1)) :
    IngressKept d := by
  intro hen
  rw [askIngress_no keepDefault compType d tr
    (by simp [keepDefault, ingressEnableQuestion, hen])] at h
  simp only [Prod.mk.injEq, Except.ok.injEq] at h
  rw [← h.1]
  exact ⟨rfl, rfl⟩

/-- The ingress subtree followed by the htpasswd secret, read backwards: when the ingress and
secret that come back are the stored ones, the stored ones are kept. -/
theorem authIngress_keepDefault_inv {α : Type} (banzaiCLI : Cli)
    (L : String → List SecretItem)
    (hcli : ∀ tr kind, banzaiCLI.GetSecrets tr kind = .ok (L kind))
    (compType msg1 msg2 : String) (d : ingressSpecWithSecret)
    (F : baseIngressSpec → String → α) (r : α) (tr tr1 : List Event)
    (h : ((askIngress keepDefault compType d.baseIngressSpec).wrapIf msg1 >>= fun i =>
            if i.Enabled = true then
              (askSecret keepDefault banzaiCLI htPasswordSecretType d.SecretId true).wrapIf msg2
                >>= fun sid => pure (F i sid)
            else pure (F i "")) tr = (.ok r, tr1)) :
    ∃ i sid, r = F i sid
      ∧ (i = d.baseIngressSpec → sid = d.SecretId →
          AuthIngressKept (L htPasswordSecretType) d) := by
  obtain ⟨i, t1, hi, h⟩ := Prog.bind_ok_inv h
  have hi := Prog.wrapIf_ok_inv hi
  cases hie : i.Enabled with
  | false =>
    simp only [hie, Bool.false_eq_true, if_false] at h
    refine ⟨i, "", Prog.pure_ok_inv h, fun e1 e2 => ?_⟩
    subst e1
    have hk := askIngress_keepDefault_inv _ _ _ _ hi hie
    exact ⟨fun hen => absurd hen (by simp [hie]), fun _ => ⟨hk.1, hk.2, e2.symm⟩⟩
  | true =>
    simp only [hie, if_true] at h
    obtain ⟨sid, t2, hs, h⟩ := Prog.bind_ok_inv h
    have hs := Prog.wrapIf_ok_inv hs
    refine ⟨i, sid, Prog.pure_ok_inv h, fun e1 e2 => ?_⟩
    subst e1
    subst e2
    exact ⟨fun _ => askSecret_keepDefault_inv banzaiCLI L hcli _ _ _ _ _ hs,
      fun hen => absurd hen (by simp [hie])⟩

theorem askGrafana_keepDefault_inv (banzaiCLI : Cli) (L : String → List SecretItem)
    (hcli : ∀ tr kind, banzaiCLI.GetSecrets tr kind = .ok (L kind)) (g : grafanaSpec)
    (tr tr1 : List Event) (h : askGrafana keepDefault banzaiCLI g tr = (.ok g, tr1)) :
    if g.Enabled then
      SecretKept true (L passwordSecretType) g.SecretId ∧ IngressKept g.Ingress
    else g = grafanaSpec.zero := by
  unfold askGrafana at h
  obtain ⟨b, t1, hb, h⟩ := Prog.bind_ok_inv h
  have hb := Prog.returns_unique (keepDefault_confirm _) (Prog.wrapIf_ok_inv hb)
  subst hb
  cases hen : g.Enabled with
  | false =>
    simp only [hen, Bool.false_eq_true, if_false] at h ⊢
    exact Prog.pure_ok_inv h
  | true =>
    simp only [hen, if_true] at h ⊢
    obtain ⟨sid, t2, hs, h⟩ := Prog.bind_ok_inv h
    obtain ⟨i, t3, hi, h⟩ := Prog.bind_ok_inv h
    obtain ⟨dd, t4, hd, h⟩ := Prog.bind_ok_inv h
    have hg := Prog.pure_ok_inv h
    have e1 : sid = g.SecretId := by rw [hg]
    have e2 : i = g.Ingress := by rw [hg]
    subst e1
    subst e2
    exact ⟨askSecret_keepDefault_inv banzaiCLI L hcli _ _ _ _ _ (Prog.wrapIf_ok_inv hs),
      askIngress_keepDefault_inv _ _ _ _ (Prog.wrapIf_ok_inv hi)⟩

theorem askPushgateway_keepDefault_inv (banzaiCLI : Cli) (L : String → List SecretItem)
    (hcli : ∀ tr kind, banzaiCLI.GetSecrets tr kind = .ok (L kind)) (g : pushgatewaySpec)
    (tr tr1 : List Event) (h : askPushgateway keepDefault banzaiCLI g tr = (.ok g, tr1)) :
    if g.Enabled then AuthIngressKept (L htPasswordSecretType) g.Ingress
    else g = pushgatewaySpec.zero := by
  unfold askPushgateway at h
  obtain ⟨b, t1, hb, h⟩ := Prog.bind_ok_inv h
  have hb := Prog.returns_unique (keepDefault_confirm _) (Prog.wrapIf_ok_inv hb)
  subst hb
  cases hen : g.Enabled with
  | false =>
    simp only [hen, Bool.false_eq_true, if_false] at h ⊢
    exact Prog.pure_ok_inv h
  | true =>
    simp only [hen, if_true] at h ⊢
    obtain ⟨i, sid, hg, hk⟩ := authIngress_keepDefault_inv banzaiCLI L hcli _ _ _ g.Ingress
      (fun i sid => ({ Enabled := true,
                       Ingress := { baseIngressSpec := i, SecretId := sid } } : pushgatewaySpec))
      g _ _ h
    exact hk (by rw [hg]) (by rw [hg])

theorem askPrometheus_keepDefault_inv (banzaiCLI : Cli) (L : String → List SecretItem)
    (hcli : ∀ tr kind, banzaiCLI.GetSecrets tr kind = .ok (L kind)) (g : prometheusSpec)
    (tr tr1 : List Event) (h : askPrometheus keepDefault banzaiCLI g tr = (.ok g, tr1)) :
    g.Enabled = true ∧ g.Storage.Size < 2 ^ 64
      ∧ AuthIngressKept (L htPasswordSecretType) g.Ingress := by
  unfold askPrometheus at h
  obtain ⟨⟨cls, size, ret⟩, t1, hq, h⟩ := Prog.bind_ok_inv h
  have hq := Prog.wrapIf_ok_inv hq
  obtain ⟨c, u1, hc, hq⟩ := Prog.bind_ok_inv hq
  obtain ⟨s, u2, hs, hq⟩ := Prog.bind_ok_inv hq
  obtain ⟨r, u3, hr, hq⟩ := Prog.bind_ok_inv hq
  have hc := Prog.returns_unique (keepDefault_input _) hc
  have hs := Prog.returns_unique (keepDefault_input _) hs
  have hr := Prog.returns_unique (keepDefault_input _) hr
  have hq := Prog.pure_ok_inv hq
  simp only [Prod.mk.injEq] at hq
  obtain ⟨hcls, hsize, hret⟩ := hq
  rw [hc] at hcls
  rw [hs] at hsize
  rw [hr] at hret
  subst hcls
  subst hsize
  subst hret
  simp only [] at h
  obtain ⟨n, t2, hn, h⟩ := Prog.bind_ok_inv h
  have hn := Prog.wrapIf_ok_inv hn
  simp only [Prog.lift, Prod.mk.injEq] at hn
  obtain ⟨i, sid, hg, hk⟩ := authIngress_keepDefault_inv banzaiCLI L hcli _ _ _ g.Ingress
    (fun i sid => ({ Enabled := true,
                     Storage := { Class := g.Storage.Class, Size := n,
                                  Retention := g.Storage.Retention },
                     Ingress := { baseIngressSpec := i, SecretId := sid } } : prometheusSpec))
    g _ _ h
  have hsz : n = g.Storage.Size := by rw [hg]
  subst hsz
  refine ⟨by rw [hg], ?_, hk (by rw [hg]) (by rw [hg])⟩
  have := (ParseUint_ok_iff _ _).mp hn.1
  have h2 := this.1.2.2
  rw [this.2] at h2
  exact h2

theorem askNotificationProviderPagerDuty_keepDefault_inv (banzaiCLI : Cli)
    (L : String → List SecretItem)
    (hcli : ∀ tr kind, banzaiCLI.GetSecrets tr kind = .ok (L kind))
    (entry : Option PValue) (p : pagerDutySpec) (tr tr1 : List Event)
    (hdec : decodePagerDuty entry = .ok p)
    (h : askNotificationProviderPagerDuty keepDefault banzaiCLI entry tr = (.ok p, tr1)) :
    (p.IntegrationType = pdIntegrationTypeEventsApiV2
      ∨ p.IntegrationType = pdIntegrationTypePrometheus)
    ∧ SecretKept false (L pagerDutySecretType) p.SecretId := by
  unfold askNotificationProviderPagerDuty at h
  obtain ⟨d, t1, hd, h⟩ := Prog.bind_ok_inv h
  have hd := Prog.returns_unique (Prog.returns_lift hdec) (Prog.wrapIf_ok_inv hd)
  subst hd
  obtain ⟨url, t2, hu, h⟩ := Prog.bind_ok_inv h
  obtain ⟨it, t3, hit, h⟩ := Prog.bind_ok_inv h
  have hit := Prog.returns_unique (keepDefault_select _) (Prog.wrapIf_ok_inv hit)
  subst hit
  obtain ⟨rt, t4, hrt, h⟩ := Prog.bind_ok_inv h
  obtain ⟨sid, t5, hs, h⟩ := Prog.bind_ok_inv h
  obtain ⟨sr, t6, hsr, h⟩ := Prog.bind_ok_inv h
  have hp := Prog.pure_ok_inv h
  have e1 : sid = d.SecretId := by rw [hp]
  have e2 : rt = d.IntegrationType := by rw [hp]
  subst e1
  subst e2
  refine ⟨?_, askSecret_keepDefault_inv banzaiCLI L hcli _ _ _ _ _ (Prog.wrapIf_ok_inv hs)⟩
  by_cases hv : d.IntegrationType = pdIntegrationTypeEventsApiV2
  · exact Or.inl hv
  · right
    simp only [hv, if_false, if_true] at hrt
    simp only [Prog.ret, Prod.mk.injEq, Except.ok.injEq] at hrt
    exact hrt.1.symm

theorem askNotificationProviderSlack_keepDefault_inv (banzaiCLI : Cli)
    (L : String → List SecretItem)
    (hcli : ∀ tr kind, banzaiCLI.GetSecrets tr kind = .ok (L kind))
    (entry : Option PValue) (s : slackSpec) (tr tr1 : List Event)
    (hdec : decodeSlack entry = .ok s)
    (h : askNotificationProviderSlack keepDefault banzaiCLI entry tr = (.ok s, tr1)) :
    s.Channel = "" ∧ SecretKept false (L slackSecretType) s.SecretId := by
  unfold askNotificationProviderSlack at h
  obtain ⟨d, t1, hd, h⟩ := Prog.bind_ok_inv h
  have hd := Prog.returns_unique (Prog.returns_lift hdec) (Prog.wrapIf_ok_inv hd)
  subst hd
  obtain ⟨sid, t2, hs, h⟩ := Prog.bind_ok_inv h
  obtain ⟨⟨ch, sr⟩, t3, hq, h⟩ := Prog.bind_ok_inv h
  have hq := Prog.wrapIf_ok_inv hq
  obtain ⟨c, u1, hc, hq⟩ := Prog.bind_ok_inv hq
  obtain ⟨r, u2, hr, hq⟩ := Prog.bind_ok_inv hq
  have hc := Prog.returns_unique (keepDefault_input _) hc
  have hq := Prog.pure_ok_inv hq
  simp only [Prod.mk.injEq] at hq
  have hp := Prog.pure_ok_inv h
  have e1 : sid = d.SecretId := by rw [hp]
  have e2 : d.Channel = "" := by
    have : d.Channel = ch := by rw [hp]
    rw [this, hq.1, hc]
  subst e1
  exact ⟨e2, askSecret_keepDefault_inv banzaiCLI L hcli _ _ _ _ _ (Prog.wrapIf_ok_inv hs)⟩

/-- The provider map `askAlertmanager` starts from holds the same providers only as a map
with no provider in use. -/
theorem providersUnused_of_same_initial (P : GoMap PValue)
    (h : SameProviders initialProvider P) : ProvidersUnused P := by
  obtain ⟨hs, hp, ho⟩ := h
  refine ⟨fun k h1 h2 => ?_, hs.symm, hp.symm⟩
  rw [← ho k h1 h2]
  simp [initialProvider, GoMap.get?, Ne.symm h1, Ne.symm h2]

/-- The provider step of `askAlertmanager` read backwards: when the provider map that comes
back holds the same providers as the stored one, the stored one has no provider in use, or
PagerDuty, or Slack, in a form the builder gives back. -/
theorem askProviderOptions_keepDefault_inv (banzaiCLI : Cli) (L : String → List SecretItem)
    (hcli : ∀ tr kind, banzaiCLI.GetSecrets tr kind = .ok (L kind)) (g : alertmanagerSpec)
    (Q : GoMap PValue) (tr tr1 : List Event)
    (h : askProviderOptions keepDefault banzaiCLI g
          (defaultNotificationProviderValue g.Provider) tr = (.ok Q, tr1))
    (hsame : SameProviders Q g.Provider) :
    ProvidersUnused g.Provider
      ∨ PagerDutyKept (L pagerDutySecretType) g.Provider
      ∨ SlackKept (L slackSecretType) g.Provider := by
  have hskip : ∀ Q, askProviderOptions keepDefault banzaiCLI g skip tr = (.ok Q, tr1) →
      Q = initialProvider := by
    intro Q hQ
    unfold askProviderOptions at hQ
    rw [if_neg (by decide), if_neg (by decide), if_pos rfl] at hQ
    simp only [Prog.ret, Prod.mk.injEq, Except.ok.injEq] at hQ
    exact hQ.1.symm
  have hknown : ∀ Q', (∀ k, k ≠ alertmanagerProviderSlack → k ≠ alertmanagerProviderPagerDuty →
      GoMap.get? Q' k = none) → SameProviders Q' g.Provider →
      OnlyKnownProviders g.Provider := by
    intro Q' hn hs k h1 h2
    rw [← hs.2.2 k h1 h2]
    exact hn k h1 h2
  obtain ⟨c1, c2, c3⟩ := defaultNotificationProviderValue_cases g.Provider
  cases hpd : GoMap.get? g.Provider alertmanagerProviderPagerDuty with
  | some e =>
    rw [c1 e hpd] at h
    cases hd : decodePagerDuty (some e) with
    | error err =>
      simp only [hd, Except.toOption, Option.map_none', if_false] at h
      have := hskip Q h
      subst this
      have := hsame.2.1
      rw [hpd, hd] at this
      simp [initialProvider, GoMap.get?, decodePagerDuty, alertmanagerProviderSlack,
        alertmanagerProviderPagerDuty] at this
    | ok p =>
      cases hen : p.Enabled with
      | false =>
        simp [hd, Except.toOption, hen] at h
        have := hskip Q h
        subst this
        exact Or.inl (providersUnused_of_same_initial _ hsame)
      | true =>
        simp only [hd, Except.toOption, Option.map_some', hen, if_true] at h
        unfold askProviderOptions at h
        rw [if_neg (by decide), if_pos rfl, hpd] at h
        obtain ⟨p', t1, hp', h⟩ := Prog.bind_ok_inv h
        have hQ := Prog.pure_ok_inv h
        subst hQ
        have hp' := Prog.wrapIf_ok_inv hp'
        have e1 : p' = p := by
          have := hsame.2.1
          rw [hpd, hd, GoMap.get?_set, if_pos rfl] at this
          simp only [decodePagerDuty, Except.ok.injEq] at this
          exact this
        subst e1
        obtain ⟨hty, hsec⟩ := askNotificationProviderPagerDuty_keepDefault_inv banzaiCLI L hcli
          _ _ _ _ hd hp'
        refine Or.inr (Or.inl ⟨?_, ?_, e, p', hpd, hd, hen, hty, hsec⟩)
        · refine hknown _ (fun k h1 h2 => ?_) hsame
          rw [GoMap.get?_set, if_neg (Ne.symm h2)]
          simp [initialProvider, GoMap.get?, Ne.symm h1, Ne.symm h2]
        · rw [← hsame.1]
          rfl
  | none =>
    cases hsl : GoMap.get? g.Provider alertmanagerProviderSlack with
    | none =>
      rw [c3 hpd hsl] at h
      have := hskip Q h
      subst this
      exact Or.inl (providersUnused_of_same_initial _ hsame)
    | some e =>
      rw [c2 hpd e hsl] at h
      cases hd : decodeSlack (some e) with
      | error err =>
        simp only [hd, Except.toOption, Option.map_none', if_false] at h
        have := hskip Q h
        subst this
        have := hsame.1
        rw [hsl, hd] at this
        simp [initialProvider, GoMap.get?, decodeSlack, alertmanagerProviderSlack,
          alertmanagerProviderPagerDuty] at this
      | ok s =>
        cases hen : s.Enabled with
        | false =>
          simp [hd, Except.toOption, hen] at h
          have := hskip Q h
          subst this
          exact Or.inl (providersUnused_of_same_initial _ hsame)
        | true =>
          simp only [hd, Except.toOption, Option.map_some', hen, if_true] at h
          unfold askProviderOptions at h
          rw [if_pos rfl, hsl] at h
          obtain ⟨s', t1, hs', h⟩ := Prog.bind_ok_inv h
          have hQ := Prog.pure_ok_inv h
          subst hQ
          have hs' := Prog.wrapIf_ok_inv hs'
          have e1 : s' = s := by
            have := hsame.1
            rw [hsl, hd, GoMap.get?_set, if_pos rfl] at this
            simp only [decodeSlack, Except.ok.injEq] at this
            exact this
          subst e1
          obtain ⟨hch, hsec⟩ := askNotificationProviderSlack_keepDefault_inv banzaiCLI L hcli
            _ _ _ _ hd hs'
          refine Or.inr (Or.inr ⟨?_, hpd, e, s', hsl, hd, hen, hch, hsec⟩)
          refine hknown _ (fun k h1 h2 => ?_) hsame
          rw [GoMap.get?_set, if_neg (Ne.symm h1)]
          simp [initialProvider, GoMap.get?, Ne.symm h1, Ne.symm h2]

/-- Alertmanager read backwards: when what comes back has the stored flag and ingress and
holds the same providers, the stored sub-spec is in the form the builder gives back. -/
theorem askAlertmanager_keepDefault_inv (banzaiCLI : Cli) (L : String → List SecretItem)
    (hcli : ∀ tr kind, banzaiCLI.GetSecrets tr kind = .ok (L kind))
    (g a : alertmanagerSpec) (tr tr1 : List Event)
    (h : askAlertmanager keepDefault banzaiCLI g tr = (.ok a, tr1))
    (haen : a.Enabled = g.Enabled) (haing : a.Ingress = g.Ingress)
    (hprov : SameProviders a.Provider g.Provider) :
    if g.Enabled then
      (ProvidersUnused g.Provider
        ∨ PagerDutyKept (L pagerDutySecretType) g.Provider
        ∨ SlackKept (L slackSecretType) g.Provider)
      ∧ AuthIngressKept (L htPasswordSecretType) g.Ingress
    else
      g.Ingress = ingressSpecWithSecret.zero ∧ ProvidersUnused g.Provider := by
  unfold askAlertmanager at h
  obtain ⟨b, t1, hb, h⟩ := Prog.bind_ok_inv h
  have hb := Prog.returns_unique (keepDefault_confirm _) (Prog.wrapIf_ok_inv hb)
  subst hb
  cases hen : g.Enabled with
  | false =>
    simp only [hen, Bool.false_eq_true, if_false] at h ⊢
    have ha := Prog.pure_ok_inv h
    subst ha
    obtain ⟨hs, hp, ho⟩ := hprov
    exact ⟨haing.symm, fun k h1 h2 => (ho k h1 h2).symm, hs.symm, hp.symm⟩
  | true =>
    simp only [hen, if_true] at h ⊢
    obtain ⟨sel, t2, hsel, h⟩ := Prog.bind_ok_inv h
    have hsel := Prog.returns_unique (keepDefault_select _) (Prog.wrapIf_ok_inv hsel)
    subst hsel
    obtain ⟨Q, t3, hQ, h⟩ := Prog.bind_ok_inv h
    obtain ⟨i, sid, ha, hk⟩ := authIngress_keepDefault_inv banzaiCLI L hcli _ _ _ g.Ingress
      (fun i sid => ({ Enabled := true, Provider := Q,
                       Ingress := { baseIngressSpec := i, SecretId := sid } } :
                     alertmanagerSpec))
      a _ _ h
    subst ha
    exact ⟨askProviderOptions_keepDefault_inv banzaiCLI L hcli g Q _ _ hQ hprov,
      hk (by rw [← haing]) (by rw [← haing])⟩

/-- A successful update ran the four builders one after the other on the decoded sub-specs
and wrote what they returned. -/
theorem BuildUpdateRequestInteractively_ok_runs (op : Operator) (banzaiCLI : Cli)
    (request : UpdateIntegratedServiceRequest) (tr : List Event) (S : serviceSpec)
    (hdec : decodeServiceSpec request.Spec = .ok S)
    (h : (BuildUpdateRequestInteractively op banzaiCLI request tr).err = .ok ()) :
    ∃ g p a pg t1 t2 t3 t4,
      askGrafana op banzaiCLI S.Grafana tr = (.ok g, t1)
      ∧ askPrometheus op banzaiCLI S.Prometheus t1 = (.ok p, t2)
      ∧ askAlertmanager op banzaiCLI S.Alertmanager t2 = (.ok a, t3)
      ∧ askPushgateway op banzaiCLI S.Pushgateway t3 = (.ok pg, t4)
      ∧ (BuildUpdateRequestInteractively op banzaiCLI request tr).request.Spec
          = GoMap.set (GoMap.set (GoMap.set (GoMap.set request.Spec
              "grafana" (Value.grafanaSpec g))
              "prometheus" (Value.prometheusSpec p))
              "alertmanager" (Value.alertmanagerSpec a))
              "pushgateway" (Value.pushgatewaySpec pg) := by
  unfold BuildUpdateRequestInteractively at h ⊢
  simp only [hdec] at h ⊢
  rcases hg : (askGrafana op banzaiCLI S.Grafana).wrapIf
      "error during getting Grafana options" tr with ⟨rg, t1⟩
  rw [hg] at h
  cases rg with
  | error e => simp at h
  | ok g =>
    rcases hp : (askPrometheus op banzaiCLI S.Prometheus).wrapIf
        "error during getting Prometheus options" t1 with ⟨rp, t2⟩
    simp only [hp] at h
    cases rp with
    | error e => simp at h
    | ok p =>
      rcases ha : (askAlertmanager op banzaiCLI S.Alertmanager).wrapIf
          "error during getting Alertmanager options" t2 with ⟨ra, t3⟩
      simp only [ha] at h
      cases ra with
      | error e => simp at h
      | ok a =>
        rcases hpg : (askPushgateway op banzaiCLI S.Pushgateway).wrapIf
            "error during getting Pushgateway options" t3 with ⟨rpg, t4⟩
        simp only [hpg] at h
        cases rpg with
        | error e => simp at h
        | ok pg =>
          exact ⟨g, p, a, pg, t1, t2, t3, t4, Prog.wrapIf_ok_inv hg, Prog.wrapIf_ok_inv hp,
            Prog.wrapIf_ok_inv ha, Prog.wrapIf_ok_inv hpg, by simp only [hp, ha, hpg]⟩

/-! ### The round trip -/

/-- C1 (amended): let the backend always list the credentials `L`, and let the stored
document D decode into a specification S. Running BuildUpdateRequestInteractively on D with
every prompt answered by the default it offers returns no error and leaves a document that
decodes into a specification equal to S (`SameSpec`: the provider entries of Alertmanager,
untyped in D and typed in the result, are compared by what they decode to) if and only if S
is in the form the builders give back (`BuilderNormal`): Prometheus is enabled with a size
below 2^64; a disabled Grafana or Pushgateway is the zero value; a disabled Alertmanager has
the zero ingress and no provider in use; a disabled ingress has empty domain, path and
secret; an enabled Alertmanager has no provider in use, or PagerDuty enabled under a known
integration type with slack absent or zero, or Slack enabled with an empty channel and no
pagerDuty entry; and every secret of an enabled part is one the resolver hands back
(`SecretKept`). -/
theorem C1_noop_update_roundtrip (banzaiCLI : Cli) (L : String → List SecretItem)
    (D : GoMap Value) (S : serviceSpec) (tr : List Event)
    (hcli : ∀ tr kind, banzaiCLI.GetSecrets tr kind = .ok (L kind))
    (hdec : decodeServiceSpec D = .ok S) :
    ((BuildUpdateRequestInteractively keepDefault banzaiCLI { Spec := D } tr).err = .ok ()
      ∧ ∃ S', decodeServiceSpec
          (BuildUpdateRequestInteractively keepDefault banzaiCLI { Spec := D } tr).request.Spec
            = .ok S'
        ∧ SameSpec S' S)
    ↔ BuilderNormal L S := by
  obtain ⟨_, _, _, _, hex⟩ := decodeServiceSpec_ok D S hdec
  constructor
  · rintro ⟨herr, S', hS', hsame⟩
    obtain ⟨g, p, a, pg, t1, t2, t3, t4, hg, hp, ha, hpg, hout⟩ :=
      BuildUpdateRequestInteractively_ok_runs keepDefault banzaiCLI { Spec := D } tr S hdec herr
    rw [hout, decodeServiceSpec_after_update D g p a pg S.Exporters hex] at hS'
    simp only [Except.ok.injEq] at hS'
    subst hS'
    obtain ⟨e1, e2, e3, e4, e5, e6, _⟩ := hsame
    simp only [] at e1 e2 e3 e4 e5 e6
    subst e1
    subst e2
    subst e6
    exact ⟨askGrafana_keepDefault_inv banzaiCLI L hcli _ _ _ hg,
      askPrometheus_keepDefault_inv banzaiCLI L hcli _ _ _ hp,
      askAlertmanager_keepDefault_inv banzaiCLI L hcli _ _ _ _ ha e3 e4 e5,
      askPushgateway_keepDefault_inv banzaiCLI L hcli _ _ _ hpg⟩
  · rintro ⟨hg, hp, ha, hpg⟩
    obtain ⟨a, har, haen, haing, haprov⟩ :=
      askAlertmanager_keepDefault banzaiCLI L hcli S.Alertmanager ha
    obtain ⟨herr, hout⟩ := BuildUpdateRequestInteractively_of_returns keepDefault banzaiCLI
      { Spec := D } tr S S.Grafana S.Prometheus a S.Pushgateway hdec
      (askGrafana_keepDefault banzaiCLI L hcli S.Grafana hg)
      (askPrometheus_keepDefault banzaiCLI L hcli S.Prometheus hp)
      har
      (askPushgateway_keepDefault banzaiCLI L hcli S.Pushgateway hpg)
    refine ⟨herr, { Grafana := S.Grafana, Prometheus := S.Prometheus, Alertmanager := a,
                    Pushgateway := S.Pushgateway, Exporters := S.Exporters }, ?_, ?_⟩
    · rw [hout]
      exact decodeServiceSpec_after_update D _ _ _ _ _ hex
    · exact ⟨rfl, rfl, haen, haing, haprov, rfl, rfl⟩

/-- The stored document `storedDoc` decodes into `storedSpec`. -/
theorem storedDoc_decodes : decodeServiceSpec storedDoc = .ok storedSpec := rfl

/-- The specification `storedSpec` is in the form the builders give back, PagerDuty being the
provider in use. -/
theorem storedSpec_builderNormal : BuilderNormal storedListing storedSpec := by
  refine ⟨⟨by decide, fun h => absurd h (by decide)⟩,
    ⟨rfl, by decide, fun _ => by decide, fun h => absurd h (by decide)⟩,
    ⟨Or.inr (Or.inl ⟨?_, rfl, _, _, rfl, rfl, rfl, Or.inl rfl, by decide⟩),
     fun _ => by decide, fun h => absurd h (by decide)⟩,
    rfl⟩
  intro k h1 h2
  have h1' : ¬ "slack" = k := fun h => h1 h.symm
  have h2' : ¬ "pagerDuty" = k := fun h => h2 h.symm
  simp [storedSpec, GoMap.get?, h1', h2']

/-- C1 (amended) at a concrete input: the untyped stored document `storedDoc`, in which
Alertmanager is enabled with PagerDuty in use, and the credentials of `storedListing`. -/
theorem C1_noop_update_roundtrip_witness :
    decodeServiceSpec storedDoc = .ok storedSpec
    ∧ BuilderNormal storedListing storedSpec
    ∧ (BuildUpdateRequestInteractively keepDefault (cliListing storedListing)
        { Spec := storedDoc } []).err = .ok ()
    ∧ ∃ S', decodeServiceSpec
        (BuildUpdateRequestInteractively keepDefault (cliListing storedListing)
          { Spec := storedDoc } []).request.Spec = .ok S'
      ∧ SameSpec S' storedSpec :=
  ⟨storedDoc_decodes, storedSpec_builderNormal,
   (C1_noop_update_roundtrip (cliListing storedListing) storedListing storedDoc storedSpec []
    (fun _ _ => rfl) storedDoc_decodes).mpr storedSpec_builderNormal⟩

end Monitoring
